import Mathlib

/-!
FreeMS2 engine-position decoder: embedding of `MissingTeeth.c`.

A shallow embedding of the two input-capture interrupt handlers of
`src/MissingTeeth.c` (`PrimaryRPMISR`, `SecondaryRPMISR`) and theorems about
them.  Machine integers are natural numbers reduced explicitly modulo their
width; the function-static variables and the globals the handlers touch are
the fields of one record that is passed through each handler.  The handlers
of `src/realtimeISRs.c` (`RTIISR`, `TimerOverflow`) and the function
`lookupBlockDetails` of `src/blockDetailsLookup.c` are embedded the same way.
-/

namespace FreeMS2

/-! ## Machine arithmetic -/

/-- Modulus of `unsigned short` (16 bits). -/
def USHORT_MOD : Nat := 65536

/-- Modulus of `unsigned long` (32 bits), the type of `LongTime.timeLong`. -/
def ULONG_MOD : Nat := 4294967296

/-- Modulus of `unsigned int`, the type of the static `count`: 16 bits on the
HCS12 target. -/
def UINT_MOD : Nat := 65536

/-- Unsigned 16-bit subtraction `a - b`. -/
def sub16 (a b : Nat) : Nat := (a + USHORT_MOD - b) % USHORT_MOD

/-- Unsigned 32-bit addition `a + b`. -/
def add32 (a b : Nat) : Nat := (a + b) % ULONG_MOD

/-- Unsigned 32-bit subtraction `a - b`. -/
def sub32 (a b : Nat) : Nat := (a + ULONG_MOD - b) % ULONG_MOD

/-- Unsigned 32-bit left shift `a << n`. -/
def shl32 (a n : Nat) : Nat := (a <<< n) % ULONG_MOD

/-- Modelled from the spec: the declaration of the union `LongTime` is in a
header that is not among the sources.  The spec composes the wide timestamp as
`(high_half << 16) | rawCounter`, and the handlers call `timeShorts[1]` the low
word and `timeShorts[0]` the high word; this is `timeLong` read back after both
shorts have been written. -/
def timeLong (timeShorts0 timeShorts1 : Nat) : Nat :=
  timeShorts0 * 65536 + timeShorts1

/-! ## State and inputs -/

/-- Register values an input-capture handler reads during one invocation. -/
structure Regs where
  /-- Free running counter `TCNT`, as read on entry (`codeStartTimeStamp`). -/
  TCNT : Nat
  /-- Free running counter `TCNT`, as read again when the runtime is recorded. -/
  TCNT2 : Nat
  /-- Capture register of channel 0 (primary edge time stamp). -/
  TC0 : Nat
  /-- Capture register of channel 1 (secondary edge time stamp). -/
  TC1 : Nat
  /-- Port T input register. -/
  PTIT : Nat
  /-- Timer overflow flag register; non-zero means an overflow is pending. -/
  TFLGOF : Nat
deriving DecidableEq, Repr

/-- The statics of `PrimaryRPMISR` and the globals written or read by the two
handlers.  In the words of the spec: `count` is `toothIndex`, `lastTimeStamp`
is `lastEdgeTime`, `lastHighLowTime` is `lastFullToothPeriod`, `lowTime` is
`pendingLowPhaseDuration`, `lastPeriod` is `lastInterval`, and
`primaryPulsesPerSecondaryPulse` is the cross-channel tally. -/
structure State where
  thisHighLowTime : Nat
  lastHighLowTime : Nat
  lowTime : Nat
  lastPeriod : Nat
  lastTimeStamp : Nat
  count : Nat
  timerExtensionClock : Nat
  primaryPulsesPerSecondaryPulse : Nat
  primaryInputLatency : Nat
  secondaryInputLatency : Nat
  primaryInputLeadingRuntime : Nat
  primaryInputTrailingRuntime : Nat
  secondaryInputLeadingRuntime : Nat
  secondaryInputTrailingRuntime : Nat
  primaryTeethSeen : Nat
  secondaryTeethSeen : Nat
  /-- Last value written to the timer flag register `TFLG`. -/
  TFLG : Nat
deriving DecidableEq, Repr

/-- The state at system initialisation: every field zero. -/
def State.reset : State :=
  { thisHighLowTime := 0, lastHighLowTime := 0, lowTime := 0, lastPeriod := 0,
    lastTimeStamp := 0, count := 0, timerExtensionClock := 0,
    primaryPulsesPerSecondaryPulse := 0, primaryInputLatency := 0,
    secondaryInputLatency := 0, primaryInputLeadingRuntime := 0,
    primaryInputTrailingRuntime := 0, secondaryInputLeadingRuntime := 0,
    secondaryInputTrailingRuntime := 0, primaryTeethSeen := 0,
    secondaryTeethSeen := 0, TFLG := 0 }

/-! ## The handlers -/

/-- The extended time stamp both handlers build (`MissingTeeth.c` lines 67-75
and 161-170): the edge time stamp is the low word, and the high word is
`timerExtensionClock + 1` when the overflow flag is set and bit 15 of the edge
time stamp is clear, `timerExtensionClock` otherwise. -/
def extendedTimeStamp (TFLGOF edgeTimeStamp timerExtensionClock : Nat) : Nat :=
  let timeShorts1 := edgeTimeStamp
  let timeShorts0 :=
    if TFLGOF ≠ 0 ∧ (edgeTimeStamp &&& 0x8000) = 0 then
      (timerExtensionClock + 1) % USHORT_MOD
    else
      timerExtensionClock
  timeLong timeShorts0 timeShorts1

/-- Ticks between transitions (`MissingTeeth.c` lines 78-84). -/
def ticksBetween (thisTimeStamp lastTimeStamp : Nat) : Nat :=
  if thisTimeStamp > lastTimeStamp then
    sub32 thisTimeStamp lastTimeStamp
  else
    add32 thisTimeStamp (sub32 0xFFFFFFFF lastTimeStamp)

/-- The handler `PrimaryRPMISR` of `MissingTeeth.c`. -/
def PrimaryRPMISR (hw : Regs) (g : State) : State :=
  let codeStartTimeStamp := hw.TCNT
  let edgeTimeStamp := hw.TC0
  let PTITCurrentState := hw.PTIT
  let g := { g with TFLG := 0x01,
                    primaryInputLatency := sub16 codeStartTimeStamp edgeTimeStamp }
  let thisTimeStamp := extendedTimeStamp hw.TFLGOF edgeTimeStamp g.timerExtensionClock
  let thisPeriod := ticksBetween thisTimeStamp g.lastTimeStamp
  let g := { g with lastTimeStamp := thisTimeStamp }
  let risingEdge := PTITCurrentState &&& 0x01
  let g :=
    if g.lastPeriod ≠ 0 then
      if risingEdge ≠ 0 then
        let thisHighLowTime := add32 thisPeriod g.lowTime
        let count :=
          if g.count = 0 ∨ g.count = 70 then
            if thisHighLowTime > add32 g.lastHighLowTime (g.lastHighLowTime >>> 1) ∧
                thisHighLowTime < add32 (shl32 g.lastHighLowTime 1) (g.lastHighLowTime >>> 1) then
              1
            else
              0
          else if g.count = 2 ∨ (g.count % 2 = 0 ∧
              thisHighLowTime > g.lastHighLowTime >>> 1 ∧
              thisHighLowTime < shl32 g.lastHighLowTime 1) then
            (g.count + 1) % UINT_MOD
          else
            0
        { g with thisHighLowTime := thisHighLowTime,
                 count := count,
                 lastHighLowTime := thisHighLowTime,
                 primaryPulsesPerSecondaryPulse :=
                   (g.primaryPulsesPerSecondaryPulse + 1) % USHORT_MOD,
                 primaryInputLeadingRuntime := sub16 hw.TCNT2 codeStartTimeStamp }
      else
        let count := if g.count % 2 = 1 then (g.count + 1) % UINT_MOD else 0
        { g with count := count,
                 primaryInputTrailingRuntime := sub16 hw.TCNT2 codeStartTimeStamp,
                 lowTime := thisPeriod }
    else
      g
  { g with lastPeriod := thisPeriod,
           primaryTeethSeen := (g.primaryTeethSeen + 1) % USHORT_MOD }

/-- What `SecondaryRPMISR` leaves behind: the globals, and the value of its
local `timeStamp` when the qualifying branch built one (the local is not stored
anywhere by the handler). -/
structure SecondaryRun where
  globals : State
  timeStamp : Option Nat
deriving DecidableEq, Repr

/-- The handler `SecondaryRPMISR` of `MissingTeeth.c`.  The configuration byte
`fixedConfigs1.coreSettingsA` and the mask `SECONDARY_POLARITY` are declared in
headers that are not among the sources and are taken as parameters. -/
def SecondaryRPMISR (coreSettingsA SECONDARY_POLARITY : Nat) (hw : Regs) (g : State) :
    SecondaryRun :=
  let codeStartTimeStamp := hw.TCNT
  let edgeTimeStamp := hw.TC1
  let PTITCurrentState := hw.PTIT
  let g := { g with TFLG := 0x02,
                    secondaryInputLatency := sub16 codeStartTimeStamp edgeTimeStamp }
  let risingEdge :=
    if (coreSettingsA &&& SECONDARY_POLARITY) ≠ 0 then
      PTITCurrentState &&& 0x02
    else
      (if (PTITCurrentState &&& 0x02) ≠ 0 then 0 else 1)
  let r : SecondaryRun :=
    if risingEdge ≠ 0 then
      let timeStamp := extendedTimeStamp hw.TFLGOF edgeTimeStamp g.timerExtensionClock
      { globals := { g with secondaryInputLeadingRuntime := sub16 hw.TCNT2 codeStartTimeStamp },
        timeStamp := some timeStamp }
    else
      { globals := { g with secondaryInputTrailingRuntime := sub16 hw.TCNT2 codeStartTimeStamp },
        timeStamp := none }
  { r with globals :=
      { r.globals with secondaryTeethSeen := (r.globals.secondaryTeethSeen + 1) % USHORT_MOD } }

/-! ## Runs of the primary handler -/

/-- Registers of a primary edge captured at the wide time `ts`, no overflow
pending; to be used with the extension word `ts / 65536`.  Bit 0 of the port
is the level of the primary pin after the edge. -/
def edgeRegs (ts : Nat) (rising : Bool) : Regs :=
  { TCNT := ts % 65536, TCNT2 := ts % 65536, TC0 := ts % 65536, TC1 := 0,
    PTIT := if rising then 1 else 0, TFLGOF := 0 }

/-- The primary handler run on the first `n` edges of a sequence: `hw k` are the
registers read at edge `k` and `ext k` is the value `timerExtensionClock` has
at that moment (the overflow handler changes it between edges). -/
def primaryRun (hw : Nat → Regs) (ext : Nat → Nat) (g : State) : Nat → State
  | 0 => g
  | k + 1 => PrimaryRPMISR (hw k) { primaryRun hw ext g k with timerExtensionClock := ext k }

/-- The primary handler run on a list of edges given by wide time stamp and
polarity. -/
def primaryEdges (g : State) : List (Nat × Bool) → State
  | [] => g
  | e :: es =>
    primaryEdges (PrimaryRPMISR (edgeRegs e.1 e.2) { g with timerExtensionClock := e.1 / 65536 }) es

/-- A decoder state, reached from reset by a falling, a rising and a falling
edge one tick apart, in which `lastHighLowTime` is odd (it is 1). -/
def oddPeriodState : State :=
  primaryEdges State.reset [(5, false), (6, true), (7, false)]

/-- A decoder state with `count = 1` reached from reset, whose last edge was
captured at 0xFFFFFFFF. -/
def beforeWrapState : State :=
  primaryEdges State.reset
    [(4294967265, false), (4294967275, true), (4294967285, false), (4294967295, true)]

/-! ## A missing-tooth wheel as stimulus -/

/-- Ticks from edge `k - 1` to edge `k` of a 35-tooth wheel (70 edges per
revolution) that starts at phase `p`: the rising edge after the missing tooth,
at the positions with `(p + k) % 70 = 0`, follows its predecessor by `m` ticks
and every other edge by `h` ticks. -/
def wheelGap (h m p k : Nat) : Nat := if (p + k) % 70 = 0 then m else h

/-- Wide time stamp of edge `k`: the first edge is at `t0`. -/
def wheelTime (t0 h m p : Nat) : Nat → Nat
  | 0 => t0
  | k + 1 => wheelTime t0 h m p k + wheelGap h m p (k + 1)

/-- Registers at edge `k` of the wheel: edges at even positions are rising. -/
def wheelRegs (t0 h m p k : Nat) : Regs :=
  edgeRegs (wheelTime t0 h m p k) ((p + k) % 2 == 0)

/-- Extension word at edge `k` of the wheel. -/
def wheelExt (t0 h m p k : Nat) : Nat := wheelTime t0 h m p k / 65536

/-- The value of `count` after edge `k` of the wheel, from the reset state. -/
def wheelCount (t0 h m p k : Nat) : Nat :=
  (primaryRun (wheelRegs t0 h m p) (wheelExt t0 h m p) State.reset (k + 1)).count

/-- The invariant of the decoder on a wheel with half tooth period `h` and
landmark gap `3 * h`, for the state after edge `k >= 3`: `c` is `count`, `L` is
`lastHighLowTime` and `lo` is `lowTime`.  Before the first landmark edge the
decoder may be counting from a falsely accepted landmark; between the first and
the second landmark edge it is either in step with the wheel or (after at most
two more edges) back at 0; from the second landmark edge on it is in step. -/
def SyncInv (h p k c L lo : Nat) : Prop :=
  lo = h ∧ L = (if (p + k) % 70 ≤ 1 then 4 * h else 2 * h) ∧
  (if k < (70 - p) % 70 then
    c ≤ k - 2 ∧ ((p + k) % 2 = 1 → c % 2 = 0) ∧ ((p + k) % 2 = 0 → c = 0 ∨ c % 2 = 1)
  else if k < (70 - p) % 70 + 70 then
    c = 1 + (k - (70 - p) % 70) ∨ c = 0 ∨ (k = (70 - p) % 70 ∧ c = 3) ∨
      (k = (70 - p) % 70 + 1 ∧ c = 4)
  else
    c = 1 + (k - ((70 - p) % 70 + 70)) % 70)

/-- The effect of one classified edge of `PrimaryRPMISR` on `count`,
`lastHighLowTime` and `lowTime` (before: `c`, `L`, `lo`; after: `c'`, `L'`,
`lo'`), for the measured interval `gap`, with shifts and 32-bit operations
written as arithmetic.  `primaryRun_edgeStep` proves it of the handler. -/
def EdgeStep (rising : Prop) (gap c L lo c' L' lo' : Nat) : Prop :=
  (rising →
    c' = (if c = 0 ∨ c = 70 then
        if (gap + lo) % 4294967296 > (L + L / 2) % 4294967296 ∧
            (gap + lo) % 4294967296 < (2 * L % 4294967296 + L / 2) % 4294967296 then 1 else 0
      else if c = 2 ∨ (c % 2 = 0 ∧ (gap + lo) % 4294967296 > L / 2 ∧
          (gap + lo) % 4294967296 < 2 * L % 4294967296) then (c + 1) % 65536
      else 0) ∧
    L' = (gap + lo) % 4294967296 ∧ lo' = lo) ∧
  (¬ rising →
    c' = (if c % 2 = 1 then (c + 1) % 65536 else 0) ∧ L' = L ∧ lo' = gap)

/-! ## Inputs for the frame properties -/

/-- A decoder state in landmark search (`count = 0`) reached from reset by a
falling, a rising and a falling edge ten ticks apart; the rising edge at
0xFFFFFFFF that leads to `beforeWrapState` is accepted from it. -/
def beforeLandmarkState : State :=
  primaryEdges State.reset [(4294967265, false), (4294967275, true), (4294967285, false)]

/-- The fields the spec calls the primary decoder state: `count`,
`lastTimeStamp`, `lastHighLowTime`, `lowTime` and `lastPeriod`. -/
def decoderState (g : State) : Nat × Nat × Nat × Nat × Nat :=
  (g.count, g.lastTimeStamp, g.lastHighLowTime, g.lowTime, g.lastPeriod)

/-- The decoder state and extension word of `beforeLandmarkState` at its next
edge, with other values in the diagnostics, the tally and the flag register. -/
def otherDiagnosticsState : State :=
  { beforeLandmarkState with
    timerExtensionClock := 65535
    primaryTeethSeen := 500
    primaryInputLatency := 77
    primaryInputLeadingRuntime := 3
    primaryPulsesPerSecondaryPulse := 9
    TFLG := 2 }

/-! ## Reading the time base, and a resynchronising stimulus -/

/-- The conditions under which the handler reads the time base for an edge at
the true tick `t`: the capture register holds `t mod 2^16`, the overflow flag
and the extension word `ext` are read at the true tick `r`, less than 0x8000
ticks after the edge, and either no overflow is pending and `ext` is
`floor(r / 2^16) = floor(t / 2^16)`, or an overflow is pending, `ext` is one
behind `floor(r / 2^16)` and the counter at `r` is below 0x8000. -/
def BoundedLatencyRead (hw : Regs) (ext t r : Nat) : Prop :=
  t < 4294967296 ∧ t ≤ r ∧ r < t + 0x8000 ∧ hw.TC0 = t % 65536 ∧
  ((hw.TFLGOF = 0 ∧ ext = r / 65536 ∧ r / 65536 = t / 65536) ∨
    (hw.TFLGOF ≠ 0 ∧ ext + 1 = r / 65536 ∧ r % 65536 < 0x8000))

/-- Eight edges, by wide time stamp and polarity, that end with an accepted
landmark whatever the state before them: four falling edges, a rising edge, two
falling edges ten ticks apart, and a rising edge thirty ticks later. -/
def resyncEdges : List (Nat × Bool) :=
  [(0, false), (10, false), (20, false), (30, false), (40, true), (50, false), (60, false),
    (90, true)]

/-- One step of `primaryEdges`: the primary handler on an edge given by wide
time stamp and polarity. -/
def primaryEdge (g : State) (e : Nat × Bool) : State :=
  PrimaryRPMISR (edgeRegs e.1 e.2) { g with timerExtensionClock := e.1 / 65536 }

/-! ## The handlers of `realtimeISRs.c` -/

/-- The globals and registers the handlers of `realtimeISRs.c` write, apart
from `timerExtensionClock`, which is a field of `State`.  The first nine
fields are the struct `Clocks`; its declaration is in a header that is not
among the sources, and its counters are taken as unsigned shorts (the handler
remarks that 65535 minutes are enough).  `CRGFLG` and `TFLGOF` hold the last
value written to the flag registers. -/
structure RTState where
  realTimeClockMain : Nat
  realTimeClockMillis : Nat
  realTimeClockTenths : Nat
  realTimeClockSeconds : Nat
  realTimeClockMinutes : Nat
  millisToTenths : Nat
  tenthsToSeconds : Nat
  secondsToMinutes : Nat
  timeoutADCreadingClock : Nat
  coreStatusA : Nat
  portHDebounce : Nat
  ShouldSendLog : Nat
  RTCRuntime : Nat
  CRGFLG : Nat
  PORTM : Nat
  PORTE : Nat
  TFLGOF : Nat
deriving DecidableEq, Repr

/-- The handler `RTIISR` of `realtimeISRs.c`.  `TCNT` and `TCNT2` are the two
reads of the free running counter; the configured
`fixedConfigs2.sensorSettings.readingTimeout` and the mask `FORCE_READING` are
declared outside the sources and are parameters. -/
def RTIISR (TCNT TCNT2 readingTimeout FORCE_READING : Nat) (s : RTState) : RTState :=
  let startTimeRTI := TCNT
  let realTimeClockMain := (s.realTimeClockMain + 1) % USHORT_MOD
  let s := { s with CRGFLG := 0x80, realTimeClockMain := realTimeClockMain }
  let s :=
    if realTimeClockMain % 8 = 0 then
      let millisToTenths := (s.millisToTenths + 1) % USHORT_MOD
      let timeoutADCreadingClock := (s.timeoutADCreadingClock + 1) % USHORT_MOD
      let s := { s with realTimeClockMillis := (s.realTimeClockMillis + 1) % USHORT_MOD,
                        millisToTenths := millisToTenths,
                        timeoutADCreadingClock := timeoutADCreadingClock }
      let s :=
        if timeoutADCreadingClock > readingTimeout then
          { s with coreStatusA := s.coreStatusA ||| FORCE_READING,
                   timeoutADCreadingClock := 0 }
        else
          s
      if millisToTenths % 100 = 0 then
        let tenthsToSeconds := (s.tenthsToSeconds + 1) % USHORT_MOD
        let s := { s with realTimeClockTenths := (s.realTimeClockTenths + 1) % USHORT_MOD,
                          tenthsToSeconds := tenthsToSeconds,
                          millisToTenths := 0,
                          portHDebounce :=
                            if s.portHDebounce ≠ 0 then s.portHDebounce - 1
                            else s.portHDebounce }
        if tenthsToSeconds % 10 = 0 then
          let secondsToMinutes := (s.secondsToMinutes + 1) % USHORT_MOD
          let s := { s with realTimeClockSeconds := (s.realTimeClockSeconds + 1) % USHORT_MOD,
                            secondsToMinutes := secondsToMinutes,
                            tenthsToSeconds := 0,
                            ShouldSendLog := 1,
                            PORTM := s.PORTM ^^^ 0x20 }
          if secondsToMinutes % 60 = 0 then
            { s with realTimeClockMinutes := (s.realTimeClockMinutes + 1) % USHORT_MOD,
                     secondsToMinutes := 0 }
          else
            s
        else
          s
      else
        s
    else
      s
  { s with RTCRuntime := sub16 TCNT2 startTimeRTI }

/-- The handler `TimerOverflow` of `realtimeISRs.c`: it increments the
unsigned short `timerExtensionClock`, toggles bit 4 of port E and writes 0x80
to the overflow flag register. -/
def TimerOverflow (g : State) (s : RTState) : State × RTState :=
  let g := { g with timerExtensionClock := (g.timerExtensionClock + 1) % USHORT_MOD }
  let s := { s with PORTE := s.PORTE ^^^ 0x10 }
  let s := { s with TFLGOF := 0x80 }
  (g, s)

/-- The handler `TimerOverflow` invoked `n` times. -/
def timerOverflows : Nat → State × RTState → State × RTState
  | 0, x => x
  | n + 1, x => TimerOverflow (timerOverflows n x).1 (timerOverflows n x).2

/-- The handler `RTIISR` invoked `n` times; `tcnt k` are the two counter reads
of invocation `k`. -/
def rtiRun (tcnt : Nat → Nat × Nat) (readingTimeout FORCE_READING : Nat) (s : RTState) :
    Nat → RTState
  | 0 => s
  | n + 1 =>
    RTIISR (tcnt n).1 (tcnt n).2 readingTimeout FORCE_READING
      (rtiRun tcnt readingTimeout FORCE_READING s n)

/-- The clocks of `RTIISR` after `n` invocations from zero: the five clocks and
the three roll-over counters. -/
def ClocksAt (n : Nat) (s : RTState) : Prop :=
  s.realTimeClockMain = n % 65536 ∧
  s.realTimeClockMillis = n / 8 % 65536 ∧
  s.realTimeClockTenths = n / 800 % 65536 ∧
  s.realTimeClockSeconds = n / 8000 % 65536 ∧
  s.realTimeClockMinutes = n / 480000 % 65536 ∧
  s.millisToTenths = n / 8 % 100 ∧
  s.tenthsToSeconds = n / 800 % 10 ∧
  s.secondsToMinutes = n / 8000 % 60

/-! ## The lookup of `blockDetailsLookup.c` -/

/-- The struct `blockDetails` that `lookupBlockDetails` fills in; its
declaration is in a header that is not among the sources. -/
structure blockDetails where
  flags : Nat
  parent : Nat
  RAMPage : Nat
  FlashPage : Nat
  RAMAddress : Nat
  FlashAddress : Nat
  size : Nat
deriving DecidableEq, Repr

/-- A right-hand side in the switch of `lookupBlockDetails`: a literal, or a
constant or address expression that is declared outside the sources and is
kept by its source text. -/
inductive Val where
  | lit (n : Nat)
  | sym (text : String)
deriving DecidableEq, Repr

/-- The value of a right-hand side, given the values of the constants that are
declared outside the sources. -/
def Val.eval (env : String → Nat) : Val → Nat
  | Val.lit n => n
  | Val.sym text => env text

/-- Flag `block_has_parent`, `BIT0_16` in the comment of
`lookupBlockDetails`. -/
def block_has_parent : Nat := 0x0001

/-- Flag `block_is_in_ram`, `BIT1_16`. -/
def block_is_in_ram : Nat := 0x0002

/-- Flag `block_is_in_flash`, `BIT2_16`. -/
def block_is_in_flash : Nat := 0x0004

/-- Flag `block_is_indexable`, `BIT3_16`. -/
def block_is_indexable : Nat := 0x0008

/-- Flag `block_gets_verified`, `BIT5_16`. -/
def block_gets_verified : Nat := 0x0020

/-- Flag `block_is_2dus_table`, `BIT12_16`. -/
def block_is_2dus_table : Nat := 0x1000

/-- Flag `block_is_main_table`, `BIT13_16`. -/
def block_is_main_table : Nat := 0x2000

/-- Flag `block_is_lookup_data`, `BIT14_16`. -/
def block_is_lookup_data : Nat := 0x4000

/-- One case of the switch of `lookupBlockDetails`: its label and, for each
field of the struct, the right-hand side its body assigns, if any; `orFlags`
is the mask of `details->flags |= ...`. -/
structure SwitchCase where
  label : String
  size : Option Val
  RAMPage : Option Val
  FlashPage : Option Val
  RAMAddress : Option Val
  FlashAddress : Option Val
  orFlags : Option Nat
  parent : Option Val
deriving DecidableEq, Repr

/-- The body of a case, run on the struct. -/
def SwitchCase.run (env : String → Nat) (c : SwitchCase) (details : blockDetails) :
    blockDetails :=
  { flags := match c.orFlags with
      | some mask => details.flags ||| mask
      | none => details.flags
    parent := match c.parent with
      | some v => v.eval env
      | none => details.parent
    RAMPage := match c.RAMPage with
      | some v => v.eval env
      | none => details.RAMPage
    FlashPage := match c.FlashPage with
      | some v => v.eval env
      | none => details.FlashPage
    RAMAddress := match c.RAMAddress with
      | some v => v.eval env
      | none => details.RAMAddress
    FlashAddress := match c.FlashAddress with
      | some v => v.eval env
      | none => details.FlashAddress
    size := match c.size with
      | some v => v.eval env
      | none => details.size }

/-- The cases of the switch of `lookupBlockDetails`, in source order. -/
def switchCases : List SwitchCase := [
  { label := "FixedConfig1LocationID", size := none,
    RAMPage := none, FlashPage := some (Val.sym "PPAGE"),
    RAMAddress := none,
    FlashAddress := some (Val.sym "&fixedConfigs1"),
    orFlags := none, parent := none },
  { label := "FixedConfig2LocationID", size := none,
    RAMPage := none, FlashPage := some (Val.sym "PPAGE"),
    RAMAddress := none,
    FlashAddress := some (Val.sym "&fixedConfigs2"),
    orFlags := none, parent := none },
  { label := "IATTransferTableLocationID", size := some (Val.sym "TransferTableSize"),
    RAMPage := none, FlashPage := some (Val.sym "LOOKUP_PPAGE"),
    RAMAddress := none,
    FlashAddress := some (Val.sym "IATTransferTableLocation"),
    orFlags := none, parent := none },
  { label := "CHTTransferTableLocationID", size := some (Val.sym "TransferTableSize"),
    RAMPage := none, FlashPage := some (Val.sym "LOOKUP_PPAGE"),
    RAMAddress := none,
    FlashAddress := some (Val.sym "CHTTransferTableLocation"),
    orFlags := none, parent := none },
  { label := "MAFTransferTableLocationID", size := some (Val.sym "TransferTableSize"),
    RAMPage := none, FlashPage := some (Val.sym "LOOKUP_PPAGE"),
    RAMAddress := none,
    FlashAddress := some (Val.sym "MAFTransferTableLocation"),
    orFlags := none, parent := none },
  { label := "TestTransferTableLocationID", size := some (Val.sym "TransferTableSize"),
    RAMPage := none, FlashPage := some (Val.sym "LOOKUP_PPAGE"),
    RAMAddress := none,
    FlashAddress := some (Val.sym "TestTransferTableLocation"),
    orFlags := none, parent := none },
  { label := "VETableMainLocationID", size := none,
    RAMPage := some (Val.sym "RPAGE_FUEL_ONE"), FlashPage := some (Val.sym "FUELTABLES_PPAGE"),
    RAMAddress := some (Val.sym "&TablesA"),
    FlashAddress := some (Val.sym "VETableMainFlashLocation"),
    orFlags := none, parent := none },
  { label := "VETableMain2LocationID", size := none,
    RAMPage := some (Val.sym "RPAGE_FUEL_TWO"), FlashPage := some (Val.sym "FUELTABLES_PPAGE"),
    RAMAddress := some (Val.sym "&TablesA"),
    FlashAddress := some (Val.sym "VETableMainFlash2Location"),
    orFlags := none, parent := none },
  { label := "VETableSecondaryLocationID", size := none,
    RAMPage := some (Val.sym "RPAGE_FUEL_ONE"), FlashPage := some (Val.sym "FUELTABLES_PPAGE"),
    RAMAddress := some (Val.sym "&TablesB"),
    FlashAddress := some (Val.sym "VETableSecondaryFlashLocation"),
    orFlags := none, parent := none },
  { label := "VETableSecondary2LocationID", size := none,
    RAMPage := some (Val.sym "RPAGE_FUEL_TWO"), FlashPage := some (Val.sym "FUELTABLES_PPAGE"),
    RAMAddress := some (Val.sym "&TablesB"),
    FlashAddress := some (Val.sym "VETableSecondaryFlash2Location"),
    orFlags := none, parent := none },
  { label := "VETableTertiaryLocationID", size := none,
    RAMPage := some (Val.sym "RPAGE_FUEL_ONE"), FlashPage := some (Val.sym "FUELTABLES_PPAGE"),
    RAMAddress := some (Val.sym "&TablesC"),
    FlashAddress := some (Val.sym "VETableTertiaryFlashLocation"),
    orFlags := none, parent := none },
  { label := "VETableTertiary2LocationID", size := none,
    RAMPage := some (Val.sym "RPAGE_FUEL_TWO"), FlashPage := some (Val.sym "FUELTABLES_PPAGE"),
    RAMAddress := some (Val.sym "&TablesC"),
    FlashAddress := some (Val.sym "VETableTertiaryFlash2Location"),
    orFlags := none, parent := none },
  { label := "LambdaTableLocationID", size := none,
    RAMPage := some (Val.sym "RPAGE_FUEL_ONE"), FlashPage := some (Val.sym "FUELTABLES_PPAGE"),
    RAMAddress := some (Val.sym "&TablesD"),
    FlashAddress := some (Val.sym "LambdaTableFlashLocation"),
    orFlags := none, parent := none },
  { label := "LambdaTable2LocationID", size := none,
    RAMPage := some (Val.sym "RPAGE_FUEL_TWO"), FlashPage := some (Val.sym "FUELTABLES_PPAGE"),
    RAMAddress := some (Val.sym "&TablesD"),
    FlashAddress := some (Val.sym "LambdaTableFlash2Location"),
    orFlags := none, parent := none },
  { label := "IgnitionAdvanceTableMainLocationID", size := none,
    RAMPage := some (Val.sym "RPAGE_TIME_ONE"), FlashPage := some (Val.sym "TIMETABLES_PPAGE"),
    RAMAddress := some (Val.sym "&TablesA"),
    FlashAddress := some (Val.sym "IgnitionAdvanceTableMainFlashLocation"),
    orFlags := none, parent := none },
  { label := "IgnitionAdvanceTableMain2LocationID", size := none,
    RAMPage := some (Val.sym "RPAGE_TIME_TWO"), FlashPage := some (Val.sym "TIMETABLES_PPAGE"),
    RAMAddress := some (Val.sym "&TablesA"),
    FlashAddress := some (Val.sym "IgnitionAdvanceTableMainFlash2Location"),
    orFlags := none, parent := none },
  { label := "IgnitionAdvanceTableSecondaryLocationID", size := none,
    RAMPage := some (Val.sym "RPAGE_TIME_ONE"), FlashPage := some (Val.sym "TIMETABLES_PPAGE"),
    RAMAddress := some (Val.sym "&TablesB"),
    FlashAddress := some (Val.sym "IgnitionAdvanceTableSecondaryFlashLocation"),
    orFlags := none, parent := none },
  { label := "IgnitionAdvanceTableSecondary2LocationID", size := none,
    RAMPage := some (Val.sym "RPAGE_TIME_TWO"), FlashPage := some (Val.sym "TIMETABLES_PPAGE"),
    RAMAddress := some (Val.sym "&TablesB"),
    FlashAddress := some (Val.sym "IgnitionAdvanceTableSecondaryFlash2Location"),
    orFlags := none, parent := none },
  { label := "InjectionAdvanceTableMainLocationID", size := none,
    RAMPage := some (Val.sym "RPAGE_TIME_ONE"), FlashPage := some (Val.sym "TIMETABLES_PPAGE"),
    RAMAddress := some (Val.sym "&TablesC"),
    FlashAddress := some (Val.sym "InjectionAdvanceTableMainFlashLocation"),
    orFlags := none, parent := none },
  { label := "InjectionAdvanceTableMain2LocationID", size := none,
    RAMPage := some (Val.sym "RPAGE_TIME_TWO"), FlashPage := some (Val.sym "TIMETABLES_PPAGE"),
    RAMAddress := some (Val.sym "&TablesC"),
    FlashAddress := some (Val.sym "InjectionAdvanceTableMainFlash2Location"),
    orFlags := none, parent := none },
  { label := "InjectionAdvanceTableSecondaryLocationID", size := none,
    RAMPage := some (Val.sym "RPAGE_TIME_ONE"), FlashPage := some (Val.sym "TIMETABLES_PPAGE"),
    RAMAddress := some (Val.sym "&TablesD"),
    FlashAddress := some (Val.sym "InjectionAdvanceTableSecondaryFlashLocation"),
    orFlags := none, parent := none },
  { label := "InjectionAdvanceTableSecondary2LocationID", size := none,
    RAMPage := some (Val.sym "RPAGE_TIME_TWO"), FlashPage := some (Val.sym "TIMETABLES_PPAGE"),
    RAMAddress := some (Val.sym "&TablesD"),
    FlashAddress := some (Val.sym "InjectionAdvanceTableSecondaryFlash2Location"),
    orFlags := none, parent := none },
  { label := "SmallTablesALocationID", size := none,
    RAMPage := some (Val.sym "RPAGE_TUNE_ONE"), FlashPage := some (Val.sym "TUNETABLES_PPAGE"),
    RAMAddress := some (Val.sym "&TablesA"),
    FlashAddress := some (Val.sym "SmallTablesAFlashLocation"),
    orFlags := none, parent := none },
  { label := "SmallTablesA2LocationID", size := none,
    RAMPage := some (Val.sym "RPAGE_TUNE_TWO"), FlashPage := some (Val.sym "TUNETABLES_PPAGE"),
    RAMAddress := some (Val.sym "&TablesA"),
    FlashAddress := some (Val.sym "SmallTablesAFlash2Location"),
    orFlags := none, parent := none },
  { label := "SmallTablesBLocationID", size := none,
    RAMPage := some (Val.sym "RPAGE_TUNE_ONE"), FlashPage := some (Val.sym "TUNETABLES_PPAGE"),
    RAMAddress := some (Val.sym "&TablesB"),
    FlashAddress := some (Val.sym "SmallTablesBFlashLocation"),
    orFlags := none, parent := none },
  { label := "SmallTablesB2LocationID", size := none,
    RAMPage := some (Val.sym "RPAGE_TUNE_TWO"), FlashPage := some (Val.sym "TUNETABLES_PPAGE"),
    RAMAddress := some (Val.sym "&TablesB"),
    FlashAddress := some (Val.sym "SmallTablesBFlash2Location"),
    orFlags := none, parent := none },
  { label := "SmallTablesCLocationID", size := none,
    RAMPage := some (Val.sym "RPAGE_TUNE_ONE"), FlashPage := some (Val.sym "TUNETABLES_PPAGE"),
    RAMAddress := some (Val.sym "&TablesC"),
    FlashAddress := some (Val.sym "SmallTablesCFlashLocation"),
    orFlags := none, parent := none },
  { label := "SmallTablesC2LocationID", size := none,
    RAMPage := some (Val.sym "RPAGE_TUNE_TWO"), FlashPage := some (Val.sym "TUNETABLES_PPAGE"),
    RAMAddress := some (Val.sym "&TablesC"),
    FlashAddress := some (Val.sym "SmallTablesCFlash2Location"),
    orFlags := none, parent := none },
  { label := "SmallTablesDLocationID", size := none,
    RAMPage := some (Val.sym "RPAGE_TUNE_ONE"), FlashPage := some (Val.sym "TUNETABLES_PPAGE"),
    RAMAddress := some (Val.sym "&TablesD"),
    FlashAddress := some (Val.sym "SmallTablesDFlashLocation"),
    orFlags := none, parent := none },
  { label := "SmallTablesD2LocationID", size := none,
    RAMPage := some (Val.sym "RPAGE_TUNE_TWO"), FlashPage := some (Val.sym "TUNETABLES_PPAGE"),
    RAMAddress := some (Val.sym "&TablesD"),
    FlashAddress := some (Val.sym "SmallTablesDFlash2Location"),
    orFlags := none, parent := none },
  { label := "dwellDesiredVersusVoltageTableLocationID", size := some (Val.sym "TWODTABLEUS_SIZE"),
    RAMPage := some (Val.sym "RPAGE_TUNE_ONE"), FlashPage := some (Val.sym "TUNETABLES_PPAGE"),
    RAMAddress := some (Val.sym "&TablesA.SmallTablesA.dwellDesiredVersusVoltageTable"),
    FlashAddress := some (Val.sym "dwellDesiredVersusVoltageTableLocation"),
    orFlags := none, parent := some (Val.sym "SmallTablesALocationID") },
  { label := "dwellDesiredVersusVoltageTable2LocationID", size := some (Val.sym "TWODTABLEUS_SIZE"),
    RAMPage := some (Val.sym "RPAGE_TUNE_TWO"), FlashPage := some (Val.sym "TUNETABLES_PPAGE"),
    RAMAddress := some (Val.sym "&TablesA.SmallTablesA.dwellDesiredVersusVoltageTable"),
    FlashAddress := some (Val.sym "dwellDesiredVersusVoltageTable2Location"),
    orFlags := none, parent := none },
  { label := "injectorDeadTimeTableLocationID", size := some (Val.sym "TWODTABLEUS_SIZE"),
    RAMPage := some (Val.sym "RPAGE_TUNE_ONE"), FlashPage := some (Val.sym "TUNETABLES_PPAGE"),
    RAMAddress := some (Val.sym "&TablesA.SmallTablesA.injectorDeadTimeTable"),
    FlashAddress := some (Val.sym "injectorDeadTimeTableLocation"),
    orFlags := none, parent := some (Val.sym "SmallTablesALocationID") },
  { label := "injectorDeadTimeTable2LocationID", size := some (Val.sym "TWODTABLEUS_SIZE"),
    RAMPage := some (Val.sym "RPAGE_TUNE_TWO"), FlashPage := some (Val.sym "TUNETABLES_PPAGE"),
    RAMAddress := some (Val.sym "&TablesA.SmallTablesA.injectorDeadTimeTable"),
    FlashAddress := some (Val.sym "injectorDeadTimeTable2Location"),
    orFlags := none, parent := none },
  { label := "postStartEnrichmentTableLocationID", size := some (Val.sym "TWODTABLEUS_SIZE"),
    RAMPage := some (Val.sym "RPAGE_TUNE_ONE"), FlashPage := some (Val.sym "TUNETABLES_PPAGE"),
    RAMAddress := some (Val.sym "&TablesA.SmallTablesA.postStartEnrichmentTable"),
    FlashAddress := some (Val.sym "postStartEnrichmentTableLocation"),
    orFlags := none, parent := some (Val.sym "SmallTablesALocationID") },
  { label := "postStartEnrichmentTable2LocationID", size := some (Val.sym "TWODTABLEUS_SIZE"),
    RAMPage := some (Val.sym "RPAGE_TUNE_TWO"), FlashPage := some (Val.sym "TUNETABLES_PPAGE"),
    RAMAddress := some (Val.sym "&TablesA.SmallTablesA.postStartEnrichmentTable"),
    FlashAddress := some (Val.sym "postStartEnrichmentTable2Location"),
    orFlags := none, parent := none },
  { label := "engineTempEnrichmentTableFixedLocationID", size := some (Val.sym "TWODTABLEUS_SIZE"),
    RAMPage := some (Val.sym "RPAGE_TUNE_ONE"), FlashPage := some (Val.sym "TUNETABLES_PPAGE"),
    RAMAddress := some (Val.sym "&TablesA.SmallTablesA.engineTempEnrichmentTableFixed"),
    FlashAddress := some (Val.sym "engineTempEnrichmentTableFixedLocation"),
    orFlags := none, parent := some (Val.sym "SmallTablesALocationID") },
  { label := "engineTempEnrichmentTableFixed2LocationID", size := some (Val.sym "TWODTABLEUS_SIZE"),
    RAMPage := some (Val.sym "RPAGE_TUNE_TWO"), FlashPage := some (Val.sym "TUNETABLES_PPAGE"),
    RAMAddress := some (Val.sym "&TablesA.SmallTablesA.engineTempEnrichmentTableFixed"),
    FlashAddress := some (Val.sym "engineTempEnrichmentTableFixed2Location"),
    orFlags := none, parent := none },
  { label := "primingVolumeTableLocationID", size := some (Val.sym "TWODTABLEUS_SIZE"),
    RAMPage := some (Val.sym "RPAGE_TUNE_ONE"), FlashPage := some (Val.sym "TUNETABLES_PPAGE"),
    RAMAddress := some (Val.sym "&TablesA.SmallTablesA.primingVolumeTable"),
    FlashAddress := some (Val.sym "primingVolumeTableLocation"),
    orFlags := none, parent := some (Val.sym "SmallTablesALocationID") },
  { label := "primingVolumeTable2LocationID", size := some (Val.sym "TWODTABLEUS_SIZE"),
    RAMPage := some (Val.sym "RPAGE_TUNE_TWO"), FlashPage := some (Val.sym "TUNETABLES_PPAGE"),
    RAMAddress := some (Val.sym "&TablesA.SmallTablesA.primingVolumeTable"),
    FlashAddress := some (Val.sym "primingVolumeTable2Location"),
    orFlags := none, parent := none },
  { label := "engineTempEnrichmentTablePercentLocationID", size := some (Val.sym "TWODTABLEUS_SIZE"),
    RAMPage := some (Val.sym "RPAGE_TUNE_ONE"), FlashPage := some (Val.sym "TUNETABLES_PPAGE"),
    RAMAddress := some (Val.sym "&TablesA.SmallTablesA.engineTempEnrichmentTablePercent"),
    FlashAddress := some (Val.sym "engineTempEnrichmentTablePercentLocation"),
    orFlags := none, parent := some (Val.sym "SmallTablesALocationID") },
  { label := "engineTempEnrichmentTablePercent2LocationID", size := some (Val.sym "TWODTABLEUS_SIZE"),
    RAMPage := some (Val.sym "RPAGE_TUNE_TWO"), FlashPage := some (Val.sym "TUNETABLES_PPAGE"),
    RAMAddress := some (Val.sym "&TablesA.SmallTablesA.engineTempEnrichmentTablePercent"),
    FlashAddress := some (Val.sym "engineTempEnrichmentTablePercent2Location"),
    orFlags := none, parent := none },
  { label := "dwellMaxVersusRPMTableLocationID", size := some (Val.sym "TWODTABLEUS_SIZE"),
    RAMPage := some (Val.sym "RPAGE_TUNE_ONE"), FlashPage := some (Val.sym "TUNETABLES_PPAGE"),
    RAMAddress := some (Val.sym "&TablesA.SmallTablesA.dwellMaxVersusRPMTable"),
    FlashAddress := some (Val.sym "dwellMaxVersusRPMTableLocation"),
    orFlags := none, parent := some (Val.sym "SmallTablesALocationID") },
  { label := "dwellMaxVersusRPMTable2LocationID", size := some (Val.sym "TWODTABLEUS_SIZE"),
    RAMPage := some (Val.sym "RPAGE_TUNE_TWO"), FlashPage := some (Val.sym "TUNETABLES_PPAGE"),
    RAMAddress := some (Val.sym "&TablesA.SmallTablesA.dwellMaxVersusRPMTable"),
    FlashAddress := some (Val.sym "dwellMaxVersusRPMTable2Location"),
    orFlags := none, parent := none },
  { label := "liveTunableBlockNumeroUno", size := some (Val.lit 1),
    RAMPage := some (Val.sym "RPAGE_TUNE_ONE"), FlashPage := some (Val.sym "TUNETABLES_PPAGE"),
    RAMAddress := some (Val.sym "&TablesB.SmallTablesB"),
    FlashAddress := some (Val.sym "SmallTablesBFlashLocation"),
    orFlags := some block_has_parent, parent := some (Val.sym "SmallTablesBLocationID") },
  { label := "fillerALocationID", size := some (Val.sym "SMALL_TABLES_1_FILLER_SIZE"),
    RAMPage := some (Val.sym "RPAGE_TUNE_ONE"), FlashPage := some (Val.sym "TUNETABLES_PPAGE"),
    RAMAddress := some (Val.sym "&TablesA.SmallTablesA.filler"),
    FlashAddress := some (Val.sym "fillerALocation"),
    orFlags := none, parent := some (Val.sym "SmallTablesALocationID") },
  { label := "fillerA2LocationID", size := some (Val.sym "SMALL_TABLES_1_FILLER_SIZE"),
    RAMPage := some (Val.sym "RPAGE_TUNE_TWO"), FlashPage := some (Val.sym "TUNETABLES_PPAGE"),
    RAMAddress := some (Val.sym "&TablesA.SmallTablesA.filler"),
    FlashAddress := some (Val.sym "fillerA2Location"),
    orFlags := none, parent := some (Val.sym "SmallTablesA2LocationID") },
  { label := "fillerBLocationID", size := some (Val.sym "SMALL_TABLES_2_FILLER_SIZE"),
    RAMPage := some (Val.sym "RPAGE_TUNE_ONE"), FlashPage := some (Val.sym "TUNETABLES_PPAGE"),
    RAMAddress := some (Val.sym "&TablesB.SmallTablesB.filler"),
    FlashAddress := some (Val.sym "fillerBLocation"),
    orFlags := none, parent := some (Val.sym "SmallTablesBLocationID") },
  { label := "fillerB2LocationID", size := some (Val.sym "SMALL_TABLES_2_FILLER_SIZE"),
    RAMPage := some (Val.sym "RPAGE_TUNE_TWO"), FlashPage := some (Val.sym "TUNETABLES_PPAGE"),
    RAMAddress := some (Val.sym "&TablesB.SmallTablesB.filler"),
    FlashAddress := some (Val.sym "fillerB2Location"),
    orFlags := none, parent := some (Val.sym "SmallTablesB2LocationID") },
  { label := "fillerCLocationID", size := some (Val.sym "SMALL_TABLES_3_FILLER_SIZE"),
    RAMPage := some (Val.sym "RPAGE_TUNE_ONE"), FlashPage := some (Val.sym "TUNETABLES_PPAGE"),
    RAMAddress := some (Val.sym "&TablesC.SmallTablesC.filler"),
    FlashAddress := some (Val.sym "fillerCLocation"),
    orFlags := none, parent := some (Val.sym "SmallTablesCLocationID") },
  { label := "fillerC2LocationID", size := some (Val.sym "SMALL_TABLES_3_FILLER_SIZE"),
    RAMPage := some (Val.sym "RPAGE_TUNE_TWO"), FlashPage := some (Val.sym "TUNETABLES_PPAGE"),
    RAMAddress := some (Val.sym "&TablesC.SmallTablesC.filler"),
    FlashAddress := some (Val.sym "fillerC2Location"),
    orFlags := none, parent := some (Val.sym "SmallTablesC2LocationID") },
  { label := "fillerDLocationID", size := some (Val.sym "SMALL_TABLES_4_FILLER_SIZE"),
    RAMPage := some (Val.sym "RPAGE_TUNE_ONE"), FlashPage := some (Val.sym "TUNETABLES_PPAGE"),
    RAMAddress := some (Val.sym "&TablesD.SmallTablesD.filler"),
    FlashAddress := some (Val.sym "fillerDLocation"),
    orFlags := none, parent := some (Val.sym "SmallTablesDLocationID") },
  { label := "fillerD2LocationID", size := some (Val.sym "SMALL_TABLES_4_FILLER_SIZE"),
    RAMPage := some (Val.sym "RPAGE_TUNE_TWO"), FlashPage := some (Val.sym "TUNETABLES_PPAGE"),
    RAMAddress := some (Val.sym "&TablesD.SmallTablesD.filler"),
    FlashAddress := some (Val.sym "fillerD2Location"),
    orFlags := none, parent := some (Val.sym "SmallTablesD2LocationID") },
  { label := "engineSettingsLocationID", size := some (Val.sym "ENGINE_SETTINGS_SIZE"),
    RAMPage := none, FlashPage := some (Val.sym "PPAGE"),
    RAMAddress := none,
    FlashAddress := some (Val.sym "&fixedConfigs1.engineSettings"),
    orFlags := none, parent := some (Val.sym "FixedConfig1LocationID") },
  { label := "serialSettingsLocationID", size := some (Val.sym "SERIAL_SETTINGS_SIZE"),
    RAMPage := none, FlashPage := some (Val.sym "PPAGE"),
    RAMAddress := none,
    FlashAddress := some (Val.sym "&fixedConfigs1.serialSettings"),
    orFlags := none, parent := some (Val.sym "FixedConfig1LocationID") },
  { label := "tachoSettingsLocationID", size := some (Val.sym "TACHO_SETTINGS_SIZE"),
    RAMPage := none, FlashPage := some (Val.sym "PPAGE"),
    RAMAddress := none,
    FlashAddress := some (Val.sym "&fixedConfigs1.tachoSettings"),
    orFlags := none, parent := some (Val.sym "FixedConfig1LocationID") },
  { label := "coreSettingsALocationID", size := some (Val.lit 2),
    RAMPage := none, FlashPage := some (Val.sym "PPAGE"),
    RAMAddress := none,
    FlashAddress := some (Val.sym "&fixedConfigs1.coreSettingsA"),
    orFlags := none, parent := some (Val.sym "FixedConfig1LocationID") },
  { label := "userTextFieldLocationID", size := some (Val.sym "userTextFieldArrayLength1"),
    RAMPage := none, FlashPage := some (Val.sym "PPAGE"),
    RAMAddress := none,
    FlashAddress := some (Val.sym "&fixedConfigs1.userTextField"),
    orFlags := none, parent := some (Val.sym "FixedConfig1LocationID") },
  { label := "sensorRangesLocationID", size := some (Val.sym "SENSOR_RANGES_SIZE"),
    RAMPage := none, FlashPage := some (Val.sym "PPAGE"),
    RAMAddress := none,
    FlashAddress := some (Val.sym "&fixedConfigs2.sensorRanges"),
    orFlags := none, parent := some (Val.sym "FixedConfig2LocationID") },
  { label := "sensorPresetsLocationID", size := some (Val.sym "SENSOR_PRESETS_SIZE"),
    RAMPage := none, FlashPage := some (Val.sym "PPAGE"),
    RAMAddress := none,
    FlashAddress := some (Val.sym "&fixedConfigs2.sensorPresets"),
    orFlags := none, parent := some (Val.sym "FixedConfig2LocationID") },
  { label := "sensorSettingsLocationID", size := some (Val.sym "SENSOR_SETTINGS_SIZE"),
    RAMPage := none, FlashPage := some (Val.sym "PPAGE"),
    RAMAddress := none,
    FlashAddress := some (Val.sym "&fixedConfigs2.sensorSettings"),
    orFlags := none, parent := some (Val.sym "FixedConfig2LocationID") },
  { label := "userTextField2LocationID", size := some (Val.sym "userTextFieldArrayLength2"),
    RAMPage := none, FlashPage := some (Val.sym "PPAGE"),
    RAMAddress := none,
    FlashAddress := some (Val.sym "&fixedConfigs2.userTextField2"),
    orFlags := none, parent := some (Val.sym "FixedConfig2LocationID") }]

/-- The function `lookupBlockDetails` of `blockDetailsLookup.c`: the return
code and the struct behind `details` afterwards.  `env` gives the values of the
constants declared outside the sources (location IDs, sizes, pages, addresses,
range bounds, `locationIDNotFound`) and of the register `PPAGE`, each by its
source text.  The masks `~block_is_indexable` are taken in 16 bits. -/
def lookupBlockDetails (env : String → Nat) (locationID : Nat) (details : blockDetails) :
    Nat × blockDetails :=
  let details := { details with RAMPage := 0, FlashPage := 0, RAMAddress := 0,
                                FlashAddress := 0 }
  let details := { details with size := env "MAINTABLE_SIZE" }
  let details := { details with flags := block_is_in_flash ||| block_is_indexable }
  let details := { details with parent := 0 }
  match switchCases.find? (fun c => decide (env c.label = locationID)) with
  | none => (env "locationIDNotFound", details)
  | some c =>
    let details := c.run env details
    let details :=
      if locationID ≥ env "FlashLookupTablesLower" ∧ locationID < env "FlashLookupTablesUpper" then
        { details with flags :=
            (details.flags ||| block_is_lookup_data) &&& (0xFFFF ^^^ block_is_indexable) }
      else
        details
    let details :=
      if locationID ≥ env "MainTableLocationLower" ∧ locationID < env "MainTableLocationUpper" then
        { details with flags :=
            details.flags ||| (block_is_main_table ||| block_is_in_ram ||| block_gets_verified) }
      else
        details
    let details :=
      if locationID ≥ env "twoDTableUSLocationLower" ∧
          locationID < env "twoDTableUSLocationUpper" then
        { details with flags :=
            details.flags |||
              (block_is_2dus_table ||| block_is_in_ram ||| block_has_parent |||
                block_gets_verified) }
      else
        details
    let details :=
      if locationID ≥ env "SmallTableBlockFillersLower" ∧
          locationID < env "SmallTableBlockFillersUpper" then
        { details with flags :=
            (details.flags ||| (block_has_parent ||| block_is_in_ram)) &&&
              (0xFFFF ^^^ block_is_indexable) }
      else
        details
    (0, details)

/-- The location ID is the label of one of the cases of the switch. -/
def handledID (env : String → Nat) (locationID : Nat) : Prop :=
  ∃ c ∈ switchCases, env c.label = locationID

/-- The labels of the flash-only blocks: the two fixed configuration blocks,
the four transfer tables and the sub-chunks of the fixed configuration. -/
def flashOnlyLabels : List String :=
  ["FixedConfig1LocationID", "FixedConfig2LocationID", "IATTransferTableLocationID",
    "CHTTransferTableLocationID", "MAFTransferTableLocationID", "TestTransferTableLocationID",
    "engineSettingsLocationID", "serialSettingsLocationID", "tachoSettingsLocationID",
    "coreSettingsALocationID", "userTextFieldLocationID", "sensorRangesLocationID",
    "sensorPresetsLocationID", "sensorSettingsLocationID", "userTextField2LocationID"]

/-- Sample values of the constants: the label of case number `i` of the switch
is `i`, `locationIDNotFound` is 0x4060, everything else is 62. -/
def sampleEnv (name : String) : Nat :=
  if name = "locationIDNotFound" then 0x4060
  else (switchCases.map (fun c => c.label)).indexOf name

/-- The labels of the first-bank 2D tables of `TablesA`. -/
def firstBankTableLabels : List String :=
  ["dwellDesiredVersusVoltageTableLocationID", "injectorDeadTimeTableLocationID",
    "postStartEnrichmentTableLocationID", "engineTempEnrichmentTableFixedLocationID",
    "primingVolumeTableLocationID", "engineTempEnrichmentTablePercentLocationID",
    "dwellMaxVersusRPMTableLocationID"]

/-- The labels of the second-bank 2D tables of `TablesA`. -/
def secondBankTableLabels : List String :=
  ["dwellDesiredVersusVoltageTable2LocationID", "injectorDeadTimeTable2LocationID",
    "postStartEnrichmentTable2LocationID", "engineTempEnrichmentTableFixed2LocationID",
    "primingVolumeTable2LocationID", "engineTempEnrichmentTablePercent2LocationID",
    "dwellMaxVersusRPMTable2LocationID"]

/-- Sample values of the constants in which the 2D-table range is the fourteen
IDs of the 2D tables of `TablesA` (cases 30 to 43 of the switch); the rest is
as in `sampleEnv`. -/
def tableRangeEnv (name : String) : Nat :=
  if name = "twoDTableUSLocationLower" then 30
  else if name = "twoDTableUSLocationUpper" then 44
  else sampleEnv name

/-! ## Bit operations as arithmetic -/

theorem and_0x8000_eq_zero_iff (x : Nat) (hx : x < 65536) :
    (x &&& 0x8000) = 0 ↔ x < 0x8000 := by
  have h := Nat.and_two_pow x 15
  norm_num at h
  rw [h, Nat.testBit_to_div_mod]
  have hq : x / 2 ^ 15 % 2 = x / 32768 := by
    have : x / 32768 < 2 := by omega
    norm_num; omega
  constructor
  · intro h1
    by_contra hc
    have h2 : x / 32768 = 1 := by omega
    simp [hq, h2] at h1
  · intro h1
    have h2 : x / 32768 = 0 := by omega
    simp [hq, h2]

theorem and_one_ne_zero_iff (x : Nat) : (x &&& 0x01) ≠ 0 ↔ x % 2 = 1 := by
  have h := Nat.and_one_is_mod x
  omega

theorem shiftRight_one (x : Nat) : x >>> 1 = x / 2 := by
  have h := Nat.shiftRight_eq_div_pow x 1
  omega

theorem shiftLeft_one (x : Nat) : x <<< 1 = 2 * x := by
  have h := Nat.shiftLeft_eq x 1
  omega

/-! ## Extended time base -/

/-- The two halves of the assembled time stamp, for 16-bit inputs. -/
theorem extendedTimeStamp_halves (f raw ext : Nat) (hraw : raw < 65536) :
    extendedTimeStamp f raw ext % 65536 = raw ∧
    extendedTimeStamp f raw ext / 65536 =
      if f ≠ 0 ∧ raw < 0x8000 then (ext + 1) % 65536 else ext := by
  have hb := and_0x8000_eq_zero_iff raw hraw
  unfold extendedTimeStamp timeLong USHORT_MOD
  dsimp only
  by_cases hc : f ≠ 0 ∧ raw < 0x8000
  · have hc2 : f ≠ 0 ∧ (raw &&& 0x8000) = 0 := ⟨hc.1, hb.2 hc.2⟩
    rw [if_pos hc2, if_pos hc]
    omega
  · have hc2 : ¬ (f ≠ 0 ∧ (raw &&& 0x8000) = 0) := fun h => hc ⟨h.1, hb.1 h.2⟩
    rw [if_neg hc2, if_neg hc]
    omega

/-- Every 32-bit value is the time stamp of some register contents. -/
theorem extendedTimeStamp_of_wide (t : Nat) :
    extendedTimeStamp 0 (t % 65536) (t / 65536) = t := by
  unfold extendedTimeStamp timeLong
  simp only [ne_eq, not_true_eq_false, false_and, if_false]
  omega

theorem PrimaryRPMISR_lastTimeStamp (hw : Regs) (g : State) :
    (PrimaryRPMISR hw g).lastTimeStamp =
      extendedTimeStamp hw.TFLGOF hw.TC0 g.timerExtensionClock := by
  unfold PrimaryRPMISR
  dsimp only
  split_ifs <;> rfl

theorem PrimaryRPMISR_lastPeriod (hw : Regs) (g : State) :
    (PrimaryRPMISR hw g).lastPeriod =
      ticksBetween (extendedTimeStamp hw.TFLGOF hw.TC0 g.timerExtensionClock) g.lastTimeStamp := by
  unfold PrimaryRPMISR
  dsimp only

/-- C1: for 16-bit capture registers and every extension word, the time
stamp assembled by the primary handler (stored as `lastTimeStamp`) and the one
assembled by the secondary handler on a qualifying edge have the capture
register as low 16 bits, and as high 16 bits the extension word plus one
(modulo 2^16) when the overflow flag is set and the capture register is below
0x8000, the extension word itself in every other case. -/
theorem timestamp_halves (coreSettingsA SECONDARY_POLARITY : Nat) (hw : Regs) (g : State)
    (h0 : hw.TC0 < 65536) (h1 : hw.TC1 < 65536) :
    ((PrimaryRPMISR hw g).lastTimeStamp % 65536 = hw.TC0 ∧
      (PrimaryRPMISR hw g).lastTimeStamp / 65536 =
        if hw.TFLGOF ≠ 0 ∧ hw.TC0 < 0x8000 then (g.timerExtensionClock + 1) % 65536
        else g.timerExtensionClock) ∧
    (∀ ts, (SecondaryRPMISR coreSettingsA SECONDARY_POLARITY hw g).timeStamp = some ts →
      ts % 65536 = hw.TC1 ∧
      ts / 65536 =
        if hw.TFLGOF ≠ 0 ∧ hw.TC1 < 0x8000 then (g.timerExtensionClock + 1) % 65536
        else g.timerExtensionClock) ∧
    ((if (coreSettingsA &&& SECONDARY_POLARITY) ≠ 0 then (hw.PTIT &&& 0x02) ≠ 0
        else (hw.PTIT &&& 0x02) = 0) →
      ((SecondaryRPMISR coreSettingsA SECONDARY_POLARITY hw g).timeStamp).isSome = true) := by
  refine ⟨?_, ?_, ?_⟩
  · rw [PrimaryRPMISR_lastTimeStamp]
    exact extendedTimeStamp_halves _ _ _ h0
  · intro ts hts
    have key := extendedTimeStamp_halves hw.TFLGOF hw.TC1 g.timerExtensionClock h1
    unfold SecondaryRPMISR at hts
    dsimp only at hts
    split_ifs at hts <;> simp at hts <;> subst hts <;> exact key
  · intro hq
    unfold SecondaryRPMISR
    dsimp only
    split_ifs at hq ⊢ <;> simp_all

/-- Witness of `timestamp_halves`: overflow pending, both capture registers
in the lower half. -/
theorem timestamp_halves_witness :
    ((PrimaryRPMISR ⟨0, 0, 5, 7, 2, 0x80⟩ State.reset).lastTimeStamp % 65536 = 5 ∧
      (PrimaryRPMISR ⟨0, 0, 5, 7, 2, 0x80⟩ State.reset).lastTimeStamp / 65536 = 1) ∧
    ((SecondaryRPMISR 1 1 ⟨0, 0, 5, 7, 2, 0x80⟩ State.reset).timeStamp).isSome = true := by
  have h := timestamp_halves 1 1 ⟨0, 0, 5, 7, 2, 0x80⟩ State.reset (by decide) (by decide)
  refine ⟨?_, h.2.2 (by decide)⟩
  have h1 := h.1
  simpa [State.reset] using h1

/-! ## Interval calculator -/

/-- The interval for 32-bit time stamps, without modular reduction. -/
theorem ticksBetween_eq (current previous : Nat)
    (hc : current < 4294967296) (hp : previous < 4294967296) :
    ticksBetween current previous =
      if current > previous then current - previous
      else current + (0xFFFFFFFF - previous) := by
  unfold ticksBetween sub32 add32 ULONG_MOD
  split_ifs <;> omega

/-- C2: for 32-bit time stamps `previous` (the stored `lastTimeStamp`) and
`current` (the time stamp assembled for this edge), the interval the primary
handler computes and stores as `lastPeriod` is `current - previous` when
`current > previous` and `current + (0xFFFFFFFF - previous)` otherwise. -/
theorem primary_interval (hw : Regs) (g : State) (previous current : Nat)
    (hprev : g.lastTimeStamp = previous)
    (hcur : extendedTimeStamp hw.TFLGOF hw.TC0 g.timerExtensionClock = current)
    (hp : previous < 4294967296) (hc : current < 4294967296) :
    (PrimaryRPMISR hw g).lastPeriod =
      if current > previous then current - previous
      else current + (0xFFFFFFFF - previous) := by
  rw [PrimaryRPMISR_lastPeriod, hprev, hcur]
  exact ticksBetween_eq current previous hc hp

/-- Witness of `primary_interval`: previous 100, current 40. -/
theorem primary_interval_witness :
    (PrimaryRPMISR ⟨0, 0, 40, 0, 0, 0⟩ { State.reset with lastTimeStamp := 100 }).lastPeriod =
      if 40 > 100 then 40 - 100 else 40 + (0xFFFFFFFF - 100) :=
  primary_interval ⟨0, 0, 40, 0, 0, 0⟩ { State.reset with lastTimeStamp := 100 } 100 40
    rfl (by decide) (by decide) (by decide)

/-- C3: for 32-bit time stamps with `current < previous`, the interval the
primary handler stores is the integer `current + (0xFFFFFFFF - previous)`; the
32-bit addition does not overflow, and the result is non-negative and strictly
below 0xFFFFFFFF. -/
theorem interval_wrap_exact (hw : Regs) (g : State) (previous current : Nat)
    (hprev : g.lastTimeStamp = previous)
    (hcur : extendedTimeStamp hw.TFLGOF hw.TC0 g.timerExtensionClock = current)
    (hp : previous < 4294967296) (hlt : current < previous) :
    ((PrimaryRPMISR hw g).lastPeriod : Int) = (current : Int) + (4294967295 - (previous : Int)) ∧
    current + sub32 0xFFFFFFFF previous < ULONG_MOD ∧
    (0 : Int) ≤ (current : Int) + (4294967295 - (previous : Int)) ∧
    (current : Int) + (4294967295 - (previous : Int)) < 4294967295 := by
  have h := ticksBetween_eq current previous (by omega) hp
  rw [PrimaryRPMISR_lastPeriod, hprev, hcur, h]
  unfold sub32 ULONG_MOD
  have hn : ¬ current > previous := by omega
  rw [if_neg hn]
  refine ⟨by omega, by omega, by omega, by omega⟩

/-- Witness of `interval_wrap_exact`: previous 0xFFFFFFFF, current 0. -/
theorem interval_wrap_exact_witness :
    ((PrimaryRPMISR ⟨0, 0, 0, 0, 0, 0⟩
        { State.reset with lastTimeStamp := 4294967295 }).lastPeriod : Int) =
      ((0 : Nat) : Int) + (4294967295 - ((4294967295 : Nat) : Int)) :=
  (interval_wrap_exact ⟨0, 0, 0, 0, 0, 0⟩ { State.reset with lastTimeStamp := 4294967295 }
    4294967295 0 rfl (by decide) (by decide) (by decide)).1

/-- C4: for 32-bit time stamps with `current < previous`, the interval the
primary handler stores is one tick less than the modular distance
`(current - previous) mod 2^32`. -/
theorem interval_wrap_one_short (hw : Regs) (g : State) (previous current : Nat)
    (hprev : g.lastTimeStamp = previous)
    (hcur : extendedTimeStamp hw.TFLGOF hw.TC0 g.timerExtensionClock = current)
    (hp : previous < 4294967296) (hlt : current < previous) :
    ((PrimaryRPMISR hw g).lastPeriod : Int) =
      ((current : Int) - (previous : Int)) % 4294967296 - 1 := by
  have h := ticksBetween_eq current previous (by omega) hp
  rw [PrimaryRPMISR_lastPeriod, hprev, hcur, h]
  have hn : ¬ current > previous := by omega
  rw [if_neg hn]
  omega

/-- Witness of `interval_wrap_one_short`: previous 0xFFFFFFF0, current 0x10;
the modular distance is 0x20 and the handler stores 0x1F. -/
theorem interval_wrap_one_short_witness :
    ((PrimaryRPMISR ⟨0, 0, 16, 0, 0, 0⟩
        { State.reset with lastTimeStamp := 4294967280 }).lastPeriod : Int) =
      (((16 : Nat) : Int) - ((4294967280 : Nat) : Int)) % 4294967296 - 1 :=
  interval_wrap_one_short ⟨0, 0, 16, 0, 0, 0⟩ { State.reset with lastTimeStamp := 4294967280 }
    4294967280 16 rfl (by decide) (by decide) (by decide)

/-! ## Primary tooth decoder: one edge -/

/-- With `lastPeriod = 0` the edge is not classified. -/
theorem PrimaryRPMISR_unclassified (hw : Regs) (g : State) (h0 : g.lastPeriod = 0) :
    (PrimaryRPMISR hw g).count = g.count ∧
    (PrimaryRPMISR hw g).lastHighLowTime = g.lastHighLowTime ∧
    (PrimaryRPMISR hw g).lowTime = g.lowTime := by
  unfold PrimaryRPMISR
  dsimp only
  rw [if_neg (by simpa using h0)]
  exact ⟨rfl, rfl, rfl⟩

/-- The decoder fields after a classified rising edge. -/
theorem PrimaryRPMISR_rising (hw : Regs) (g : State)
    (hcl : g.lastPeriod ≠ 0) (hr : (hw.PTIT &&& 0x01) ≠ 0) :
    (PrimaryRPMISR hw g).count =
      (if g.count = 0 ∨ g.count = 70 then
        if add32 (ticksBetween (extendedTimeStamp hw.TFLGOF hw.TC0 g.timerExtensionClock)
              g.lastTimeStamp) g.lowTime >
              add32 g.lastHighLowTime (g.lastHighLowTime >>> 1) ∧
            add32 (ticksBetween (extendedTimeStamp hw.TFLGOF hw.TC0 g.timerExtensionClock)
              g.lastTimeStamp) g.lowTime <
              add32 (shl32 g.lastHighLowTime 1) (g.lastHighLowTime >>> 1) then 1 else 0
      else if g.count = 2 ∨ (g.count % 2 = 0 ∧
          add32 (ticksBetween (extendedTimeStamp hw.TFLGOF hw.TC0 g.timerExtensionClock)
            g.lastTimeStamp) g.lowTime > g.lastHighLowTime >>> 1 ∧
          add32 (ticksBetween (extendedTimeStamp hw.TFLGOF hw.TC0 g.timerExtensionClock)
            g.lastTimeStamp) g.lowTime < shl32 g.lastHighLowTime 1) then
        (g.count + 1) % UINT_MOD
      else 0) ∧
    (PrimaryRPMISR hw g).lastHighLowTime =
      add32 (ticksBetween (extendedTimeStamp hw.TFLGOF hw.TC0 g.timerExtensionClock)
        g.lastTimeStamp) g.lowTime ∧
    (PrimaryRPMISR hw g).thisHighLowTime =
      add32 (ticksBetween (extendedTimeStamp hw.TFLGOF hw.TC0 g.timerExtensionClock)
        g.lastTimeStamp) g.lowTime ∧
    (PrimaryRPMISR hw g).lowTime = g.lowTime := by
  unfold PrimaryRPMISR
  dsimp only
  rw [if_pos hcl, if_pos hr]
  exact ⟨rfl, rfl, rfl, rfl⟩

/-- The decoder fields after a classified falling edge. -/
theorem PrimaryRPMISR_falling (hw : Regs) (g : State)
    (hcl : g.lastPeriod ≠ 0) (hf : (hw.PTIT &&& 0x01) = 0) :
    (PrimaryRPMISR hw g).count =
      (if g.count % 2 = 1 then (g.count + 1) % UINT_MOD else 0) ∧
    (PrimaryRPMISR hw g).lastHighLowTime = g.lastHighLowTime ∧
    (PrimaryRPMISR hw g).lowTime =
      ticksBetween (extendedTimeStamp hw.TFLGOF hw.TC0 g.timerExtensionClock) g.lastTimeStamp := by
  unfold PrimaryRPMISR
  dsimp only
  rw [if_pos hcl, if_neg (by simpa using hf)]
  exact ⟨rfl, rfl, rfl⟩

theorem half_lt_cast_iff (L F : Nat) : ((L : ℚ) / 2 < (F : ℚ)) ↔ L < 2 * F := by
  rw [div_lt_iff₀ (by norm_num : (0 : ℚ) < 2)]
  constructor
  · intro h
    have h2 : (L : ℚ) < ((2 * F : Nat) : ℚ) := by push_cast; linarith
    exact_mod_cast h2
  · intro h
    have h2 : (L : ℚ) < ((2 * F : Nat) : ℚ) := by exact_mod_cast h
    push_cast at h2; linarith

theorem three_halves_lt_cast_iff (L F : Nat) : ((3 / 2 : ℚ) * (L : ℚ) < (F : ℚ)) ↔ 3 * L < 2 * F := by
  constructor
  · intro h
    have h2 : ((3 * L : Nat) : ℚ) < ((2 * F : Nat) : ℚ) := by push_cast; linarith
    exact_mod_cast h2
  · intro h
    have h2 : ((3 * L : Nat) : ℚ) < ((2 * F : Nat) : ℚ) := by exact_mod_cast h
    push_cast at h2; linarith

theorem lt_double_cast_iff (L F : Nat) : ((F : ℚ) < 2 * (L : ℚ)) ↔ F < 2 * L := by
  constructor
  · intro h
    have h2 : (F : ℚ) < ((2 * L : Nat) : ℚ) := by push_cast; linarith
    exact_mod_cast h2
  · intro h
    have h2 : (F : ℚ) < ((2 * L : Nat) : ℚ) := by exact_mod_cast h
    push_cast at h2; linarith

/-- C5 (counterexample): in `oddPeriodState` (`count = 0`, `lastPeriod = 1`,
`lastHighLowTime = 1`, `lowTime = 1`) a rising edge one tick after the last
edge has full tooth period 2, strictly between 1.5 x 1 and 2.5 x 1, and no
32-bit overflow is near; the handler nevertheless leaves `count = 0`. -/
theorem landmark_rational_window_counterexample :
    oddPeriodState.lastPeriod ≠ 0 ∧ ((edgeRegs 8 true).PTIT &&& 0x01) ≠ 0 ∧
    oddPeriodState.count = 0 ∧ oddPeriodState.lastHighLowTime = 1 ∧
    ticksBetween (extendedTimeStamp (edgeRegs 8 true).TFLGOF (edgeRegs 8 true).TC0 0)
      oddPeriodState.lastTimeStamp + oddPeriodState.lowTime = 2 ∧
    (3 / 2 : ℚ) * (1 : ℚ) < (2 : ℚ) ∧ (2 : ℚ) < (5 / 2 : ℚ) * (1 : ℚ) ∧
    (PrimaryRPMISR (edgeRegs 8 true) { oddPeriodState with timerExtensionClock := 0 }).count = 0 := by
  refine ⟨by decide, by decide, by decide, by decide, by decide, by norm_num, by norm_num,
    by decide⟩

/-- C5 (amended): on a classified rising edge with `count` 0 or 70, when
neither `interval + lowTime` nor `2 * lastHighLowTime + lastHighLowTime / 2`
overflows 32 bits, `count` becomes 1 if and only if the full tooth period
`interval + lowTime` is strictly above 1.5 x `lastHighLowTime` and strictly
below `2 * lastHighLowTime + floor(lastHighLowTime / 2)`, and becomes 0
otherwise. -/
theorem landmark_window (hw : Regs) (g : State) (interval fullToothPeriod : Nat)
    (hcl : g.lastPeriod ≠ 0) (hr : (hw.PTIT &&& 0x01) ≠ 0)
    (hc : g.count = 0 ∨ g.count = 70)
    (hi : interval =
      ticksBetween (extendedTimeStamp hw.TFLGOF hw.TC0 g.timerExtensionClock) g.lastTimeStamp)
    (hF : fullToothPeriod = interval + g.lowTime)
    (hF32 : fullToothPeriod < 4294967296)
    (hL32 : 2 * g.lastHighLowTime + g.lastHighLowTime / 2 < 4294967296) :
    ((PrimaryRPMISR hw g).count = 1 ↔
      ((3 / 2 : ℚ) * (g.lastHighLowTime : ℚ) < (fullToothPeriod : ℚ) ∧
        fullToothPeriod < 2 * g.lastHighLowTime + g.lastHighLowTime / 2)) ∧
    ((PrimaryRPMISR hw g).count = 1 ∨ (PrimaryRPMISR hw g).count = 0) := by
  have h := (PrimaryRPMISR_rising hw g hcl hr).1
  rw [if_pos hc, ← hi] at h
  rw [h, three_halves_lt_cast_iff]
  unfold add32 shl32 ULONG_MOD
  rw [shiftRight_one, shiftLeft_one]
  have e1 : (interval + g.lowTime) % 4294967296 = fullToothPeriod := by omega
  have e2 : (g.lastHighLowTime + g.lastHighLowTime / 2) % 4294967296 =
      g.lastHighLowTime + g.lastHighLowTime / 2 := by omega
  have e3 : (2 * g.lastHighLowTime % 4294967296 + g.lastHighLowTime / 2) % 4294967296 =
      2 * g.lastHighLowTime + g.lastHighLowTime / 2 := by omega
  rw [e1, e2, e3]
  constructor
  · constructor
    · intro h1
      by_contra hcon
      rw [if_neg (fun hx => hcon ⟨by omega, hx.2⟩)] at h1
      exact absurd h1 (by decide)
    · intro h1
      rw [if_pos ⟨by omega, h1.2⟩]
  · split_ifs
    · exact Or.inl rfl
    · exact Or.inr rfl

/-- Witness of `landmark_window`: `lastHighLowTime = 1`, full tooth period 2. -/
theorem landmark_window_witness :
    (PrimaryRPMISR (edgeRegs 8 true) { oddPeriodState with timerExtensionClock := 0 }).count = 1 ∨
    (PrimaryRPMISR (edgeRegs 8 true) { oddPeriodState with timerExtensionClock := 0 }).count = 0 :=
  (landmark_window (edgeRegs 8 true) { oddPeriodState with timerExtensionClock := 0 } 1 2
    (by decide) (by decide) (by decide) (by decide) (by decide) (by decide) (by decide)).2

/-- C6: on a classified rising edge with `count` different from 0 and 70 and
`lastHighLowTime < 2^31`, where `fullToothPeriod` is the 32-bit sum of the
interval and `lowTime` that the handler compares: `count` becomes `count + 1`
if and only if `count` is 2, or `count` is even and `fullToothPeriod` lies
strictly between 0.5 x `lastHighLowTime` and 2 x `lastHighLowTime` (bounds
taken in the rationals); in every other case, every odd `count` included,
`count` becomes 0.  When `interval + lowTime` fits 32 bits, `fullToothPeriod`
is that sum. -/
theorem regular_tooth_window (hw : Regs) (g : State) (fullToothPeriod : Nat)
    (hcl : g.lastPeriod ≠ 0) (hr : (hw.PTIT &&& 0x01) ≠ 0)
    (hc0 : g.count ≠ 0) (hc70 : g.count ≠ 70) (hcw : g.count < UINT_MOD)
    (hF : fullToothPeriod =
      add32 (ticksBetween (extendedTimeStamp hw.TFLGOF hw.TC0 g.timerExtensionClock)
        g.lastTimeStamp) g.lowTime)
    (hL : g.lastHighLowTime < 2147483648) :
    ((PrimaryRPMISR hw g).count = g.count + 1 ↔
      (g.count = 2 ∨ (g.count % 2 = 0 ∧
        (g.lastHighLowTime : ℚ) / 2 < (fullToothPeriod : ℚ) ∧
        (fullToothPeriod : ℚ) < 2 * (g.lastHighLowTime : ℚ)))) ∧
    (¬ (g.count = 2 ∨ (g.count % 2 = 0 ∧
        (g.lastHighLowTime : ℚ) / 2 < (fullToothPeriod : ℚ) ∧
        (fullToothPeriod : ℚ) < 2 * (g.lastHighLowTime : ℚ))) →
      (PrimaryRPMISR hw g).count = 0) ∧
    (g.count % 2 = 1 → (PrimaryRPMISR hw g).count = 0) ∧
    (ticksBetween (extendedTimeStamp hw.TFLGOF hw.TC0 g.timerExtensionClock) g.lastTimeStamp
        + g.lowTime < 4294967296 →
      fullToothPeriod =
        ticksBetween (extendedTimeStamp hw.TFLGOF hw.TC0 g.timerExtensionClock) g.lastTimeStamp
          + g.lowTime) := by
  have hsum : ticksBetween (extendedTimeStamp hw.TFLGOF hw.TC0 g.timerExtensionClock)
        g.lastTimeStamp + g.lowTime < 4294967296 →
      fullToothPeriod =
        ticksBetween (extendedTimeStamp hw.TFLGOF hw.TC0 g.timerExtensionClock) g.lastTimeStamp
          + g.lowTime := by
    intro hlt
    rw [hF]
    exact Nat.mod_eq_of_lt hlt
  have h := (PrimaryRPMISR_rising hw g hcl hr).1
  rw [if_neg (by omega), ← hF] at h
  rw [h, half_lt_cast_iff, lt_double_cast_iff]
  unfold shl32 ULONG_MOD UINT_MOD at *
  rw [shiftRight_one, shiftLeft_one]
  have e1 : 2 * g.lastHighLowTime % 4294967296 = 2 * g.lastHighLowTime := by omega
  rw [e1]
  by_cases hacc : g.count = 2 ∨ (g.count % 2 = 0 ∧
      fullToothPeriod > g.lastHighLowTime / 2 ∧ fullToothPeriod < 2 * g.lastHighLowTime)
  · rw [if_pos hacc]
    have hev : g.count % 2 = 0 := by
      rcases hacc with h2 | h2
      · omega
      · exact h2.1
    refine ⟨⟨fun _ => ?_, fun _ => by omega⟩, fun hn => ?_, fun ho => by omega, hsum⟩
    · rcases hacc with h2 | h2
      · exact Or.inl h2
      · exact Or.inr ⟨h2.1, by omega, h2.2.2⟩
    · exfalso
      apply hn
      rcases hacc with h2 | h2
      · exact Or.inl h2
      · exact Or.inr ⟨h2.1, by omega, h2.2.2⟩
  · rw [if_neg hacc]
    refine ⟨⟨fun h1 => by omega, fun h1 => ?_⟩, fun _ => rfl, fun _ => rfl, hsum⟩
    exfalso
    apply hacc
    rcases h1 with h2 | h2
    · exact Or.inl h2
    · exact Or.inr ⟨h2.1, by omega, h2.2.2⟩

/-- Witness of `regular_tooth_window`: `count = 1` in `beforeWrapState`, a
rising edge arrives. -/
theorem regular_tooth_window_witness :
    (PrimaryRPMISR (edgeRegs 20 true) { beforeWrapState with timerExtensionClock := 0 }).count = 0 :=
  (regular_tooth_window (edgeRegs 20 true) { beforeWrapState with timerExtensionClock := 0 }
    30 (by decide) (by decide) (by decide) (by decide) (by decide) (by decide)
    (by decide)).2.2.1 (by decide)

/-- C7: on a classified falling edge `count` becomes `count + 1` (as an
unsigned int, so without wrap whenever `count + 1` fits) when it was odd and 0
when it was even; in both cases `lowTime` becomes the interval just measured,
which is also what `lastPeriod` receives, and `lastHighLowTime` is unchanged. -/
theorem falling_edge (hw : Regs) (g : State)
    (hcl : g.lastPeriod ≠ 0) (hf : (hw.PTIT &&& 0x01) = 0) :
    (g.count % 2 = 1 →
      (PrimaryRPMISR hw g).count = (g.count + 1) % UINT_MOD ∧
      (g.count + 1 < UINT_MOD → (PrimaryRPMISR hw g).count = g.count + 1)) ∧
    (g.count % 2 = 0 → (PrimaryRPMISR hw g).count = 0) ∧
    (PrimaryRPMISR hw g).lowTime =
      ticksBetween (extendedTimeStamp hw.TFLGOF hw.TC0 g.timerExtensionClock) g.lastTimeStamp ∧
    (PrimaryRPMISR hw g).lowTime = (PrimaryRPMISR hw g).lastPeriod ∧
    (PrimaryRPMISR hw g).lastHighLowTime = g.lastHighLowTime := by
  obtain ⟨h1, h2, h3⟩ := PrimaryRPMISR_falling hw g hcl hf
  refine ⟨fun ho => ?_, fun he => ?_, h3, ?_, h2⟩
  · rw [h1, if_pos ho]
    exact ⟨rfl, fun hlt => Nat.mod_eq_of_lt hlt⟩
  · rw [h1, if_neg (by omega)]
  · rw [h3, PrimaryRPMISR_lastPeriod]

/-- Witness of `falling_edge`: `count = 1` in `beforeWrapState`, a falling
edge arrives and `count` becomes 2. -/
theorem falling_edge_witness :
    (PrimaryRPMISR (edgeRegs 20 false) { beforeWrapState with timerExtensionClock := 0 }).count
      = 1 + 1 :=
  ((falling_edge (edgeRegs 20 false) { beforeWrapState with timerExtensionClock := 0 }
    (by decide) (by decide)).1 (by decide)).2 (by decide)

/-- C10 (counterexample): two consecutive falling edges that do not leave
`count = 0`.  From the reset state with only `count` set to 1 the first
falling edge is not classified (`lastPeriod = 0`) and the second takes `count`
to 2.  From `beforeWrapState`, which is reached from reset, the first falling
edge at time stamp 0 measures the interval 0, so the second is not classified
and `count` stays 2. -/
theorem two_falling_edges_counterexample :
    (primaryEdges { State.reset with count := 1 } [(100, false), (200, false)]).count = 2 ∧
    beforeWrapState.count = 1 ∧ beforeWrapState.lastPeriod = 10 ∧
    (primaryEdges beforeWrapState [(0, false)]).lastPeriod = 0 ∧
    (primaryEdges beforeWrapState [(0, false), (10, false)]).count = 2 := by
  refine ⟨by decide, by decide, by decide, by decide, by decide⟩

/-- C10 (amended): from every state with `lastPeriod` not 0, after two
consecutive falling edges the first of which measures a non-zero interval,
`count` is 0, whatever the time stamps and whatever `timerExtensionClock` is at
the second edge. -/
theorem two_falling_edges (hw1 hw2 : Regs) (g : State) (ext2 : Nat)
    (hcl : g.lastPeriod ≠ 0)
    (hf1 : (hw1.PTIT &&& 0x01) = 0) (hf2 : (hw2.PTIT &&& 0x01) = 0)
    (hne : (PrimaryRPMISR hw1 g).lastPeriod ≠ 0) :
    (PrimaryRPMISR hw2 { PrimaryRPMISR hw1 g with timerExtensionClock := ext2 }).count = 0 := by
  have h1 := (PrimaryRPMISR_falling hw1 g hcl hf1).1
  have h2 := (PrimaryRPMISR_falling hw2 { PrimaryRPMISR hw1 g with timerExtensionClock := ext2 }
    hne hf2).1
  rw [h2]
  have hev : (PrimaryRPMISR hw1 g).count % 2 = 0 := by
    rw [h1]
    unfold UINT_MOD
    split_ifs <;> omega
  rw [if_neg]
  show ¬ (PrimaryRPMISR hw1 g).count % 2 = 1
  omega

/-- Witness of `two_falling_edges`: two falling edges after `beforeWrapState`,
the first at a time stamp that gives a non-zero interval. -/
theorem two_falling_edges_witness :
    (PrimaryRPMISR (edgeRegs 30 false)
      { PrimaryRPMISR (edgeRegs 20 false) { beforeWrapState with timerExtensionClock := 0 }
          with timerExtensionClock := 0 }).count = 0 :=
  two_falling_edges (edgeRegs 20 false) (edgeRegs 30 false)
    { beforeWrapState with timerExtensionClock := 0 } 0
    (by decide) (by decide) (by decide) (by decide)

/-! ## Primary tooth decoder on a missing-tooth wheel -/

theorem primaryRun_lastTimeStamp (hw : Nat → Regs) (ext : Nat → Nat) (g : State) (k : Nat) :
    (primaryRun hw ext g (k + 1)).lastTimeStamp =
      extendedTimeStamp (hw k).TFLGOF (hw k).TC0 (ext k) := by
  rw [primaryRun, PrimaryRPMISR_lastTimeStamp]

theorem primaryRun_lastPeriod (hw : Nat → Regs) (ext : Nat → Nat) (g : State) (k : Nat) :
    (primaryRun hw ext g (k + 1)).lastPeriod =
      ticksBetween (extendedTimeStamp (hw k).TFLGOF (hw k).TC0 (ext k))
        (primaryRun hw ext g k).lastTimeStamp := by
  rw [primaryRun, PrimaryRPMISR_lastPeriod]

theorem wheelGap_pos (h m p k : Nat) (hh : 1 ≤ h) (hm : 1 ≤ m) : 1 ≤ wheelGap h m p k := by
  unfold wheelGap
  split_ifs <;> omega

theorem wheelTime_le (t0 h m p : Nat) (k K : Nat) (hk : k ≤ K) :
    wheelTime t0 h m p k ≤ wheelTime t0 h m p K := by
  induction K with
  | zero =>
    have : k = 0 := by omega
    subst this
    exact le_refl _
  | succ n ih =>
    rcases Nat.lt_or_ge k (n + 1) with h1 | h1
    · have := ih (by omega)
      rw [wheelTime]
      omega
    · have : k = n + 1 := by omega
      subst this
      exact le_refl _

/-- Each edge of the wheel is at least `h` ticks after its predecessor. -/
theorem wheelTime_lower (t0 h p : Nat) (k : Nat) :
    k * h ≤ wheelTime t0 h (3 * h) p k := by
  induction k with
  | zero => simp
  | succ n ih =>
    rw [wheelTime, wheelGap, Nat.succ_mul]
    split_ifs <;> omega

/-- A landmark edge that has a predecessor is at least `(k + 2) * h` ticks
after time 0. -/
theorem wheelTime_lower_landmark (t0 h p : Nat) (k : Nat) (hk : 1 ≤ k)
    (hj : (p + k) % 70 = 0) : (k + 2) * h ≤ wheelTime t0 h (3 * h) p k := by
  obtain ⟨n, rfl⟩ : ∃ n, k = n + 1 := ⟨k - 1, by omega⟩
  have h1 := wheelTime_lower t0 h p n
  rw [wheelTime, wheelGap, if_pos hj]
  have e : (n + 1 + 2) * h = n * h + 3 * h := by ring
  omega

/-- So are the two edges after it. -/
theorem wheelTime_lower_after (t0 h p : Nat) (k : Nat) (hk : 3 ≤ k)
    (hj : (p + k) % 70 = 1 ∨ (p + k) % 70 = 2) : (k + 2) * h ≤ wheelTime t0 h (3 * h) p k := by
  obtain ⟨n, rfl⟩ : ∃ n, k = n + 2 := ⟨k - 2, by omega⟩
  rcases hj with hj | hj
  · have h1 := wheelTime_lower_landmark t0 h p (n + 1) (by omega) (by omega)
    have e1 : (n + 1 + 2) * h = n * h + 3 * h := by ring
    have e2 : (n + 2 + 2) * h = n * h + 4 * h := by ring
    rw [wheelTime, wheelGap, if_neg (by omega)]
    omega
  · have h1 := wheelTime_lower_landmark t0 h p n (by omega) (by omega)
    have e1 : (n + 2) * h = n * h + 2 * h := by ring
    have e2 : (n + 2 + 2) * h = n * h + 4 * h := by ring
    rw [wheelTime, wheelTime, wheelGap, wheelGap, if_neg (by omega), if_neg (by omega)]
    omega

/-- On the wheel every edge after the first measures its gap as interval. -/
theorem wheel_interval (hw : Nat → Regs) (ext : Nat → Nat) (t0 h p K : Nat) (hh : 1 ≤ h)
    (hstamp : ∀ k ≤ K,
      extendedTimeStamp (hw k).TFLGOF (hw k).TC0 (ext k) = wheelTime t0 h (3 * h) p k)
    (hK : wheelTime t0 h (3 * h) p K < 4294967296) (i : Nat) (hi : i + 1 ≤ K) :
    ticksBetween (extendedTimeStamp (hw (i + 1)).TFLGOF (hw (i + 1)).TC0 (ext (i + 1)))
      (primaryRun hw ext State.reset (i + 1)).lastTimeStamp = wheelGap h (3 * h) p (i + 1) := by
  rw [primaryRun_lastTimeStamp, hstamp (i + 1) hi, hstamp i (by omega)]
  have hle := wheelTime_le t0 h (3 * h) p (i + 1) K hi
  have hg := wheelGap_pos h (3 * h) p (i + 1) hh (by omega)
  have hs : wheelTime t0 h (3 * h) p (i + 1) =
      wheelTime t0 h (3 * h) p i + wheelGap h (3 * h) p (i + 1) := rfl
  rw [ticksBetween_eq _ _ (by omega) (by omega)]
  split_ifs <;> omega

/-- On the wheel every edge after the first is classified. -/
theorem wheel_classified (hw : Nat → Regs) (ext : Nat → Nat) (t0 h p K : Nat) (hh : 1 ≤ h)
    (hstamp : ∀ k ≤ K,
      extendedTimeStamp (hw k).TFLGOF (hw k).TC0 (ext k) = wheelTime t0 h (3 * h) p k)
    (hK : wheelTime t0 h (3 * h) p K < 4294967296) (k : Nat) (hk : k ≤ K) :
    (primaryRun hw ext State.reset (k + 1)).lastPeriod ≠ 0 := by
  rw [primaryRun_lastPeriod]
  cases k with
  | zero =>
    have hle := wheelTime_le t0 h (3 * h) p 0 K hk
    rw [hstamp 0 hk]
    have h0 : (primaryRun hw ext State.reset 0).lastTimeStamp = 0 := rfl
    rw [h0, ticksBetween_eq _ _ (by omega) (by omega)]
    split_ifs <;> omega
  | succ i =>
    rw [wheel_interval hw ext t0 h p K hh hstamp hK i hk]
    have hg := wheelGap_pos h (3 * h) p (i + 1) hh (by omega)
    omega

/-- A classified rising edge of a run, with the shifts written as arithmetic. -/
theorem primaryRun_rising (hw : Nat → Regs) (ext : Nat → Nat) (g : State) (i gap : Nat)
    (hcl : (primaryRun hw ext g i).lastPeriod ≠ 0) (hr : ((hw i).PTIT &&& 0x01) ≠ 0)
    (hgap : ticksBetween (extendedTimeStamp (hw i).TFLGOF (hw i).TC0 (ext i))
      (primaryRun hw ext g i).lastTimeStamp = gap) :
    (primaryRun hw ext g (i + 1)).count =
      (if (primaryRun hw ext g i).count = 0 ∨ (primaryRun hw ext g i).count = 70 then
        if (gap + (primaryRun hw ext g i).lowTime) % 4294967296 >
              ((primaryRun hw ext g i).lastHighLowTime +
                (primaryRun hw ext g i).lastHighLowTime / 2) % 4294967296 ∧
            (gap + (primaryRun hw ext g i).lowTime) % 4294967296 <
              (2 * (primaryRun hw ext g i).lastHighLowTime % 4294967296 +
                (primaryRun hw ext g i).lastHighLowTime / 2) % 4294967296 then 1 else 0
      else if (primaryRun hw ext g i).count = 2 ∨ ((primaryRun hw ext g i).count % 2 = 0 ∧
          (gap + (primaryRun hw ext g i).lowTime) % 4294967296 >
            (primaryRun hw ext g i).lastHighLowTime / 2 ∧
          (gap + (primaryRun hw ext g i).lowTime) % 4294967296 <
            2 * (primaryRun hw ext g i).lastHighLowTime % 4294967296) then
        ((primaryRun hw ext g i).count + 1) % 65536
      else 0) ∧
    (primaryRun hw ext g (i + 1)).lastHighLowTime =
      (gap + (primaryRun hw ext g i).lowTime) % 4294967296 ∧
    (primaryRun hw ext g (i + 1)).lowTime = (primaryRun hw ext g i).lowTime := by
  have h := PrimaryRPMISR_rising (hw i)
    { primaryRun hw ext g i with timerExtensionClock := ext i } hcl hr
  dsimp only at h
  rw [hgap] at h
  unfold add32 shl32 ULONG_MOD UINT_MOD at h
  rw [shiftRight_one, shiftLeft_one] at h
  exact ⟨h.1, h.2.1, h.2.2.2⟩

/-- A classified falling edge of a run. -/
theorem primaryRun_falling (hw : Nat → Regs) (ext : Nat → Nat) (g : State) (i gap : Nat)
    (hcl : (primaryRun hw ext g i).lastPeriod ≠ 0) (hf : ((hw i).PTIT &&& 0x01) = 0)
    (hgap : ticksBetween (extendedTimeStamp (hw i).TFLGOF (hw i).TC0 (ext i))
      (primaryRun hw ext g i).lastTimeStamp = gap) :
    (primaryRun hw ext g (i + 1)).count =
      (if (primaryRun hw ext g i).count % 2 = 1 then
        ((primaryRun hw ext g i).count + 1) % 65536 else 0) ∧
    (primaryRun hw ext g (i + 1)).lastHighLowTime = (primaryRun hw ext g i).lastHighLowTime ∧
    (primaryRun hw ext g (i + 1)).lowTime = gap := by
  have h := PrimaryRPMISR_falling (hw i)
    { primaryRun hw ext g i with timerExtensionClock := ext i } hcl hf
  dsimp only at h
  rw [hgap] at h
  unfold UINT_MOD at h
  exact h

/-- Every classified edge of a run is an `EdgeStep`. -/
theorem primaryRun_edgeStep (hw : Nat → Regs) (ext : Nat → Nat) (g : State) (i gap : Nat)
    (rising : Prop) (hcl : (primaryRun hw ext g i).lastPeriod ≠ 0)
    (hpol : ((hw i).PTIT &&& 0x01) ≠ 0 ↔ rising)
    (hgap : ticksBetween (extendedTimeStamp (hw i).TFLGOF (hw i).TC0 (ext i))
      (primaryRun hw ext g i).lastTimeStamp = gap) :
    EdgeStep rising gap (primaryRun hw ext g i).count (primaryRun hw ext g i).lastHighLowTime
      (primaryRun hw ext g i).lowTime (primaryRun hw ext g (i + 1)).count
      (primaryRun hw ext g (i + 1)).lastHighLowTime (primaryRun hw ext g (i + 1)).lowTime := by
  constructor
  · intro hr
    exact primaryRun_rising hw ext g i gap hcl (hpol.2 hr) hgap
  · intro hr
    have hf : ((hw i).PTIT &&& 0x01) = 0 := by
      by_contra hc
      exact hr (hpol.1 hc)
    exact primaryRun_falling hw ext g i gap hcl hf hgap

set_option maxHeartbeats 1000000 in
/-- One more edge of the wheel preserves the invariant. -/
theorem SyncInv_step (h p k c L lo c' L' lo' : Nat) (hh : 1 ≤ h) (hp : p < 70) (hk : 3 ≤ k)
    (hb4 : 4 * h < 4294967296)
    (hb6 : (p + (k + 1)) % 70 = 0 ∨ (p + (k + 1)) % 70 = 2 → 6 * h < 4294967296)
    (hinv : SyncInv h p k c L lo)
    (hstep : EdgeStep ((p + (k + 1)) % 2 = 0) (wheelGap h (3 * h) p (k + 1)) c L lo c' L' lo') :
    SyncInv h p (k + 1) c' L' lo' := by
  unfold SyncInv at hinv ⊢
  unfold EdgeStep at hstep
  obtain ⟨hlo, hL, hc⟩ := hinv
  have m5 : 2 * h / 2 = h := by omega
  have m6 : 4 * h / 2 = 2 * h := by omega
  have m1 : (h + h) % 4294967296 = 2 * h := by omega
  have m4 : 2 * (2 * h) % 4294967296 = 4 * h := by omega
  by_cases hr : (p + (k + 1)) % 2 = 0
  · obtain ⟨e1, e2, e3⟩ := hstep.1 hr
    clear hstep
    by_cases hj : (p + (k + 1)) % 70 = 0
    · rw [wheelGap, if_pos hj] at e1 e2
      have hL2 : L = 2 * h := by
        rw [if_neg (by omega)] at hL
        exact hL
      have hb := hb6 (Or.inl hj)
      have m2 : (3 * h + h) % 4294967296 = 4 * h := by omega
      have m3 : (2 * h + h) % 4294967296 = 3 * h := by omega
      have m7 : (4 * h + h) % 4294967296 = 5 * h := by omega
      rw [hL2, hlo] at e1
      rw [hlo] at e2
      simp only [m5, m2, m3, m4, m7] at e1 e2
      refine ⟨by omega, by rw [e2, if_pos (by omega)], ?_⟩
      clear hL hL2 e2 e3 hlo m1 m2 m3 m4 m5 m6 m7 hb6
      split_ifs at hc <;> split_ifs at e1 ⊢ <;> omega
    · rw [wheelGap, if_neg hj] at e1 e2
      rw [hlo] at e2
      rw [m1] at e2
      refine ⟨by omega, by rw [e2, if_neg (by omega)], ?_⟩
      by_cases hj2 : (p + (k + 1)) % 70 = 2
      · have hL2 : L = 4 * h := by
          rw [if_pos (by omega)] at hL
          exact hL
        have hb := hb6 (Or.inr hj2)
        have m3 : (4 * h + 2 * h) % 4294967296 = 6 * h := by omega
        rw [hL2, hlo] at e1
        simp only [m6, m1, m3] at e1
        clear hL hL2 e2 e3 hlo m1 m3 m4 m5 m6 hb6
        split_ifs at hc <;> split_ifs at e1 ⊢ <;> omega
      · have hL2 : L = 2 * h := by
          rw [if_neg (by omega)] at hL
          exact hL
        have m3 : (2 * h + h) % 4294967296 = 3 * h := by omega
        rw [hL2, hlo] at e1
        simp only [m5, m1, m3, m4] at e1
        clear hL hL2 e2 e3 hlo m1 m3 m4 m5 m6 hb6
        split_ifs at hc <;> split_ifs at e1 ⊢ <;> omega
  · obtain ⟨e1, e2, e3⟩ := hstep.2 hr
    clear hstep
    rw [wheelGap, if_neg (by omega)] at e3
    subst e2 e3 hlo
    refine ⟨rfl, by split_ifs at hL ⊢ <;> omega, ?_⟩
    split_ifs at hc e1 ⊢ <;> omega

/-- The invariant holds after the fourth edge (edge 3): edge 0 is not
classified and edges 1, 2 and 3 start from `count = 0`, `lastHighLowTime = 0`
and `lowTime = 0`. -/
theorem SyncInv_base (h p t0 c2 L2 lo2 c3 L3 lo3 c4 L4 lo4 : Nat) (hh : 1 ≤ h) (hp : p < 70)
    (hT : t0 + wheelGap h (3 * h) p 1 + wheelGap h (3 * h) p 2 + wheelGap h (3 * h) p 3
      < 4294967296)
    (s1 : EdgeStep ((p + 1) % 2 = 0) (wheelGap h (3 * h) p 1) 0 0 0 c2 L2 lo2)
    (s2 : EdgeStep ((p + 2) % 2 = 0) (wheelGap h (3 * h) p 2) c2 L2 lo2 c3 L3 lo3)
    (s3 : EdgeStep ((p + 3) % 2 = 0) (wheelGap h (3 * h) p 3) c3 L3 lo3 c4 L4 lo4) :
    SyncInv h p 3 c4 L4 lo4 := by
  unfold EdgeStep at s1 s2 s3
  unfold SyncInv
  unfold wheelGap at hT
  by_cases hpar : p % 2 = 0
  · obtain ⟨a1, a2, a3⟩ := s1.2 (by omega)
    obtain ⟨b1, b2, b3⟩ := s2.1 (by omega)
    obtain ⟨d1, d2, d3⟩ := s3.2 (by omega)
    clear s1 s2 s3
    rw [wheelGap, if_neg (by omega)] at a3 d3
    rw [if_neg (by omega)] at a1
    subst a1 a2 a3
    rw [if_pos (Or.inl rfl), if_neg (by omega)] at b1
    subst b1 b3
    rw [if_neg (by omega)] at d1
    subst d1 d2 d3
    refine ⟨rfl, ?_, by split_ifs <;> omega⟩
    rw [b2, wheelGap]
    by_cases h68 : (p + 2) % 70 = 0
    · rw [if_pos h68, if_pos (by omega)]
      rw [if_neg (by omega), if_pos h68, if_neg (by omega)] at hT
      omega
    · rw [if_neg h68, if_neg (by omega)]
      rw [if_neg (by omega), if_neg h68, if_neg (by omega)] at hT
      omega
  · obtain ⟨a1, a2, a3⟩ := s1.1 (by omega)
    obtain ⟨b1, b2, b3⟩ := s2.2 (by omega)
    obtain ⟨d1, d2, d3⟩ := s3.1 (by omega)
    clear s1 s2 s3
    rw [if_pos (Or.inl rfl), if_neg (by omega)] at a1
    rw [wheelGap, if_neg (by omega)] at b3
    rw [a1, if_neg (by omega)] at b1
    rw [b1, if_pos (Or.inl rfl), b2, a2, b3] at d1
    rw [b3] at d2 d3
    clear a1 a3 b1 b2 b3 a2
    by_cases h69 : (p + 1) % 70 = 0
    · have h67 : ¬ (p + 3) % 70 = 0 := by omega
      unfold wheelGap at d1 d2
      rw [if_pos h69, if_neg h67] at d1
      rw [if_neg h67] at d2
      rw [if_pos h69, if_neg (by omega), if_neg (by omega)] at hT
      have m1 : (3 * h + 0) % 4294967296 = 3 * h := by omega
      have m2 : (h + h) % 4294967296 = 2 * h := by omega
      have m3 : (3 * h + 3 * h / 2) % 4294967296 = 3 * h + 3 * h / 2 := by omega
      rw [m2] at d2
      rw [m1, m2, m3, if_neg (by omega)] at d1
      refine ⟨d3, by rw [d2, if_neg (by omega)], by rw [d1]; split_ifs <;> omega⟩
    · have hc4 : c4 = 0 ∨ c4 = 1 := by
        rw [d1]
        split_ifs
        · exact Or.inr rfl
        · exact Or.inl rfl
      clear d1
      rw [d2, wheelGap]
      refine ⟨d3, ?_, by split_ifs <;> omega⟩
      by_cases h67 : (p + 3) % 70 = 0
      · rw [if_pos h67, if_pos (by omega)]
        rw [if_neg (by omega), if_neg (by omega), if_pos h67] at hT
        omega
      · rw [if_neg h67, if_neg (by omega)]
        rw [if_neg (by omega), if_neg (by omega), if_neg h67] at hT
        omega

/-- On the wheel the invariant holds after every edge from the fourth on. -/
theorem wheel_invariant (hw : Nat → Regs) (ext : Nat → Nat) (t0 h p K : Nat)
    (hh : 1 ≤ h) (hp : p < 70)
    (hstamp : ∀ k ≤ K,
      extendedTimeStamp (hw k).TFLGOF (hw k).TC0 (ext k) = wheelTime t0 h (3 * h) p k)
    (hpol : ∀ k ≤ K, (((hw k).PTIT &&& 0x01) ≠ 0 ↔ (p + k) % 2 = 0))
    (hK : wheelTime t0 h (3 * h) p K < 4294967296) :
    ∀ k, 3 ≤ k → k ≤ K →
      SyncInv h p k (primaryRun hw ext State.reset (k + 1)).count
        (primaryRun hw ext State.reset (k + 1)).lastHighLowTime
        (primaryRun hw ext State.reset (k + 1)).lowTime := by
  intro k hk3
  induction k, hk3 using Nat.le_induction with
  | base =>
    intro hK3
    obtain ⟨u1, u2, u3⟩ := PrimaryRPMISR_unclassified (hw 0)
      { State.reset with timerExtensionClock := ext 0 } rfl
    have c0 : (primaryRun hw ext State.reset 1).count = 0 := u1
    have L0 : (primaryRun hw ext State.reset 1).lastHighLowTime = 0 := u2
    have lo0 : (primaryRun hw ext State.reset 1).lowTime = 0 := u3
    have s1 := primaryRun_edgeStep hw ext State.reset 1 (wheelGap h (3 * h) p 1)
      ((p + 1) % 2 = 0) (wheel_classified hw ext t0 h p K hh hstamp hK 0 (by omega))
      (hpol 1 (by omega)) (wheel_interval hw ext t0 h p K hh hstamp hK 0 (by omega))
    have s2 := primaryRun_edgeStep hw ext State.reset 2 (wheelGap h (3 * h) p 2)
      ((p + 2) % 2 = 0) (wheel_classified hw ext t0 h p K hh hstamp hK 1 (by omega))
      (hpol 2 (by omega)) (wheel_interval hw ext t0 h p K hh hstamp hK 1 (by omega))
    have s3 := primaryRun_edgeStep hw ext State.reset 3 (wheelGap h (3 * h) p 3)
      ((p + 3) % 2 = 0) (wheel_classified hw ext t0 h p K hh hstamp hK 2 (by omega))
      (hpol 3 (by omega)) (wheel_interval hw ext t0 h p K hh hstamp hK 2 (by omega))
    rw [c0, L0, lo0] at s1
    have hT : t0 + wheelGap h (3 * h) p 1 + wheelGap h (3 * h) p 2 + wheelGap h (3 * h) p 3
        < 4294967296 :=
      lt_of_le_of_lt (wheelTime_le t0 h (3 * h) p 3 K hK3) hK
    exact SyncInv_base h p t0 _ _ _ _ _ _ _ _ _ hh hp hT s1 s2 s3
  | succ k hk ih =>
    intro hK1
    have hle := wheelTime_le t0 h (3 * h) p (k + 1) K hK1
    have hlow := wheelTime_lower t0 h p (k + 1)
    have hb4 : 4 * h < 4294967296 := by
      have := Nat.mul_le_mul_right h (show 4 ≤ k + 1 by omega)
      omega
    have hb6 : (p + (k + 1)) % 70 = 0 ∨ (p + (k + 1)) % 70 = 2 → 6 * h < 4294967296 := by
      intro hj
      have h6 := Nat.mul_le_mul_right h (show 6 ≤ k + 1 + 2 by omega)
      rcases hj with hj | hj
      · have := wheelTime_lower_landmark t0 h p (k + 1) (by omega) hj
        omega
      · have := wheelTime_lower_after t0 h p (k + 1) (by omega) (Or.inr hj)
        omega
    exact SyncInv_step h p k _ _ _ _ _ _ hh hp hk hb4 hb6 (ih (by omega))
      (primaryRun_edgeStep hw ext State.reset (k + 1) (wheelGap h (3 * h) p (k + 1))
        ((p + (k + 1)) % 2 = 0) (wheel_classified hw ext t0 h p K hh hstamp hK k (by omega))
        (hpol (k + 1) hK1) (wheel_interval hw ext t0 h p K hh hstamp hK k hK1))

/-- The registers of the wheel stimulus carry the wheel's time stamps. -/
theorem wheelRegs_stamp (t0 h m p k : Nat) :
    extendedTimeStamp (wheelRegs t0 h m p k).TFLGOF (wheelRegs t0 h m p k).TC0
      (wheelExt t0 h m p k) = wheelTime t0 h m p k :=
  extendedTimeStamp_of_wide (wheelTime t0 h m p k)

/-- The registers of the wheel stimulus carry the wheel's polarity. -/
theorem wheelRegs_polarity (t0 h m p k : Nat) :
    (((wheelRegs t0 h m p k).PTIT &&& 0x01) ≠ 0 ↔ (p + k) % 2 = 0) := by
  unfold wheelRegs edgeRegs
  by_cases hc : (p + k) % 2 = 0
  · simp [hc]
  · simp [hc]

/-- C8: the primary handler is run from the reset state on the edges 0..K of a
35-tooth wheel with one missing tooth: the time stamps are `wheelTime`, that is
every edge is `h >= 1` ticks after its predecessor except the rising edge after
the missing tooth, at the positions with `(p + k) % 70 = 0`, which is `3 * h`
after it; they stay below 2^32; polarity alternates, rising at the even
positions; `p < 70` is the starting phase and `t0` the first time stamp.  Then
there is an edge index `n`, a landmark edge no later than the second landmark
edge `(70 - p) % 70 + 70`, such that after every edge `k >= n` of the run
`count` is `1 + (k - n) % 70`: it is 1 after edge `n`, goes up by 1 with every
edge, is back at 1 exactly at the landmark edges and is never 0. -/
theorem missing_tooth_sync (hw : Nat → Regs) (ext : Nat → Nat) (t0 h p K : Nat)
    (hh : 1 ≤ h) (hp : p < 70)
    (hstamp : ∀ k ≤ K,
      extendedTimeStamp (hw k).TFLGOF (hw k).TC0 (ext k) = wheelTime t0 h (3 * h) p k)
    (hpol : ∀ k ≤ K, (((hw k).PTIT &&& 0x01) ≠ 0 ↔ (p + k) % 2 = 0))
    (hK : wheelTime t0 h (3 * h) p K < 4294967296) :
    ∃ n, n ≤ (70 - p) % 70 + 70 ∧ (p + n) % 70 = 0 ∧
      ∀ k, n ≤ k → k ≤ K →
        (primaryRun hw ext State.reset (k + 1)).count = 1 + (k - n) % 70 := by
  refine ⟨(70 - p) % 70 + 70, le_refl _, by omega, fun k hn hk => ?_⟩
  have hinv := wheel_invariant hw ext t0 h p K hh hp hstamp hpol hK k (by omega) hk
  unfold SyncInv at hinv
  obtain ⟨_, _, hc⟩ := hinv
  rw [if_neg (by omega), if_neg (by omega)] at hc
  exact hc

/-- Witness of `missing_tooth_sync`: three revolutions (edges 0..209) with
`h = 500`, starting at the landmark edge at time 1500. -/
theorem missing_tooth_sync_witness :
    ∃ n, n ≤ (70 - 0) % 70 + 70 ∧ (0 + n) % 70 = 0 ∧
      ∀ k, n ≤ k → k ≤ 209 →
        (primaryRun (wheelRegs 1500 500 (3 * 500) 0) (wheelExt 1500 500 (3 * 500) 0)
          State.reset (k + 1)).count = 1 + (k - n) % 70 :=
  missing_tooth_sync (wheelRegs 1500 500 (3 * 500) 0) (wheelExt 1500 500 (3 * 500) 0)
    1500 500 0 209 (by decide) (by decide)
    (fun k _ => wheelRegs_stamp 1500 500 (3 * 500) 0 k)
    (fun k _ => wheelRegs_polarity 1500 500 (3 * 500) 0 k)
    (by decide!)

/-! ## The end-to-end scenario -/

/-- C9 (counterexample): three revolutions (edges 0..209) with every edge 500
ticks after its predecessor except the rising landmark edge, which is 1000
ticks after the preceding falling edge.  The full tooth period at the landmark
is then 1500, exactly 1.5 x the regular 1000 and so not above it: started at
the landmark edge, `count` is 0 after every one of the 210 edges; and for
every starting phase `count` is 0 after the last edge. -/
theorem spec_scenario_counterexample :
    (∀ k < 210, wheelCount 1000 500 1000 0 k = 0) ∧
    (∀ p < 70, wheelCount 500 500 1000 p 209 = 0) := by
  constructor <;> decide!

/-- C9 (amended): three revolutions (edges 0..209), each beginning with its
rising landmark edge, with every edge 500 ticks after its predecessor except
the landmark edge, which is 1500 ticks after the preceding falling edge (full
tooth period 2000 at the landmark).  `count` is 0 after each edge of the first
revolution, 1 after the landmark edge of the second, and from there runs
1, 2, ..., 70, 1, 2, ..., 70. -/
theorem spec_scenario_wider_gap :
    (∀ k < 70, wheelCount 1500 500 1500 0 k = 0) ∧
    (∀ k < 210, 70 ≤ k → wheelCount 1500 500 1500 0 k = 1 + (k - 70) % 70) := by
  constructor <;> decide!

/-! ## Primary tooth decoder: transitions and frame -/

/-- The cross-channel tally after an edge that is not classified. -/
theorem PrimaryRPMISR_unclassified_tally (hw : Regs) (g : State) (h0 : g.lastPeriod = 0) :
    (PrimaryRPMISR hw g).primaryPulsesPerSecondaryPulse = g.primaryPulsesPerSecondaryPulse := by
  unfold PrimaryRPMISR
  dsimp only
  rw [if_neg (by simpa using h0)]

/-- The cross-channel tally after a classified rising edge. -/
theorem PrimaryRPMISR_rising_tally (hw : Regs) (g : State)
    (hcl : g.lastPeriod ≠ 0) (hr : (hw.PTIT &&& 0x01) ≠ 0) :
    (PrimaryRPMISR hw g).primaryPulsesPerSecondaryPulse =
      (g.primaryPulsesPerSecondaryPulse + 1) % USHORT_MOD := by
  unfold PrimaryRPMISR
  dsimp only
  rw [if_pos hcl, if_pos hr]

/-- C11: in landmark search (`count` 0 or 70, `lastPeriod` not 0) with
`lastHighLowTime = L > 0` and `3 * L < 2^32`, a rising edge whose full tooth
period (the 32-bit sum of the interval and `lowTime`) is `3 * L` leaves
`count = 0`. -/
theorem triple_period_rejected (hw : Regs) (g : State) (L : Nat)
    (hcl : g.lastPeriod ≠ 0) (hr : (hw.PTIT &&& 0x01) ≠ 0)
    (hc : g.count = 0 ∨ g.count = 70)
    (hL : g.lastHighLowTime = L) (_hpos : 0 < L) (h3 : 3 * L < 4294967296)
    (hF : add32 (ticksBetween (extendedTimeStamp hw.TFLGOF hw.TC0 g.timerExtensionClock)
      g.lastTimeStamp) g.lowTime = 3 * L) :
    (PrimaryRPMISR hw g).count = 0 := by
  have h := (PrimaryRPMISR_rising hw g hcl hr).1
  rw [if_pos hc, hF, hL] at h
  rw [h]
  unfold add32 shl32 ULONG_MOD
  rw [shiftRight_one, shiftLeft_one]
  have e1 : (2 * L % 4294967296 + L / 2) % 4294967296 = 2 * L + L / 2 := by omega
  rw [e1, if_neg (by omega)]

/-- Witness of `triple_period_rejected`: `oddPeriodState` has
`lastHighLowTime = 1` and `lowTime = 1`; a rising edge two ticks after the
last edge has full tooth period 3. -/
theorem triple_period_rejected_witness :
    (PrimaryRPMISR (edgeRegs 9 true) { oddPeriodState with timerExtensionClock := 0 }).count = 0 :=
  triple_period_rejected (edgeRegs 9 true) { oddPeriodState with timerExtensionClock := 0 } 1
    (by decide) (by decide) (by decide) (by decide) (by decide) (by decide) (by decide)

/-- C12: on every classified edge (`lastPeriod` not 0), from every state whose
`count` is an unsigned int, the new `count` is 0, or the old `count` plus 1, or
1 on a rising edge from `count = 70`. -/
theorem count_transitions (hw : Regs) (g : State)
    (hcl : g.lastPeriod ≠ 0) (hcw : g.count < UINT_MOD) :
    (PrimaryRPMISR hw g).count = 0 ∨
    (PrimaryRPMISR hw g).count = g.count + 1 ∨
    (g.count = 70 ∧ (hw.PTIT &&& 0x01) ≠ 0 ∧ (PrimaryRPMISR hw g).count = 1) := by
  unfold UINT_MOD at hcw
  by_cases hr : (hw.PTIT &&& 0x01) ≠ 0
  · have h := (PrimaryRPMISR_rising hw g hcl hr).1
    unfold UINT_MOD at h
    rw [h]
    split_ifs with h1 h2 h3
    · rcases h1 with h1 | h1
      · right; left; omega
      · right; right; exact ⟨h1, hr, rfl⟩
    · left; rfl
    · right; left
      rcases h3 with h3 | h3
      · omega
      · have := h3.1
        omega
    · left; rfl
  · have hf : (hw.PTIT &&& 0x01) = 0 := by
      by_contra hc
      exact hr hc
    have h := (PrimaryRPMISR_falling hw g hcl hf).1
    unfold UINT_MOD at h
    rw [h]
    split_ifs
    · omega
    · left; rfl

/-- Witness of `count_transitions`: the landmark edge accepted from
`beforeLandmarkState` takes `count` from 0 to 1. -/
theorem count_transitions_witness :
    (PrimaryRPMISR (edgeRegs 4294967295 true)
        { beforeLandmarkState with timerExtensionClock := 65535 }).count = 0 ∨
    (PrimaryRPMISR (edgeRegs 4294967295 true)
        { beforeLandmarkState with timerExtensionClock := 65535 }).count =
      ({ beforeLandmarkState with timerExtensionClock := 65535 } : State).count + 1 ∨
    (({ beforeLandmarkState with timerExtensionClock := 65535 } : State).count = 70 ∧
      ((edgeRegs 4294967295 true).PTIT &&& 0x01) ≠ 0 ∧
      (PrimaryRPMISR (edgeRegs 4294967295 true)
        { beforeLandmarkState with timerExtensionClock := 65535 }).count = 1) :=
  count_transitions (edgeRegs 4294967295 true)
    { beforeLandmarkState with timerExtensionClock := 65535 } (by decide) (by decide)

/-- C13: when the handler runs with `lastPeriod = 0`, `count`,
`lastHighLowTime`, `lowTime` and `primaryPulsesPerSecondaryPulse` keep their
values, and `lastPeriod` receives the interval computed for this edge. -/
theorem first_edge_not_classified (hw : Regs) (g : State) (h0 : g.lastPeriod = 0) :
    (PrimaryRPMISR hw g).count = g.count ∧
    (PrimaryRPMISR hw g).lastHighLowTime = g.lastHighLowTime ∧
    (PrimaryRPMISR hw g).lowTime = g.lowTime ∧
    (PrimaryRPMISR hw g).primaryPulsesPerSecondaryPulse = g.primaryPulsesPerSecondaryPulse ∧
    (PrimaryRPMISR hw g).lastPeriod =
      ticksBetween (extendedTimeStamp hw.TFLGOF hw.TC0 g.timerExtensionClock)
        g.lastTimeStamp := by
  obtain ⟨h1, h2, h3⟩ := PrimaryRPMISR_unclassified hw g h0
  exact ⟨h1, h2, h3, PrimaryRPMISR_unclassified_tally hw g h0, PrimaryRPMISR_lastPeriod hw g⟩

/-- Witness of `first_edge_not_classified`: the first edge after reset, a
rising edge at time stamp 1000, stores the interval 1000 and nothing else. -/
theorem first_edge_not_classified_witness :
    (PrimaryRPMISR (edgeRegs 1000 true) State.reset).count = State.reset.count ∧
    (PrimaryRPMISR (edgeRegs 1000 true) State.reset).lastHighLowTime =
      State.reset.lastHighLowTime ∧
    (PrimaryRPMISR (edgeRegs 1000 true) State.reset).lowTime = State.reset.lowTime ∧
    (PrimaryRPMISR (edgeRegs 1000 true) State.reset).primaryPulsesPerSecondaryPulse =
      State.reset.primaryPulsesPerSecondaryPulse ∧
    (PrimaryRPMISR (edgeRegs 1000 true) State.reset).lastPeriod =
      ticksBetween (extendedTimeStamp (edgeRegs 1000 true).TFLGOF (edgeRegs 1000 true).TC0
        State.reset.timerExtensionClock) State.reset.lastTimeStamp :=
  first_edge_not_classified (edgeRegs 1000 true) State.reset rfl

/-- C14 (counterexample): in `beforeWrapState` (`count = 1`,
`lastHighLowTime = 20`, tally 2) a classified rising edge arrives while `count`
is odd, so synchronisation is lost and `count` becomes 0; `lastHighLowTime`
nevertheless becomes 30 and the tally 3. -/
theorem lost_edge_updates_counterexample :
    beforeWrapState.lastPeriod ≠ 0 ∧ ((edgeRegs 20 true).PTIT &&& 0x01) ≠ 0 ∧
    beforeWrapState.count = 1 ∧
    (PrimaryRPMISR (edgeRegs 20 true) { beforeWrapState with timerExtensionClock := 0 }).count = 0 ∧
    beforeWrapState.lastHighLowTime = 20 ∧
    (PrimaryRPMISR (edgeRegs 20 true)
      { beforeWrapState with timerExtensionClock := 0 }).lastHighLowTime = 30 ∧
    beforeWrapState.primaryPulsesPerSecondaryPulse = 2 ∧
    (PrimaryRPMISR (edgeRegs 20 true)
      { beforeWrapState with timerExtensionClock := 0 }).primaryPulsesPerSecondaryPulse = 3 := by
  refine ⟨by decide, by decide, by decide, by decide, by decide, by decide, by decide, by decide⟩

/-- C14 (amended): on a classified rising edge on which synchronisation is
lost (`count` is set to 0), `lastHighLowTime` is set to the full tooth period
`(interval + lowTime) mod 2^32`, as on an accepted edge. -/
theorem lost_edge_updates_period (hw : Regs) (g : State)
    (hcl : g.lastPeriod ≠ 0) (hr : (hw.PTIT &&& 0x01) ≠ 0)
    (_hlost : (PrimaryRPMISR hw g).count = 0) :
    (PrimaryRPMISR hw g).lastHighLowTime =
      (ticksBetween (extendedTimeStamp hw.TFLGOF hw.TC0 g.timerExtensionClock)
        g.lastTimeStamp + g.lowTime) % 4294967296 :=
  (PrimaryRPMISR_rising hw g hcl hr).2.1

/-- Witness of `lost_edge_updates_period`: the edge of
`lost_edge_updates_counterexample`. -/
theorem lost_edge_updates_period_witness :
    (PrimaryRPMISR (edgeRegs 20 true)
      { beforeWrapState with timerExtensionClock := 0 }).lastHighLowTime =
      (ticksBetween (extendedTimeStamp (edgeRegs 20 true).TFLGOF (edgeRegs 20 true).TC0
          ({ beforeWrapState with timerExtensionClock := 0 } : State).timerExtensionClock)
        ({ beforeWrapState with timerExtensionClock := 0 } : State).lastTimeStamp +
        ({ beforeWrapState with timerExtensionClock := 0 } : State).lowTime) % 4294967296 :=
  lost_edge_updates_period (edgeRegs 20 true) { beforeWrapState with timerExtensionClock := 0 }
    (by decide) (by decide) (by decide)

/-- C15: on a classified rising edge that is accepted (`count` is not 0
afterwards), `lastHighLowTime` becomes `(interval + lowTime) mod 2^32`, where
`interval` is the interval computed for this edge and `lowTime` the value
stored before it, and `primaryPulsesPerSecondaryPulse` goes up by 1 as an
unsigned short: by exactly 1 whenever that fits. -/
theorem accepted_edge_updates (hw : Regs) (g : State)
    (hcl : g.lastPeriod ≠ 0) (hr : (hw.PTIT &&& 0x01) ≠ 0)
    (_hacc : (PrimaryRPMISR hw g).count ≠ 0) :
    (PrimaryRPMISR hw g).lastHighLowTime =
      (ticksBetween (extendedTimeStamp hw.TFLGOF hw.TC0 g.timerExtensionClock)
        g.lastTimeStamp + g.lowTime) % 4294967296 ∧
    (PrimaryRPMISR hw g).primaryPulsesPerSecondaryPulse =
      (g.primaryPulsesPerSecondaryPulse + 1) % USHORT_MOD ∧
    (g.primaryPulsesPerSecondaryPulse + 1 < USHORT_MOD →
      (PrimaryRPMISR hw g).primaryPulsesPerSecondaryPulse =
        g.primaryPulsesPerSecondaryPulse + 1) := by
  have ht := PrimaryRPMISR_rising_tally hw g hcl hr
  refine ⟨(PrimaryRPMISR_rising hw g hcl hr).2.1, ht, fun hlt => ?_⟩
  rw [ht]
  exact Nat.mod_eq_of_lt hlt

/-- Witness of `accepted_edge_updates`: the landmark edge accepted from
`beforeLandmarkState`; the tally goes from 1 to 2. -/
theorem accepted_edge_updates_witness :
    (PrimaryRPMISR (edgeRegs 4294967295 true)
      { beforeLandmarkState with timerExtensionClock := 65535 }).primaryPulsesPerSecondaryPulse =
      ({ beforeLandmarkState with timerExtensionClock := 65535 } :
        State).primaryPulsesPerSecondaryPulse + 1 :=
  (accepted_edge_updates (edgeRegs 4294967295 true)
    { beforeLandmarkState with timerExtensionClock := 65535 }
    (by decide) (by decide) (by decide)).2.2 (by decide)

/-- C16: after every invocation of the primary handler `lastTimeStamp` is the
time stamp assembled for this edge and `lastPeriod` is the interval from the
old `lastTimeStamp` to it. -/
theorem stamp_and_interval_always (hw : Regs) (g : State) :
    (PrimaryRPMISR hw g).lastTimeStamp =
      extendedTimeStamp hw.TFLGOF hw.TC0 g.timerExtensionClock ∧
    (PrimaryRPMISR hw g).lastPeriod =
      ticksBetween (extendedTimeStamp hw.TFLGOF hw.TC0 g.timerExtensionClock)
        g.lastTimeStamp :=
  ⟨PrimaryRPMISR_lastTimeStamp hw g, PrimaryRPMISR_lastPeriod hw g⟩

/-- C17: every invocation of the primary handler adds 1 to `primaryTeethSeen`
as an unsigned short. -/
theorem teeth_seen_always (hw : Regs) (g : State) :
    (PrimaryRPMISR hw g).primaryTeethSeen = (g.primaryTeethSeen + 1) % USHORT_MOD := by
  unfold PrimaryRPMISR
  dsimp only
  split_ifs <;> rfl

/-- The time stamp depends on the overflow flag register only through its
being zero or not. -/
theorem extendedTimeStamp_flag (f1 f2 raw ext : Nat) (hf : f1 ≠ 0 ↔ f2 ≠ 0) :
    extendedTimeStamp f1 raw ext = extendedTimeStamp f2 raw ext := by
  unfold extendedTimeStamp
  dsimp only
  by_cases h1 : f1 ≠ 0
  · have h2 : f2 ≠ 0 := hf.1 h1
    simp only [h1, h2, ne_eq, not_false_eq_true, true_and]
  · have h2 : ¬ f2 ≠ 0 := fun h => h1 (hf.2 h)
    simp only [h1, h2, false_and, if_false]

/-- C18: two runs of the primary handler from states with the same decoder
state (`count`, `lastTimeStamp`, `lastHighLowTime`, `lowTime`, `lastPeriod`)
and the same extension word, on registers with the same edge time stamp, the
same overflow flag and the same bit 0 of the port, end in the same decoder
state, whatever the counter reads, the other port bits and the other fields of
the two states are. -/
theorem decoder_independent_of_diagnostics (hw1 hw2 : Regs) (g1 g2 : State)
    (hd : decoderState g1 = decoderState g2)
    (hext : g1.timerExtensionClock = g2.timerExtensionClock)
    (htc : hw1.TC0 = hw2.TC0) (hof : hw1.TFLGOF ≠ 0 ↔ hw2.TFLGOF ≠ 0)
    (hbit : (hw1.PTIT &&& 0x01) = (hw2.PTIT &&& 0x01)) :
    decoderState (PrimaryRPMISR hw1 g1) = decoderState (PrimaryRPMISR hw2 g2) := by
  unfold decoderState at hd
  simp only [Prod.mk.injEq] at hd
  obtain ⟨hc, hts, hL, hlo, hp⟩ := hd
  have hstamp : extendedTimeStamp hw1.TFLGOF hw1.TC0 g1.timerExtensionClock =
      extendedTimeStamp hw2.TFLGOF hw2.TC0 g2.timerExtensionClock := by
    rw [htc, hext]
    exact extendedTimeStamp_flag _ _ _ _ hof
  unfold decoderState
  simp only [Prod.mk.injEq]
  refine ⟨?_, ?_, ?_, ?_, ?_⟩
  · by_cases hcl : g1.lastPeriod ≠ 0
    · have hcl2 : g2.lastPeriod ≠ 0 := by rw [← hp]; exact hcl
      by_cases hr : (hw1.PTIT &&& 0x01) ≠ 0
      · have hr2 : (hw2.PTIT &&& 0x01) ≠ 0 := by rw [← hbit]; exact hr
        rw [(PrimaryRPMISR_rising hw1 g1 hcl hr).1, (PrimaryRPMISR_rising hw2 g2 hcl2 hr2).1,
          hstamp, hc, hts, hL, hlo]
      · have hf : (hw1.PTIT &&& 0x01) = 0 := by
          by_contra hx
          exact hr hx
        have hf2 : (hw2.PTIT &&& 0x01) = 0 := by rw [← hbit]; exact hf
        rw [(PrimaryRPMISR_falling hw1 g1 hcl hf).1, (PrimaryRPMISR_falling hw2 g2 hcl2 hf2).1, hc]
    · have h0 : g1.lastPeriod = 0 := by
        by_contra hx
        exact hcl hx
      have h02 : g2.lastPeriod = 0 := by rw [← hp]; exact h0
      rw [(PrimaryRPMISR_unclassified hw1 g1 h0).1, (PrimaryRPMISR_unclassified hw2 g2 h02).1, hc]
  · rw [PrimaryRPMISR_lastTimeStamp, PrimaryRPMISR_lastTimeStamp, hstamp]
  · by_cases hcl : g1.lastPeriod ≠ 0
    · have hcl2 : g2.lastPeriod ≠ 0 := by rw [← hp]; exact hcl
      by_cases hr : (hw1.PTIT &&& 0x01) ≠ 0
      · have hr2 : (hw2.PTIT &&& 0x01) ≠ 0 := by rw [← hbit]; exact hr
        rw [(PrimaryRPMISR_rising hw1 g1 hcl hr).2.1, (PrimaryRPMISR_rising hw2 g2 hcl2 hr2).2.1,
          hstamp, hts, hlo]
      · have hf : (hw1.PTIT &&& 0x01) = 0 := by
          by_contra hx
          exact hr hx
        have hf2 : (hw2.PTIT &&& 0x01) = 0 := by rw [← hbit]; exact hf
        rw [(PrimaryRPMISR_falling hw1 g1 hcl hf).2.1,
          (PrimaryRPMISR_falling hw2 g2 hcl2 hf2).2.1, hL]
    · have h0 : g1.lastPeriod = 0 := by
        by_contra hx
        exact hcl hx
      have h02 : g2.lastPeriod = 0 := by rw [← hp]; exact h0
      rw [(PrimaryRPMISR_unclassified hw1 g1 h0).2.1,
        (PrimaryRPMISR_unclassified hw2 g2 h02).2.1, hL]
  · by_cases hcl : g1.lastPeriod ≠ 0
    · have hcl2 : g2.lastPeriod ≠ 0 := by rw [← hp]; exact hcl
      by_cases hr : (hw1.PTIT &&& 0x01) ≠ 0
      · have hr2 : (hw2.PTIT &&& 0x01) ≠ 0 := by rw [← hbit]; exact hr
        rw [(PrimaryRPMISR_rising hw1 g1 hcl hr).2.2.2,
          (PrimaryRPMISR_rising hw2 g2 hcl2 hr2).2.2.2, hlo]
      · have hf : (hw1.PTIT &&& 0x01) = 0 := by
          by_contra hx
          exact hr hx
        have hf2 : (hw2.PTIT &&& 0x01) = 0 := by rw [← hbit]; exact hf
        rw [(PrimaryRPMISR_falling hw1 g1 hcl hf).2.2,
          (PrimaryRPMISR_falling hw2 g2 hcl2 hf2).2.2, hstamp, hts]
    · have h0 : g1.lastPeriod = 0 := by
        by_contra hx
        exact hcl hx
      have h02 : g2.lastPeriod = 0 := by rw [← hp]; exact h0
      rw [(PrimaryRPMISR_unclassified hw1 g1 h0).2.2,
        (PrimaryRPMISR_unclassified hw2 g2 h02).2.2, hlo]
  · rw [PrimaryRPMISR_lastPeriod, PrimaryRPMISR_lastPeriod, hstamp, hts]

/-- Witness of `decoder_independent_of_diagnostics`: the same rising edge seen
from `beforeLandmarkState` with two different sets of counter reads, port bits
and diagnostic values. -/
theorem decoder_independent_of_diagnostics_witness :
    decoderState (PrimaryRPMISR ⟨100, 130, 65535, 0, 0x01, 0⟩
        { beforeLandmarkState with timerExtensionClock := 65535 }) =
      decoderState (PrimaryRPMISR ⟨7, 9, 65535, 42, 0xF1, 0⟩ otherDiagnosticsState) :=
  decoder_independent_of_diagnostics ⟨100, 130, 65535, 0, 0x01, 0⟩ ⟨7, 9, 65535, 42, 0xF1, 0⟩
    { beforeLandmarkState with timerExtensionClock := 65535 } otherDiagnosticsState
    (by decide) (by decide) (by decide) (by decide) (by decide)

/-! ## Secondary edge capture -/

/-- C19 (the code at the failing input): two qualifying secondary edges from
the reset state that differ only in the overflow flag.  Their extended time
stamps are 5 and 65541, yet the handler leaves the same globals behind; and in
general the globals after the handler do not depend on the overflow flag at
all.  The assembled time stamp is not stored. -/
theorem secondary_timestamp_not_stored :
    (SecondaryRPMISR 1 1 ⟨10, 12, 0, 5, 0x02, 0⟩ State.reset).timeStamp = some 5 ∧
    (SecondaryRPMISR 1 1 ⟨10, 12, 0, 5, 0x02, 0x80⟩ State.reset).timeStamp = some 65541 ∧
    (SecondaryRPMISR 1 1 ⟨10, 12, 0, 5, 0x02, 0⟩ State.reset).globals =
      (SecondaryRPMISR 1 1 ⟨10, 12, 0, 5, 0x02, 0x80⟩ State.reset).globals ∧
    (∀ (coreSettingsA SECONDARY_POLARITY : Nat) (hw : Regs) (g : State) (f : Nat),
      (SecondaryRPMISR coreSettingsA SECONDARY_POLARITY { hw with TFLGOF := f } g).globals =
        (SecondaryRPMISR coreSettingsA SECONDARY_POLARITY hw g).globals) := by
  refine ⟨by decide, by decide, by decide, ?_⟩
  intro cs sp hw g f
  unfold SecondaryRPMISR
  dsimp only
  split_ifs <;> rfl

/-- C20: the secondary handler takes the qualifying branch exactly when bit 1
of the port is set and `coreSettingsA & SECONDARY_POLARITY` is not zero, or
bit 1 is clear and `coreSettingsA & SECONDARY_POLARITY` is zero.  On a
qualifying edge it builds the time stamp, writes the leading runtime and
leaves the trailing runtime as it was; otherwise it builds no time stamp,
writes the trailing runtime and leaves the leading runtime as it was. -/
theorem secondary_qualifying_edge (coreSettingsA SECONDARY_POLARITY : Nat) (hw : Regs)
    (g : State) :
    ((((hw.PTIT &&& 0x02) ≠ 0 ∧ (coreSettingsA &&& SECONDARY_POLARITY) ≠ 0) ∨
        ((hw.PTIT &&& 0x02) = 0 ∧ (coreSettingsA &&& SECONDARY_POLARITY) = 0)) →
      ((SecondaryRPMISR coreSettingsA SECONDARY_POLARITY hw g).timeStamp).isSome = true ∧
      (SecondaryRPMISR coreSettingsA SECONDARY_POLARITY hw g).globals.secondaryInputLeadingRuntime
        = sub16 hw.TCNT2 hw.TCNT ∧
      (SecondaryRPMISR coreSettingsA SECONDARY_POLARITY hw g).globals.secondaryInputTrailingRuntime
        = g.secondaryInputTrailingRuntime) ∧
    (¬ (((hw.PTIT &&& 0x02) ≠ 0 ∧ (coreSettingsA &&& SECONDARY_POLARITY) ≠ 0) ∨
        ((hw.PTIT &&& 0x02) = 0 ∧ (coreSettingsA &&& SECONDARY_POLARITY) = 0)) →
      (SecondaryRPMISR coreSettingsA SECONDARY_POLARITY hw g).timeStamp = none ∧
      (SecondaryRPMISR coreSettingsA SECONDARY_POLARITY hw g).globals.secondaryInputTrailingRuntime
        = sub16 hw.TCNT2 hw.TCNT ∧
      (SecondaryRPMISR coreSettingsA SECONDARY_POLARITY hw g).globals.secondaryInputLeadingRuntime
        = g.secondaryInputLeadingRuntime) := by
  unfold SecondaryRPMISR
  dsimp only
  constructor
  · intro hq
    split_ifs <;> simp_all
  · intro hq
    split_ifs <;> simp_all

/-! ## Secondary handler, latency and time base -/

/-- C21: every invocation of the secondary handler adds 1 to
`secondaryTeethSeen` as an unsigned short, whatever the port level and the
polarity setting, and leaves the primary decoder state (`count`,
`lastTimeStamp`, `lastHighLowTime`, `lowTime`, `lastPeriod`), the static
`thisHighLowTime`, the tally and the extension word as they were. -/
theorem secondary_counts_edges (coreSettingsA SECONDARY_POLARITY : Nat) (hw : Regs)
    (g : State) :
    (SecondaryRPMISR coreSettingsA SECONDARY_POLARITY hw g).globals.secondaryTeethSeen =
      (g.secondaryTeethSeen + 1) % USHORT_MOD ∧
    decoderState (SecondaryRPMISR coreSettingsA SECONDARY_POLARITY hw g).globals =
      decoderState g ∧
    (SecondaryRPMISR coreSettingsA SECONDARY_POLARITY hw g).globals.thisHighLowTime =
      g.thisHighLowTime ∧
    (SecondaryRPMISR coreSettingsA SECONDARY_POLARITY hw g).globals.primaryPulsesPerSecondaryPulse
      = g.primaryPulsesPerSecondaryPulse ∧
    (SecondaryRPMISR coreSettingsA SECONDARY_POLARITY hw g).globals.timerExtensionClock =
      g.timerExtensionClock := by
  unfold SecondaryRPMISR decoderState
  dsimp only
  split_ifs <;> exact ⟨rfl, rfl, rfl, rfl, rfl⟩

/-- Unsigned 16-bit subtraction recovers a latency below 2^16 across a wrap of
the counter. -/
theorem sub16_wrap (e d : Nat) (he : e < 65536) (hd : d < 65536) :
    sub16 ((e + d) % 65536) e = d := by
  unfold sub16 USHORT_MOD
  omega

/-- C28: for a 16-bit edge time stamp `e` and a true latency `d < 2^16`, when
the counter read on entry is `(e + d) mod 2^16` the primary handler stores
`primaryInputLatency = d` and the secondary handler stores
`secondaryInputLatency = d`. -/
theorem latency_across_wrap (e d : Nat) (he : e < 65536) (hd : d < 65536) :
    (∀ (hw : Regs) (g : State), hw.TC0 = e → hw.TCNT = (e + d) % 65536 →
      (PrimaryRPMISR hw g).primaryInputLatency = d) ∧
    (∀ (coreSettingsA SECONDARY_POLARITY : Nat) (hw : Regs) (g : State),
      hw.TC1 = e → hw.TCNT = (e + d) % 65536 →
      (SecondaryRPMISR coreSettingsA SECONDARY_POLARITY hw g).globals.secondaryInputLatency
        = d) := by
  constructor
  · intro hw g h0 hT
    have h : (PrimaryRPMISR hw g).primaryInputLatency = sub16 hw.TCNT hw.TC0 := by
      unfold PrimaryRPMISR
      dsimp only
      split_ifs <;> rfl
    rw [h, h0, hT]
    exact sub16_wrap e d he hd
  · intro cs sp hw g h1 hT
    have h : (SecondaryRPMISR cs sp hw g).globals.secondaryInputLatency =
        sub16 hw.TCNT hw.TC1 := by
      unfold SecondaryRPMISR
      dsimp only
      split_ifs <;> rfl
    rw [h, h1, hT]
    exact sub16_wrap e d he hd

/-- Witness of `latency_across_wrap`: edge at 0xFFF0, latency 0x20, so the
counter read on entry is 0x0010. -/
theorem latency_across_wrap_witness :
    (PrimaryRPMISR ⟨16, 20, 65520, 0, 1, 0⟩ State.reset).primaryInputLatency = 32 ∧
    (SecondaryRPMISR 1 1 ⟨16, 20, 0, 65520, 2, 0⟩ State.reset).globals.secondaryInputLatency
      = 32 :=
  ⟨(latency_across_wrap 65520 32 (by decide) (by decide)).1 ⟨16, 20, 65520, 0, 1, 0⟩
      State.reset rfl (by decide),
    (latency_across_wrap 65520 32 (by decide) (by decide)).2 1 1 ⟨16, 20, 0, 65520, 2, 0⟩
      State.reset rfl (by decide)⟩

/-- A read under bounded latency assembles the true tick. -/
theorem extendedTimeStamp_true_tick (hw : Regs) (ext t r : Nat)
    (h : BoundedLatencyRead hw ext t r) :
    extendedTimeStamp hw.TFLGOF hw.TC0 ext = t := by
  obtain ⟨ht, hr1, hr2, hraw, hcase⟩ := h
  have hlt : hw.TC0 < 65536 := by omega
  obtain ⟨hlo, hhi⟩ := extendedTimeStamp_halves hw.TFLGOF hw.TC0 ext hlt
  have key : extendedTimeStamp hw.TFLGOF hw.TC0 ext / 65536 = t / 65536 := by
    rw [hhi]
    rcases hcase with ⟨hf, he, hq⟩ | ⟨hf, he, hm⟩
    · rw [if_neg (by simp [hf])]
      omega
    · by_cases hb : hw.TC0 < 0x8000
      · rw [if_pos ⟨hf, hb⟩]
        omega
      · rw [if_neg (fun hx => hb hx.2)]
        omega
  omega

/-- C26: when the primary handler reads the time base under bounded latency
(`BoundedLatencyRead`: edge at true tick `t < 2^32`, flag and extension word
read less than 0x8000 ticks later, in one of the two consistent combinations),
the time stamp it assembles and stores is `t`; hence of two such edges the
later one does not get the smaller time stamp. -/
theorem timestamp_is_true_tick (hw : Regs) (g : State) (t r : Nat)
    (h : BoundedLatencyRead hw g.timerExtensionClock t r) :
    (PrimaryRPMISR hw g).lastTimeStamp = t ∧
    (∀ (hw2 : Regs) (g2 : State) (t2 r2 : Nat),
      BoundedLatencyRead hw2 g2.timerExtensionClock t2 r2 → t ≤ t2 →
      (PrimaryRPMISR hw g).lastTimeStamp ≤ (PrimaryRPMISR hw2 g2).lastTimeStamp) := by
  have h1 : (PrimaryRPMISR hw g).lastTimeStamp = t := by
    rw [PrimaryRPMISR_lastTimeStamp]
    exact extendedTimeStamp_true_tick hw _ t r h
  refine ⟨h1, fun hw2 g2 t2 r2 h2 hle => ?_⟩
  rw [h1, PrimaryRPMISR_lastTimeStamp, extendedTimeStamp_true_tick hw2 _ t2 r2 h2]
  exact hle

/-- Witness of `timestamp_is_true_tick`: the edge is at tick 0x1FFF0, the flag
and the extension word are read at tick 0x20005 while the overflow is still
pending (extension word 1). -/
theorem timestamp_is_true_tick_witness :
    (PrimaryRPMISR ⟨5, 9, 65520, 0, 1, 0x80⟩
      { State.reset with timerExtensionClock := 1 }).lastTimeStamp = 131056 :=
  (timestamp_is_true_tick ⟨5, 9, 65520, 0, 1, 0x80⟩
    { State.reset with timerExtensionClock := 1 } 131056 131077
    ⟨by decide, by decide, by decide, by decide, Or.inr ⟨by decide, by decide, by decide⟩⟩).1

/-! ## Primary tooth decoder: integer form, bound and resynchronisation -/

/-- C29: on a classified rising edge with `count` 0 or 70 and
`lastHighLowTime = L < 2^30`, where `F` is the 32-bit sum of the interval and
`lowTime` that the handler compares (the exact sum when that fits 32 bits):
`count` becomes 1 if and only if `3 * L < 2 * F` and
`2 * F + L % 2 < 5 * L`, and 0 otherwise; so with `L` equal to 0 or 1 it
becomes 0. -/
theorem landmark_test_integer_form (hw : Regs) (g : State) (L F : Nat)
    (hcl : g.lastPeriod ≠ 0) (hr : (hw.PTIT &&& 0x01) ≠ 0)
    (hc : g.count = 0 ∨ g.count = 70)
    (hL : g.lastHighLowTime = L) (hL30 : L < 1073741824)
    (hF : F = add32 (ticksBetween (extendedTimeStamp hw.TFLGOF hw.TC0 g.timerExtensionClock)
      g.lastTimeStamp) g.lowTime) :
    ((PrimaryRPMISR hw g).count = 1 ↔ (3 * L < 2 * F ∧ 2 * F + L % 2 < 5 * L)) ∧
    ((PrimaryRPMISR hw g).count = 1 ∨ (PrimaryRPMISR hw g).count = 0) ∧
    (L ≤ 1 → (PrimaryRPMISR hw g).count = 0) ∧
    (ticksBetween (extendedTimeStamp hw.TFLGOF hw.TC0 g.timerExtensionClock) g.lastTimeStamp
        + g.lowTime < 4294967296 →
      F = ticksBetween (extendedTimeStamp hw.TFLGOF hw.TC0 g.timerExtensionClock)
        g.lastTimeStamp + g.lowTime) := by
  have hsum : ticksBetween (extendedTimeStamp hw.TFLGOF hw.TC0 g.timerExtensionClock)
        g.lastTimeStamp + g.lowTime < 4294967296 →
      F = ticksBetween (extendedTimeStamp hw.TFLGOF hw.TC0 g.timerExtensionClock)
        g.lastTimeStamp + g.lowTime := by
    intro hlt
    rw [hF]
    exact Nat.mod_eq_of_lt hlt
  have h := (PrimaryRPMISR_rising hw g hcl hr).1
  rw [if_pos hc, ← hF, hL] at h
  unfold add32 shl32 ULONG_MOD at h
  rw [shiftRight_one, shiftLeft_one] at h
  have e2 : (L + L / 2) % 4294967296 = L + L / 2 := by omega
  have e3 : (2 * L % 4294967296 + L / 2) % 4294967296 = 2 * L + L / 2 := by omega
  rw [e2, e3] at h
  rw [h]
  by_cases hacc : F > L + L / 2 ∧ F < 2 * L + L / 2
  · rw [if_pos hacc]
    refine ⟨⟨fun _ => by omega, fun _ => rfl⟩, Or.inl rfl, fun h1 => by omega, hsum⟩
  · rw [if_neg hacc]
    refine ⟨⟨fun h1 => by omega, fun h1 => ?_⟩, Or.inr rfl, fun _ => rfl, hsum⟩
    exfalso
    apply hacc
    omega

/-- Witness of `landmark_test_integer_form`: the landmark edge accepted from
`beforeLandmarkState`, with `L = 10` and `F = 20`. -/
theorem landmark_test_integer_form_witness :
    (PrimaryRPMISR (edgeRegs 4294967295 true)
      { beforeLandmarkState with timerExtensionClock := 65535 }).count = 1 :=
  (landmark_test_integer_form (edgeRegs 4294967295 true)
    { beforeLandmarkState with timerExtensionClock := 65535 } 10 20
    (by decide) (by decide) (by decide) (by decide) (by decide) (by decide)).1.2
    ⟨by decide, by decide⟩

/-- One invocation keeps `count` at or below 70. -/
theorem PrimaryRPMISR_count_le (hw : Regs) (g : State) (h : g.count ≤ 70) :
    (PrimaryRPMISR hw g).count ≤ 70 := by
  by_cases hcl : g.lastPeriod ≠ 0
  · by_cases hr : (hw.PTIT &&& 0x01) ≠ 0
    · rw [(PrimaryRPMISR_rising hw g hcl hr).1]
      unfold UINT_MOD
      split_ifs <;> omega
    · have hf : (hw.PTIT &&& 0x01) = 0 := by
        by_contra hx
        exact hr hx
      rw [(PrimaryRPMISR_falling hw g hcl hf).1]
      unfold UINT_MOD
      split_ifs <;> omega
  · have h0 : g.lastPeriod = 0 := by
      by_contra hx
      exact hcl hx
    rw [(PrimaryRPMISR_unclassified hw g h0).1]
    exact h

/-- A run keeps `count` at or below 70. -/
theorem primaryRun_count_le (hw : Nat → Regs) (ext : Nat → Nat) (g : State)
    (h : g.count ≤ 70) (n : Nat) : (primaryRun hw ext g n).count ≤ 70 := by
  induction n with
  | zero => exact h
  | succ k ih =>
    rw [primaryRun]
    exact PrimaryRPMISR_count_le _ _ ih

/-- C30: from a state with `count <= 70` every invocation of the primary
handler, and so every run of it, ends with `count <= 70`; in particular every
run from the reset state does. -/
theorem count_at_most_70 (hw : Regs) (g : State) (h : g.count ≤ 70) :
    (PrimaryRPMISR hw g).count ≤ 70 ∧
    (∀ (hws : Nat → Regs) (ext : Nat → Nat) (n : Nat), (primaryRun hws ext g n).count ≤ 70) ∧
    (∀ (hws : Nat → Regs) (ext : Nat → Nat) (n : Nat),
      (primaryRun hws ext State.reset n).count ≤ 70) :=
  ⟨PrimaryRPMISR_count_le hw g h, fun hws ext n => primaryRun_count_le hws ext g h n,
    fun hws ext n => primaryRun_count_le hws ext State.reset (by decide) n⟩

/-- Witness of `count_at_most_70`: a falling edge in `beforeWrapState`
(`count = 1`). -/
theorem count_at_most_70_witness :
    (PrimaryRPMISR (edgeRegs 20 false) beforeWrapState).count ≤ 70 :=
  (count_at_most_70 (edgeRegs 20 false) beforeWrapState (by decide)).1

/-- The run `primaryEdges` is the iteration of `primaryEdge`. -/
theorem primaryEdges_cons (g : State) (e : Nat × Bool) (es : List (Nat × Bool)) :
    primaryEdges g (e :: es) = primaryEdges (primaryEdge g e) es := rfl

/-- A classified falling edge given by wide time stamp. -/
theorem edge_falling (g : State) (ts : Nat) (hcl : g.lastPeriod ≠ 0) :
    (primaryEdge g (ts, false)).count =
      (if g.count % 2 = 1 then (g.count + 1) % 65536 else 0) ∧
    (primaryEdge g (ts, false)).lastHighLowTime = g.lastHighLowTime ∧
    (primaryEdge g (ts, false)).lowTime = ticksBetween ts g.lastTimeStamp := by
  have e : extendedTimeStamp (edgeRegs ts false).TFLGOF (edgeRegs ts false).TC0 (ts / 65536)
      = ts := extendedTimeStamp_of_wide ts
  have h := PrimaryRPMISR_falling (edgeRegs ts false)
    { g with timerExtensionClock := ts / 65536 } hcl (by simp [edgeRegs])
  dsimp only at h
  rw [e] at h
  unfold UINT_MOD at h
  exact h

/-- A classified rising edge given by wide time stamp, from `count = 0`. -/
theorem edge_rising_search (g : State) (ts : Nat) (hcl : g.lastPeriod ≠ 0)
    (hc : g.count = 0) :
    (primaryEdge g (ts, true)).count =
      (if (ticksBetween ts g.lastTimeStamp + g.lowTime) % 4294967296 >
            (g.lastHighLowTime + g.lastHighLowTime / 2) % 4294967296 ∧
          (ticksBetween ts g.lastTimeStamp + g.lowTime) % 4294967296 <
            (2 * g.lastHighLowTime % 4294967296 + g.lastHighLowTime / 2) % 4294967296
        then 1 else 0) ∧
    (primaryEdge g (ts, true)).lastHighLowTime =
        (ticksBetween ts g.lastTimeStamp + g.lowTime) % 4294967296 ∧
    (primaryEdge g (ts, true)).lowTime = g.lowTime := by
  have e : extendedTimeStamp (edgeRegs ts true).TFLGOF (edgeRegs ts true).TC0 (ts / 65536)
      = ts := extendedTimeStamp_of_wide ts
  have h := PrimaryRPMISR_rising (edgeRegs ts true)
    { g with timerExtensionClock := ts / 65536 } hcl (by simp [edgeRegs])
  dsimp only at h
  rw [e, if_pos (Or.inl hc)] at h
  unfold add32 shl32 ULONG_MOD at h
  rw [shiftRight_one, shiftLeft_one] at h
  exact ⟨h.1, h.2.1, h.2.2.2⟩

/-- Time stamp and interval after an edge given by wide time stamp. -/
theorem edge_stamp (g : State) (ts : Nat) (b : Bool) :
    (primaryEdge g (ts, b)).lastTimeStamp = ts ∧
    (primaryEdge g (ts, b)).lastPeriod = ticksBetween ts g.lastTimeStamp := by
  have e : extendedTimeStamp (edgeRegs ts b).TFLGOF (edgeRegs ts b).TC0 (ts / 65536)
      = ts := extendedTimeStamp_of_wide ts
  have h1 := PrimaryRPMISR_lastTimeStamp (edgeRegs ts b)
    { g with timerExtensionClock := ts / 65536 }
  have h2 := PrimaryRPMISR_lastPeriod (edgeRegs ts b)
    { g with timerExtensionClock := ts / 65536 }
  dsimp only at h1 h2
  rw [e] at h1 h2
  exact ⟨h1, h2⟩

/-- Two classified falling edges ten ticks apart leave `count = 0` and
`lowTime = 10`. -/
theorem two_falling_reset (g : State) (ts : Nat) (hcl : g.lastPeriod ≠ 0)
    (hts : g.lastTimeStamp + 20 = ts) (hlt : ts < 4294967296) :
    (primaryEdge (primaryEdge g (ts - 10, false)) (ts, false)).count = 0 ∧
    (primaryEdge (primaryEdge g (ts - 10, false)) (ts, false)).lowTime = 10 ∧
    (primaryEdge (primaryEdge g (ts - 10, false)) (ts, false)).lastHighLowTime =
      g.lastHighLowTime ∧
    (primaryEdge (primaryEdge g (ts - 10, false)) (ts, false)).lastPeriod = 10 ∧
    (primaryEdge (primaryEdge g (ts - 10, false)) (ts, false)).lastTimeStamp = ts := by
  have t1 : ticksBetween (ts - 10) g.lastTimeStamp = 10 := by
    rw [ticksBetween_eq _ _ (by omega) (by omega)]
    split_ifs <;> omega
  have t2 : ticksBetween ts (ts - 10) = 10 := by
    rw [ticksBetween_eq _ _ (by omega) (by omega)]
    split_ifs <;> omega
  obtain ⟨a1, a2, _⟩ := edge_falling g (ts - 10) hcl
  obtain ⟨a4, a5⟩ := edge_stamp g (ts - 10) false
  rw [t1] at a5
  have hcl2 : (primaryEdge g (ts - 10, false)).lastPeriod ≠ 0 := by
    rw [a5]
    decide
  obtain ⟨b1, b2, b3⟩ := edge_falling (primaryEdge g (ts - 10, false)) ts hcl2
  obtain ⟨b4, b5⟩ := edge_stamp (primaryEdge g (ts - 10, false)) ts false
  rw [a4, t2] at b3 b5
  have hev : (primaryEdge g (ts - 10, false)).count % 2 = 0 := by
    rw [a1]
    split_ifs <;> omega
  rw [if_neg (by omega)] at b1
  rw [a2] at b2
  exact ⟨b1, b3, b2, b5, b4⟩

/-- C27: for every state of the primary handler, the eight edges of
`resyncEdges` end with `count = 1`; so from every state, whatever its `count`,
there is a finite sequence of edges after which `count = 1`. -/
theorem resync_from_any_state (g : State) :
    (primaryEdges g resyncEdges).count = 1 ∧
    ∃ es : List (Nat × Bool), (primaryEdges g es).count = 1 := by
  have key : (primaryEdges g resyncEdges).count = 1 := by
    unfold resyncEdges
    simp only [primaryEdges_cons]
    -- edges 0 and 1 bring `lastTimeStamp` and `lastPeriod` to known values
    obtain ⟨p1, _⟩ := edge_stamp g 0 false
    obtain ⟨q1, q2⟩ := edge_stamp (primaryEdge g (0, false)) 10 false
    have hq : ticksBetween 10 0 = 10 := by decide
    rw [p1, hq] at q2
    -- edges 2 and 3
    obtain ⟨c1, c2, _, c4, c5⟩ := two_falling_reset
      (primaryEdge (primaryEdge g (0, false)) (10, false)) 30
      (by rw [q2]; decide) (by rw [q1]) (by decide)
    -- edge 4
    obtain ⟨_, d2, d3⟩ := edge_rising_search _ 40 (by rw [c4]; decide) c1
    obtain ⟨d4, d5⟩ := edge_stamp
      (primaryEdge (primaryEdge (primaryEdge (primaryEdge g (0, false)) (10, false))
        (30 - 10, false)) (30, false)) 40 true
    have h40 : ticksBetween 40 30 = 10 := by decide
    rw [c5, h40] at d2 d5
    rw [c2] at d2 d3
    -- edges 5 and 6
    obtain ⟨e1, e2, e3, e4, e5⟩ := two_falling_reset
      (primaryEdge (primaryEdge (primaryEdge (primaryEdge (primaryEdge g (0, false))
        (10, false)) (30 - 10, false)) (30, false)) (40, true)) 60
      (by rw [d5]; decide) (by rw [d4]) (by decide)
    rw [d2] at e3
    -- edge 7
    obtain ⟨f1, _, _⟩ := edge_rising_search _ 90 (by rw [e4]; decide) e1
    have h90 : ticksBetween 90 60 = 30 := by decide
    rw [e5, h90, e2, e3] at f1
    exact f1
  exact ⟨key, resyncEdges, key⟩

/-! ## The handlers of `realtimeISRs.c` -/

/-- The effect of `TimerOverflow` on the globals of `MissingTeeth.c`. -/
theorem TimerOverflow_globals (g : State) (s : RTState) :
    (TimerOverflow g s).1 =
      { g with timerExtensionClock := (g.timerExtensionClock + 1) % USHORT_MOD } := rfl

/-- The globals of `MissingTeeth.c` after `n` overflows. -/
theorem timerOverflows_globals (n : Nat) (g : State) (s : RTState)
    (hg : g.timerExtensionClock < 65536) :
    (timerOverflows n (g, s)).1 =
      { g with timerExtensionClock := (g.timerExtensionClock + n) % 65536 } := by
  induction n with
  | zero =>
    show g = _
    have : (g.timerExtensionClock + 0) % 65536 = g.timerExtensionClock := by omega
    rw [this]
  | succ k ih =>
    rw [timerOverflows, TimerOverflow_globals, ih]
    unfold USHORT_MOD
    dsimp only
    have : ((g.timerExtensionClock + k) % 65536 + 1) % 65536 =
        (g.timerExtensionClock + (k + 1)) % 65536 := by omega
    rw [this]

/-- C22: one invocation of `TimerOverflow` replaces `timerExtensionClock` by
its value plus 1 modulo 2^16 and leaves every other global of `MissingTeeth.c`
(the primary decoder state, the tally, the teeth counters, the diagnostics) as
it was; `n` invocations from a 16-bit value add `n` modulo 2^16. -/
theorem timer_overflow_extends (g : State) (s : RTState)
    (hg : g.timerExtensionClock < 65536) :
    (TimerOverflow g s).1 =
      { g with timerExtensionClock := (g.timerExtensionClock + 1) % 65536 } ∧
    decoderState (TimerOverflow g s).1 = decoderState g ∧
    (∀ n : Nat, (timerOverflows n (g, s)).1 =
      { g with timerExtensionClock := (g.timerExtensionClock + n) % 65536 }) :=
  ⟨rfl, rfl, fun n => timerOverflows_globals n g s hg⟩

/-- Witness of `timer_overflow_extends`: from 0xFFFF the extension word wraps
to 0. -/
theorem timer_overflow_extends_witness :
    (TimerOverflow { State.reset with timerExtensionClock := 65535 }
      ⟨0, 0, 0, 0, 0, 0, 0, 0, 0, 0, 0, 0, 0, 0, 0, 0, 0⟩).1 =
      { ({ State.reset with timerExtensionClock := 65535 } : State) with
        timerExtensionClock :=
          (({ State.reset with timerExtensionClock := 65535 } : State).timerExtensionClock + 1)
            % 65536 } :=
  (timer_overflow_extends { State.reset with timerExtensionClock := 65535 }
    ⟨0, 0, 0, 0, 0, 0, 0, 0, 0, 0, 0, 0, 0, 0, 0, 0, 0⟩ (by decide)).1

/-- The five clocks and three roll-over counters after one invocation of
`RTIISR`, as functions of their values before it. -/
theorem RTIISR_clock_fields (TCNT TCNT2 readingTimeout FORCE_READING : Nat) (s : RTState) :
    (RTIISR TCNT TCNT2 readingTimeout FORCE_READING s).realTimeClockMain =
      (s.realTimeClockMain + 1) % 65536 ∧
    (RTIISR TCNT TCNT2 readingTimeout FORCE_READING s).realTimeClockMillis =
      (if (s.realTimeClockMain + 1) % 65536 % 8 = 0 then (s.realTimeClockMillis + 1) % 65536
        else s.realTimeClockMillis) ∧
    (RTIISR TCNT TCNT2 readingTimeout FORCE_READING s).millisToTenths =
      (if (s.realTimeClockMain + 1) % 65536 % 8 = 0 then
        if (s.millisToTenths + 1) % 65536 % 100 = 0 then 0 else (s.millisToTenths + 1) % 65536
        else s.millisToTenths) ∧
    (RTIISR TCNT TCNT2 readingTimeout FORCE_READING s).realTimeClockTenths =
      (if (s.realTimeClockMain + 1) % 65536 % 8 = 0 then
        if (s.millisToTenths + 1) % 65536 % 100 = 0 then (s.realTimeClockTenths + 1) % 65536
        else s.realTimeClockTenths
        else s.realTimeClockTenths) ∧
    (RTIISR TCNT TCNT2 readingTimeout FORCE_READING s).tenthsToSeconds =
      (if (s.realTimeClockMain + 1) % 65536 % 8 = 0 then
        if (s.millisToTenths + 1) % 65536 % 100 = 0 then
          if (s.tenthsToSeconds + 1) % 65536 % 10 = 0 then 0
          else (s.tenthsToSeconds + 1) % 65536
        else s.tenthsToSeconds
        else s.tenthsToSeconds) ∧
    (RTIISR TCNT TCNT2 readingTimeout FORCE_READING s).realTimeClockSeconds =
      (if (s.realTimeClockMain + 1) % 65536 % 8 = 0 then
        if (s.millisToTenths + 1) % 65536 % 100 = 0 then
          if (s.tenthsToSeconds + 1) % 65536 % 10 = 0 then (s.realTimeClockSeconds + 1) % 65536
          else s.realTimeClockSeconds
        else s.realTimeClockSeconds
        else s.realTimeClockSeconds) ∧
    (RTIISR TCNT TCNT2 readingTimeout FORCE_READING s).secondsToMinutes =
      (if (s.realTimeClockMain + 1) % 65536 % 8 = 0 then
        if (s.millisToTenths + 1) % 65536 % 100 = 0 then
          if (s.tenthsToSeconds + 1) % 65536 % 10 = 0 then
            if (s.secondsToMinutes + 1) % 65536 % 60 = 0 then 0
            else (s.secondsToMinutes + 1) % 65536
          else s.secondsToMinutes
        else s.secondsToMinutes
        else s.secondsToMinutes) ∧
    (RTIISR TCNT TCNT2 readingTimeout FORCE_READING s).realTimeClockMinutes =
      (if (s.realTimeClockMain + 1) % 65536 % 8 = 0 then
        if (s.millisToTenths + 1) % 65536 % 100 = 0 then
          if (s.tenthsToSeconds + 1) % 65536 % 10 = 0 then
            if (s.secondsToMinutes + 1) % 65536 % 60 = 0 then
              (s.realTimeClockMinutes + 1) % 65536
            else s.realTimeClockMinutes
          else s.realTimeClockMinutes
        else s.realTimeClockMinutes
        else s.realTimeClockMinutes) := by
  unfold RTIISR USHORT_MOD
  dsimp only
  by_cases c1 : (s.realTimeClockMain + 1) % 65536 % 8 = 0
  · simp only [c1, if_true]
    by_cases ct : (s.timeoutADCreadingClock + 1) % 65536 > readingTimeout
    · simp only [ct, if_true]
      by_cases c2 : (s.millisToTenths + 1) % 65536 % 100 = 0
      · simp only [c2, if_true]
        by_cases c3 : (s.tenthsToSeconds + 1) % 65536 % 10 = 0
        · simp only [c3, if_true]
          by_cases c4 : (s.secondsToMinutes + 1) % 65536 % 60 = 0
          · simp only [c4, if_true, and_self]
          · simp only [c4, if_false, and_self]
        · simp only [c3, if_false, and_self]
      · simp only [c2, if_false, and_self]
    · simp only [ct, if_false]
      by_cases c2 : (s.millisToTenths + 1) % 65536 % 100 = 0
      · simp only [c2, if_true]
        by_cases c3 : (s.tenthsToSeconds + 1) % 65536 % 10 = 0
        · simp only [c3, if_true]
          by_cases c4 : (s.secondsToMinutes + 1) % 65536 % 60 = 0
          · simp only [c4, if_true, and_self]
          · simp only [c4, if_false, and_self]
        · simp only [c3, if_false, and_self]
      · simp only [c2, if_false, and_self]
  · simp only [c1, if_false, and_self]

/-- One invocation of `RTIISR` takes the clocks from `n` to `n + 1`. -/
theorem RTIISR_clocks (TCNT TCNT2 readingTimeout FORCE_READING n : Nat) (s : RTState)
    (h : ClocksAt n s) :
    ClocksAt (n + 1) (RTIISR TCNT TCNT2 readingTimeout FORCE_READING s) := by
  unfold ClocksAt at h ⊢
  obtain ⟨h1, h2, h3, h4, h5, h6, h7, h8⟩ := h
  obtain ⟨f1, f2, f3, f4, f5, f6, f7, f8⟩ :=
    RTIISR_clock_fields TCNT TCNT2 readingTimeout FORCE_READING s
  rw [f1, f2, f3, f4, f5, f6, f7, f8, h1, h2, h3, h4, h5, h6, h7, h8]
  clear f1 f2 f3 f4 f5 f6 f7 f8 h1 h2 h3 h4 h5 h6 h7 h8
  have a1 : (n % 65536 + 1) % 65536 % 8 = 0 ↔ (n + 1) % 8 = 0 := by omega
  have b2 : (n / 8 % 100 + 1) % 65536 = n / 8 % 100 + 1 :=
    Nat.mod_eq_of_lt (by have := Nat.mod_lt (n / 8) (show 100 > 0 by decide); omega)
  have b3 : (n / 800 % 10 + 1) % 65536 = n / 800 % 10 + 1 :=
    Nat.mod_eq_of_lt (by have := Nat.mod_lt (n / 800) (show 10 > 0 by decide); omega)
  have b4 : (n / 8000 % 60 + 1) % 65536 = n / 8000 % 60 + 1 :=
    Nat.mod_eq_of_lt (by have := Nat.mod_lt (n / 8000) (show 60 > 0 by decide); omega)
  have a2 : (n / 8 % 100 + 1) % 100 = 0 ↔ n / 8 % 100 = 99 := by omega
  have a3 : (n / 800 % 10 + 1) % 10 = 0 ↔ n / 800 % 10 = 9 := by omega
  have a4 : (n / 8000 % 60 + 1) % 60 = 0 ↔ n / 8000 % 60 = 59 := by omega
  simp only [b2, b3, b4, a1, a2, a3, a4]
  clear a1 a2 a3 a4 b2 b3 b4
  refine ⟨by omega, ?_, ?_, ?_, ?_, ?_, ?_, ?_⟩
  · split_ifs <;> omega
  · split_ifs <;> omega
  · split_ifs <;> omega
  · split_ifs <;> omega
  · split_ifs <;> omega
  · split_ifs <;> omega
  · split_ifs <;> omega

/-! ## The lookup of `blockDetailsLookup.c` -/

/-- When no case matches, `lookupBlockDetails` returns `locationIDNotFound`
with the four memory fields zero. -/
theorem lookup_default (env : String → Nat) (locationID : Nat) (details : blockDetails)
    (h : switchCases.find? (fun c => decide (env c.label = locationID)) = none) :
    (lookupBlockDetails env locationID details).1 = env "locationIDNotFound" ∧
    (lookupBlockDetails env locationID details).2.RAMPage = 0 ∧
    (lookupBlockDetails env locationID details).2.FlashPage = 0 ∧
    (lookupBlockDetails env locationID details).2.RAMAddress = 0 ∧
    (lookupBlockDetails env locationID details).2.FlashAddress = 0 := by
  unfold lookupBlockDetails
  dsimp only
  rw [h]
  exact ⟨rfl, rfl, rfl, rfl, rfl⟩

/-- When case `c` is the one taken, `lookupBlockDetails` returns 0, and the
RAM fields are what the body of `c` assigns, or zero. -/
theorem lookup_case (env : String → Nat) (locationID : Nat) (details : blockDetails)
    (c : SwitchCase)
    (h : switchCases.find? (fun c => decide (env c.label = locationID)) = some c) :
    (lookupBlockDetails env locationID details).1 = 0 ∧
    (lookupBlockDetails env locationID details).2.RAMPage =
      (match c.RAMPage with
        | some v => v.eval env
        | none => 0) ∧
    (lookupBlockDetails env locationID details).2.RAMAddress =
      (match c.RAMAddress with
        | some v => v.eval env
        | none => 0) := by
  unfold lookupBlockDetails
  dsimp only
  rw [h]
  dsimp only
  refine ⟨rfl, ?_, ?_⟩
  · split_ifs <;> rfl
  · split_ifs <;> rfl

/-- C23: for a location ID that is the label of no case of the switch,
whatever the struct held before, `lookupBlockDetails` returns
`locationIDNotFound`, which is not zero when the constant is not, and leaves
`RAMPage`, `FlashPage`, `RAMAddress` and `FlashAddress` zero; for the label of
a case it returns 0. -/
theorem lookup_unknown_id (env : String → Nat) (locationID : Nat) (details : blockDetails)
    (hne : env "locationIDNotFound" ≠ 0) :
    (¬ handledID env locationID →
      (lookupBlockDetails env locationID details).1 = env "locationIDNotFound" ∧
      (lookupBlockDetails env locationID details).1 ≠ 0 ∧
      (lookupBlockDetails env locationID details).2.RAMPage = 0 ∧
      (lookupBlockDetails env locationID details).2.FlashPage = 0 ∧
      (lookupBlockDetails env locationID details).2.RAMAddress = 0 ∧
      (lookupBlockDetails env locationID details).2.FlashAddress = 0) ∧
    (handledID env locationID → (lookupBlockDetails env locationID details).1 = 0) := by
  constructor
  · intro hn
    have hf : switchCases.find? (fun c => decide (env c.label = locationID)) = none := by
      rw [List.find?_eq_none]
      intro c hc
      simp only [decide_eq_true_eq]
      exact fun he => hn ⟨c, hc, he⟩
    obtain ⟨h1, h2, h3, h4, h5⟩ := lookup_default env locationID details hf
    exact ⟨h1, by rw [h1]; exact hne, h2, h3, h4, h5⟩
  · rintro ⟨c, hc, he⟩
    cases hf : switchCases.find? (fun c => decide (env c.label = locationID)) with
    | none =>
      rw [List.find?_eq_none] at hf
      have := hf c hc
      simp only [decide_eq_true_eq] at this
      exact absurd he this
    | some c2 => exact (lookup_case env locationID details c2 hf).1

/-- Witness of `lookup_unknown_id`: with the sample constants, ID 1000 is not
handled and ID 3 is. -/
theorem lookup_unknown_id_witness :
    (lookupBlockDetails sampleEnv 1000 ⟨7, 7, 7, 7, 7, 7, 7⟩).1 = sampleEnv "locationIDNotFound" ∧
    (lookupBlockDetails sampleEnv 3 ⟨7, 7, 7, 7, 7, 7, 7⟩).1 = 0 :=
  ⟨((lookup_unknown_id sampleEnv 1000 ⟨7, 7, 7, 7, 7, 7, 7⟩ (by decide)).1 (by
      unfold handledID
      decide)).1,
    (lookup_unknown_id sampleEnv 3 ⟨7, 7, 7, 7, 7, 7, 7⟩ (by decide)).2 (by
      unfold handledID
      decide)⟩

/-- In a list whose keys are distinct, looking up the key of a member finds
that member. -/
theorem find_of_nodup_keys {α : Type} (f : α → Nat) (l : List α) (c : α)
    (hnd : (l.map f).Nodup) (hc : c ∈ l) :
    l.find? (fun x => decide (f x = f c)) = some c := by
  induction l with
  | nil => cases hc
  | cons a t ih =>
    rw [List.map_cons, List.nodup_cons] at hnd
    rcases List.mem_cons.1 hc with rfl | hmem
    · simp [List.find?_cons]
    · have hne : f a ≠ f c := by
        intro he
        apply hnd.1
        rw [he]
        exact List.mem_map_of_mem f hmem
      rw [List.find?_cons]
      simp only [hne, decide_False]
      exact ih hnd.2 hmem

/-- Every flash-only label is the label of a case that assigns neither
`RAMPage` nor `RAMAddress`. -/
theorem flashOnly_cases :
    ∀ l ∈ flashOnlyLabels, ∃ c ∈ switchCases,
      c.label = l ∧ c.RAMPage = none ∧ c.RAMAddress = none := by
  decide

/-- C24: the case labels of a switch being distinct, for the ID of every
flash-only block (the two fixed configuration blocks, their nine sub-chunks and
the four transfer tables) `lookupBlockDetails` returns 0 with `RAMAddress = 0`
and `RAMPage = 0`, whatever the struct held before. -/
theorem lookup_flash_only (env : String → Nat) (details : blockDetails) (l : String)
    (hnd : (switchCases.map (fun c => env c.label)).Nodup)
    (hl : l ∈ flashOnlyLabels) :
    (lookupBlockDetails env (env l) details).1 = 0 ∧
    (lookupBlockDetails env (env l) details).2.RAMAddress = 0 ∧
    (lookupBlockDetails env (env l) details).2.RAMPage = 0 := by
  obtain ⟨c, hc, hlab, hp, ha⟩ := flashOnly_cases l hl
  have hf := find_of_nodup_keys (fun c => env c.label) switchCases c hnd hc
  dsimp only at hf
  rw [hlab] at hf
  obtain ⟨h1, h2, h3⟩ := lookup_case env (env l) details c hf
  rw [hp] at h2
  rw [ha] at h3
  exact ⟨h1, h3, h2⟩

/-- Witness of `lookup_flash_only`: the sample constants are distinct on the
labels, and `coreSettingsALocationID` is a flash-only block. -/
theorem lookup_flash_only_witness :
    (lookupBlockDetails sampleEnv (sampleEnv "coreSettingsALocationID")
        ⟨7, 7, 7, 7, 7, 7, 7⟩).1 = 0 ∧
    (lookupBlockDetails sampleEnv (sampleEnv "coreSettingsALocationID")
        ⟨7, 7, 7, 7, 7, 7, 7⟩).2.RAMAddress = 0 ∧
    (lookupBlockDetails sampleEnv (sampleEnv "coreSettingsALocationID")
        ⟨7, 7, 7, 7, 7, 7, 7⟩).2.RAMPage = 0 :=
  lookup_flash_only sampleEnv ⟨7, 7, 7, 7, 7, 7, 7⟩ "coreSettingsALocationID"
    (by decide) (by decide)

/-- C25: from clocks that are all zero (the five clocks and the three roll-over
counters), after `n` invocations of `RTIISR` the clocks are `n`, `n / 8`,
`n / 800`, `n / 8000` and `n / 480000`, each modulo 2^16, whatever the counter
reads, the reading timeout and the other globals are. -/
theorem clocks_after_n (tcnt : Nat → Nat × Nat) (readingTimeout FORCE_READING : Nat)
    (s : RTState) (n : Nat)
    (h0 : s.realTimeClockMain = 0 ∧ s.realTimeClockMillis = 0 ∧ s.realTimeClockTenths = 0 ∧
      s.realTimeClockSeconds = 0 ∧ s.realTimeClockMinutes = 0 ∧ s.millisToTenths = 0 ∧
      s.tenthsToSeconds = 0 ∧ s.secondsToMinutes = 0) :
    (rtiRun tcnt readingTimeout FORCE_READING s n).realTimeClockMain = n % 65536 ∧
    (rtiRun tcnt readingTimeout FORCE_READING s n).realTimeClockMillis = n / 8 % 65536 ∧
    (rtiRun tcnt readingTimeout FORCE_READING s n).realTimeClockTenths = n / 800 % 65536 ∧
    (rtiRun tcnt readingTimeout FORCE_READING s n).realTimeClockSeconds = n / 8000 % 65536 ∧
    (rtiRun tcnt readingTimeout FORCE_READING s n).realTimeClockMinutes
      = n / 480000 % 65536 := by
  have hinv : ClocksAt n (rtiRun tcnt readingTimeout FORCE_READING s n) := by
    induction n with
    | zero => exact h0
    | succ k ih =>
      rw [rtiRun]
      exact RTIISR_clocks _ _ _ _ k _ ih
  obtain ⟨h1, h2, h3, h4, h5, _, _, _⟩ := hinv
  exact ⟨h1, h2, h3, h4, h5⟩

/-- Witness of `clocks_after_n`: 8000 invocations from the all-zero state make
one second. -/
theorem clocks_after_n_witness :
    (rtiRun (fun _ => (0, 0)) 10 1 ⟨0, 0, 0, 0, 0, 0, 0, 0, 0, 0, 0, 0, 0, 0, 0, 0, 0⟩
      8000).realTimeClockSeconds = 8000 / 8000 % 65536 :=
  (clocks_after_n (fun _ => (0, 0)) 10 1 ⟨0, 0, 0, 0, 0, 0, 0, 0, 0, 0, 0, 0, 0, 0, 0, 0, 0⟩
    8000 ⟨rfl, rfl, rfl, rfl, rfl, rfl, rfl, rfl⟩).2.2.2.1

/-! ## Parity of the tooth index, zero and full-wrap intervals -/

/-- C31: after a classified rising edge `count` is 0 or odd, and after a
classified falling edge `count` is even. -/
theorem count_parity_tracks_polarity (hw : Regs) (g : State) (hcl : g.lastPeriod ≠ 0) :
    ((hw.PTIT &&& 0x01) ≠ 0 →
      (PrimaryRPMISR hw g).count = 0 ∨ (PrimaryRPMISR hw g).count % 2 = 1) ∧
    ((hw.PTIT &&& 0x01) = 0 → (PrimaryRPMISR hw g).count % 2 = 0) := by
  constructor
  · intro hr
    rw [(PrimaryRPMISR_rising hw g hcl hr).1]
    unfold UINT_MOD
    split_ifs with h1 h2 h3
    · exact Or.inr rfl
    · exact Or.inl rfl
    · right
      rcases h3 with h3 | h3
      · rw [h3]
      · omega
    · exact Or.inl rfl
  · intro hf
    rw [(PrimaryRPMISR_falling hw g hcl hf).1]
    unfold UINT_MOD
    split_ifs with h1
    · omega
    · rfl

/-- Witness of `count_parity_tracks_polarity`: a falling edge in
`beforeWrapState` (`count = 1`, `lastPeriod` not 0) leaves an even `count`. -/
theorem count_parity_tracks_polarity_witness :
    (PrimaryRPMISR (edgeRegs 20 false) beforeWrapState).count % 2 = 0 :=
  (count_parity_tracks_polarity (edgeRegs 20 false) beforeWrapState (by decide)).2 (by decide)

/-- The interval between two 32-bit time stamps is 0 only from 0xFFFFFFFF
to 0. -/
theorem ticksBetween_eq_zero_iff (current previous : Nat)
    (hc : current < 4294967296) (hp : previous < 4294967296) :
    ticksBetween current previous = 0 ↔ previous = 0xFFFFFFFF ∧ current = 0 := by
  rw [ticksBetween_eq current previous hc hp]
  split_ifs <;> omega

/-- With 16-bit capture register and extension word the assembled time stamp
fits 32 bits. -/
theorem extendedTimeStamp_lt (f raw ext : Nat) (hraw : raw < 65536) (hext : ext < 65536) :
    extendedTimeStamp f raw ext < 4294967296 := by
  obtain ⟨h1, h2⟩ := extendedTimeStamp_halves f raw ext hraw
  have h3 : extendedTimeStamp f raw ext / 65536 < 65536 := by
    rw [h2]
    split_ifs <;> omega
  omega

/-- The time stamp stored during a run with 16-bit registers fits 32 bits. -/
theorem primaryRun_lastTimeStamp_lt (hws : Nat → Regs) (ext : Nat → Nat) (g : State)
    (h16 : ∀ k, (hws k).TC0 < 65536 ∧ ext k < 65536)
    (hg : g.lastTimeStamp < 4294967296) (n : Nat) :
    (primaryRun hws ext g n).lastTimeStamp < 4294967296 := by
  cases n with
  | zero => exact hg
  | succ k =>
    rw [primaryRun_lastTimeStamp]
    exact extendedTimeStamp_lt _ _ _ (h16 k).1 (h16 k).2

/-- C32: with 16-bit capture register and extension word, the interval the
primary handler computes and stores as `lastPeriod` at an edge is 0 if and
only if the time stamp stored before the edge is 0xFFFFFFFF and the one
assembled at the edge is 0, from every state with a 32-bit `lastTimeStamp`
(`n = 0` is one invocation) and so in every run from reset, whose first edge
never stores `lastPeriod = 0`. -/
theorem interval_zero_iff (hws : Nat → Regs) (ext : Nat → Nat) (g : State)
    (h16 : ∀ k, (hws k).TC0 < 65536 ∧ ext k < 65536)
    (hg : g.lastTimeStamp < 4294967296) (n : Nat) :
    ((primaryRun hws ext g (n + 1)).lastPeriod = 0 ↔
      (primaryRun hws ext g n).lastTimeStamp = 0xFFFFFFFF ∧
      (primaryRun hws ext g (n + 1)).lastTimeStamp = 0) ∧
    ((primaryRun hws ext State.reset (n + 1)).lastPeriod = 0 ↔
      (primaryRun hws ext State.reset n).lastTimeStamp = 0xFFFFFFFF ∧
      (primaryRun hws ext State.reset (n + 1)).lastTimeStamp = 0) ∧
    (primaryRun hws ext State.reset 1).lastPeriod ≠ 0 ∧
    (ticksBetween (primaryRun hws ext g (n + 1)).lastTimeStamp
        (primaryRun hws ext g n).lastTimeStamp = 0 ↔
      (primaryRun hws ext g n).lastTimeStamp = 0xFFFFFFFF ∧
      (primaryRun hws ext g (n + 1)).lastTimeStamp = 0) := by
  have key : ∀ (g0 : State), g0.lastTimeStamp < 4294967296 → ∀ m : Nat,
      ((primaryRun hws ext g0 (m + 1)).lastPeriod = 0 ↔
        (primaryRun hws ext g0 m).lastTimeStamp = 0xFFFFFFFF ∧
        (primaryRun hws ext g0 (m + 1)).lastTimeStamp = 0) := by
    intro g0 h0 m
    rw [primaryRun_lastPeriod, primaryRun_lastTimeStamp]
    exact ticksBetween_eq_zero_iff _ _ (extendedTimeStamp_lt _ _ _ (h16 m).1 (h16 m).2)
      (primaryRun_lastTimeStamp_lt hws ext g0 h16 h0 m)
  have hr : State.reset.lastTimeStamp < 4294967296 := by decide
  refine ⟨key g hg n, key State.reset hr n, ?_, ?_⟩
  · intro h
    have h2 : State.reset.lastTimeStamp = 0xFFFFFFFF := ((key State.reset hr 0).1 h).1
    exact absurd h2 (by decide)
  · exact ticksBetween_eq_zero_iff _ _
      (primaryRun_lastTimeStamp_lt hws ext g h16 hg (n + 1))
      (primaryRun_lastTimeStamp_lt hws ext g h16 hg n)

/-- Witness of `interval_zero_iff`: the edge at time stamp 0 that follows
`beforeWrapState`, whose last edge was captured at 0xFFFFFFFF, stores
`lastPeriod = 0`. -/
theorem interval_zero_iff_witness :
    (primaryRun (fun _ => edgeRegs 0 true) (fun _ => 0) beforeWrapState 1).lastPeriod = 0 :=
  ((interval_zero_iff (fun _ => edgeRegs 0 true) (fun _ => 0) beforeWrapState
    (fun _ => ⟨(by decide : (edgeRegs 0 true).TC0 < 65536), (by decide : (0 : Nat) < 65536)⟩)
    (by decide) 0).1).2 ⟨by decide, by decide⟩

/-- C33: for a 32-bit time stamp `t`, the interval from `t` to `t` is
0xFFFFFFFF; so an edge whose assembled time stamp equals the stored one, and
the second of two edges that both assemble `t`, store
`lastPeriod = 0xFFFFFFFF`, and so does a first edge after reset whose
assembled time stamp is 0. -/
theorem equal_stamps_full_wrap (t : Nat) (ht : t < 4294967296) :
    ticksBetween t t = 0xFFFFFFFF ∧
    (∀ (hw : Regs) (g : State), g.lastTimeStamp = t →
      extendedTimeStamp hw.TFLGOF hw.TC0 g.timerExtensionClock = t →
      (PrimaryRPMISR hw g).lastPeriod = 0xFFFFFFFF) ∧
    (∀ (hws : Nat → Regs) (ext : Nat → Nat) (g : State),
      extendedTimeStamp (hws 0).TFLGOF (hws 0).TC0 (ext 0) = t →
      extendedTimeStamp (hws 1).TFLGOF (hws 1).TC0 (ext 1) = t →
      (primaryRun hws ext g 2).lastPeriod = 0xFFFFFFFF) ∧
    (∀ (hw : Regs), extendedTimeStamp hw.TFLGOF hw.TC0 State.reset.timerExtensionClock = 0 →
      (PrimaryRPMISR hw State.reset).lastPeriod = 0xFFFFFFFF) := by
  have h0 : ∀ u : Nat, u < 4294967296 → ticksBetween u u = 0xFFFFFFFF := by
    intro u hu
    rw [ticksBetween_eq u u hu hu]
    split_ifs <;> omega
  refine ⟨h0 t ht, ?_, ?_, ?_⟩
  · intro hw g hl hs
    rw [PrimaryRPMISR_lastPeriod, hl, hs]
    exact h0 t ht
  · intro hws ext g h1 h2
    rw [primaryRun_lastPeriod, primaryRun_lastTimeStamp, h1, h2]
    exact h0 t ht
  · intro hw hs
    rw [PrimaryRPMISR_lastPeriod, hs]
    exact h0 0 (by decide)

/-- Witness of `equal_stamps_full_wrap`: a first edge after reset captured at
time stamp 0. -/
theorem equal_stamps_full_wrap_witness :
    (PrimaryRPMISR (edgeRegs 0 true) State.reset).lastPeriod = 0xFFFFFFFF :=
  (equal_stamps_full_wrap 0 (by decide)).2.2.2 (edgeRegs 0 true) (by decide)

/-- C34: for a capture register below 0x8000 and a 16-bit extension word `e`,
the time stamp assembled with the overflow flag set and extension word `e` is
the one assembled with the flag clear and the extension word that
`TimerOverflow` leaves from `e`, which is `(e + 1) mod 2^16`; the primary
handler stores the same `lastTimeStamp` either way. -/
theorem race_agrees_with_overflow (raw e : Nat) (hraw : raw < 0x8000) (_he : e < 65536) :
    ∀ (flag : Nat) (g : State) (s : RTState), flag ≠ 0 → g.timerExtensionClock = e →
      extendedTimeStamp flag raw e =
        extendedTimeStamp 0 raw (TimerOverflow g s).1.timerExtensionClock ∧
      (TimerOverflow g s).1.timerExtensionClock = (e + 1) % 65536 ∧
      (∀ hw : Regs, hw.TC0 = raw → hw.TFLGOF = flag →
        (PrimaryRPMISR hw g).lastTimeStamp =
          (PrimaryRPMISR { hw with TFLGOF := 0 } (TimerOverflow g s).1).lastTimeStamp) := by
  intro flag g s hflag hg
  have hT : (TimerOverflow g s).1.timerExtensionClock = (e + 1) % 65536 := by
    rw [← hg]
    rfl
  have hb := (and_0x8000_eq_zero_iff raw (by omega)).2 hraw
  have key : extendedTimeStamp flag raw e = extendedTimeStamp 0 raw ((e + 1) % 65536) := by
    unfold extendedTimeStamp USHORT_MOD
    dsimp only
    rw [if_pos ⟨hflag, hb⟩, if_neg (fun h => h.1 rfl)]
  refine ⟨by rw [hT]; exact key, hT, ?_⟩
  intro hw h1 h2
  rw [PrimaryRPMISR_lastTimeStamp, PrimaryRPMISR_lastTimeStamp, hT, hg, h1, h2]
  exact key

/-- Witness of `race_agrees_with_overflow`: capture register 5, extension word
0xFFFF, which the overflow handler wraps to 0. -/
theorem race_agrees_with_overflow_witness :
    extendedTimeStamp 0x80 5 65535 =
      extendedTimeStamp 0 5
        (TimerOverflow { State.reset with timerExtensionClock := 65535 }
          ⟨0, 0, 0, 0, 0, 0, 0, 0, 0, 0, 0, 0, 0, 0, 0, 0, 0⟩).1.timerExtensionClock :=
  (race_agrees_with_overflow 5 65535 (by decide) (by decide) 0x80
    { State.reset with timerExtensionClock := 65535 }
    ⟨0, 0, 0, 0, 0, 0, 0, 0, 0, 0, 0, 0, 0, 0, 0, 0, 0⟩ (by decide) rfl).1

/-- C36: when `millisToTenths < 100`, `tenthsToSeconds < 10` and
`secondsToMinutes < 60` before an invocation of `RTIISR`, they are so after
it. -/
theorem rollover_counters_in_range (TCNT TCNT2 readingTimeout FORCE_READING : Nat)
    (s : RTState)
    (h1 : s.millisToTenths < 100) (h2 : s.tenthsToSeconds < 10)
    (h3 : s.secondsToMinutes < 60) :
    (RTIISR TCNT TCNT2 readingTimeout FORCE_READING s).millisToTenths < 100 ∧
    (RTIISR TCNT TCNT2 readingTimeout FORCE_READING s).tenthsToSeconds < 10 ∧
    (RTIISR TCNT TCNT2 readingTimeout FORCE_READING s).secondsToMinutes < 60 := by
  obtain ⟨_, _, f3, _, f5, _, f7, _⟩ :=
    RTIISR_clock_fields TCNT TCNT2 readingTimeout FORCE_READING s
  rw [f3, f5, f7]
  have b1 : (s.millisToTenths + 1) % 65536 = s.millisToTenths + 1 :=
    Nat.mod_eq_of_lt (by omega)
  have b2 : (s.tenthsToSeconds + 1) % 65536 = s.tenthsToSeconds + 1 :=
    Nat.mod_eq_of_lt (by omega)
  have b3 : (s.secondsToMinutes + 1) % 65536 = s.secondsToMinutes + 1 :=
    Nat.mod_eq_of_lt (by omega)
  simp only [b1, b2, b3]
  refine ⟨?_, ?_, ?_⟩
  · split_ifs <;> omega
  · split_ifs <;> omega
  · split_ifs <;> omega

/-- Witness of `rollover_counters_in_range`: the invocation that completes a
minute, from 99 millis, 9 tenths and 59 seconds. -/
theorem rollover_counters_in_range_witness :
    (RTIISR 0 0 10 1 ⟨7, 0, 0, 0, 0, 99, 9, 59, 0, 0, 0, 0, 0, 0, 0, 0, 0⟩).millisToTenths
        < 100 ∧
    (RTIISR 0 0 10 1 ⟨7, 0, 0, 0, 0, 99, 9, 59, 0, 0, 0, 0, 0, 0, 0, 0, 0⟩).tenthsToSeconds
        < 10 ∧
    (RTIISR 0 0 10 1 ⟨7, 0, 0, 0, 0, 99, 9, 59, 0, 0, 0, 0, 0, 0, 0, 0, 0⟩).secondsToMinutes
        < 60 :=
  rollover_counters_in_range 0 0 10 1 ⟨7, 0, 0, 0, 0, 99, 9, 59, 0, 0, 0, 0, 0, 0, 0, 0, 0⟩
    (by decide) (by decide) (by decide)

/-! ## The reading timeout of `RTIISR` -/

/-- The reading timeout clock and the status byte after one invocation of
`RTIISR`, as functions of their values before it. -/
theorem RTIISR_timeout_fields (TCNT TCNT2 readingTimeout FORCE_READING : Nat) (s : RTState) :
    (RTIISR TCNT TCNT2 readingTimeout FORCE_READING s).timeoutADCreadingClock =
      (if (s.realTimeClockMain + 1) % 65536 % 8 = 0 then
        if (s.timeoutADCreadingClock + 1) % 65536 > readingTimeout then 0
        else (s.timeoutADCreadingClock + 1) % 65536
        else s.timeoutADCreadingClock) ∧
    (RTIISR TCNT TCNT2 readingTimeout FORCE_READING s).coreStatusA =
      (if (s.realTimeClockMain + 1) % 65536 % 8 = 0 then
        if (s.timeoutADCreadingClock + 1) % 65536 > readingTimeout then
          s.coreStatusA ||| FORCE_READING
        else s.coreStatusA
        else s.coreStatusA) := by
  unfold RTIISR USHORT_MOD
  dsimp only
  by_cases c1 : (s.realTimeClockMain + 1) % 65536 % 8 = 0
  · simp only [c1, if_true]
    by_cases ct : (s.timeoutADCreadingClock + 1) % 65536 > readingTimeout
    · simp only [ct, if_true]
      by_cases c2 : (s.millisToTenths + 1) % 65536 % 100 = 0
      · simp only [c2, if_true]
        by_cases c3 : (s.tenthsToSeconds + 1) % 65536 % 10 = 0
        · simp only [c3, if_true]
          by_cases c4 : (s.secondsToMinutes + 1) % 65536 % 60 = 0
          · simp only [c4, if_true, and_self]
          · simp only [c4, if_false, and_self]
        · simp only [c3, if_false, and_self]
      · simp only [c2, if_false, and_self]
    · simp only [ct, if_false]
      by_cases c2 : (s.millisToTenths + 1) % 65536 % 100 = 0
      · simp only [c2, if_true]
        by_cases c3 : (s.tenthsToSeconds + 1) % 65536 % 10 = 0
        · simp only [c3, if_true]
          by_cases c4 : (s.secondsToMinutes + 1) % 65536 % 60 = 0
          · simp only [c4, if_true, and_self]
          · simp only [c4, if_false, and_self]
        · simp only [c3, if_false, and_self]
      · simp only [c2, if_false, and_self]
  · simp only [c1, if_false, and_self]

/-- A counter that counts modulo `T + 1`. -/
theorem succ_mod_succ (q T : Nat) :
    (q + 1) % (T + 1) = if q % (T + 1) = T then 0 else q % (T + 1) + 1 := by
  have hlt : q % (T + 1) < T + 1 := Nat.mod_lt q (Nat.succ_pos T)
  rw [← Nat.mod_add_mod q (T + 1) 1]
  split_ifs with h
  · rw [h, Nat.mod_self]
  · exact Nat.mod_eq_of_lt (by omega)

/-- A bit that is set stays set when more bits are or-ed in. -/
theorem or_keeps_mask (c b : Nat) : (c ||| b) &&& b = b := by
  apply Nat.eq_of_testBit_eq
  intro i
  rw [Nat.testBit_and, Nat.testBit_or]
  cases c.testBit i <;> cases b.testBit i <;> rfl

/-- The main clock modulo 8 and the reading timeout clock after `n`
invocations of `RTIISR` from a reading timeout clock of 0. -/
theorem rtiRun_timeout (tcnt : Nat → Nat × Nat) (readingTimeout FORCE_READING : Nat)
    (s : RTState) (h0 : s.timeoutADCreadingClock = 0) (n : Nat) :
    (rtiRun tcnt readingTimeout FORCE_READING s n).realTimeClockMain % 8 =
      (s.realTimeClockMain + n) % 8 ∧
    ((rtiRun tcnt readingTimeout FORCE_READING s n).realTimeClockMain + 1) % 65536 % 8 =
      (s.realTimeClockMain + n + 1) % 8 ∧
    (readingTimeout < 65535 →
      (rtiRun tcnt readingTimeout FORCE_READING s n).timeoutADCreadingClock =
        (s.realTimeClockMain % 8 + n) / 8 % (readingTimeout + 1)) := by
  induction n with
  | zero =>
    refine ⟨rfl, by rw [rtiRun]; omega, fun _ => ?_⟩
    rw [rtiRun, h0]
    have : (s.realTimeClockMain % 8 + 0) / 8 = 0 := by omega
    rw [this, Nat.zero_mod]
  | succ k ih =>
    obtain ⟨i1, i2, i3⟩ := ih
    have f1 := (RTIISR_clock_fields (tcnt k).1 (tcnt k).2 readingTimeout FORCE_READING
      (rtiRun tcnt readingTimeout FORCE_READING s k)).1
    have f2 := (RTIISR_timeout_fields (tcnt k).1 (tcnt k).2 readingTimeout FORCE_READING
      (rtiRun tcnt readingTimeout FORCE_READING s k)).1
    have m1 : (rtiRun tcnt readingTimeout FORCE_READING s (k + 1)).realTimeClockMain % 8 =
        (s.realTimeClockMain + (k + 1)) % 8 := by
      rw [rtiRun, f1]
      omega
    refine ⟨m1, by omega, fun hT => ?_⟩
    have i3 := i3 hT
    rw [rtiRun, f2, i2, i3]
    have hlt : (s.realTimeClockMain % 8 + k) / 8 % (readingTimeout + 1) < readingTimeout + 1 :=
      Nat.mod_lt _ (Nat.succ_pos _)
    have hm : ((s.realTimeClockMain % 8 + k) / 8 % (readingTimeout + 1) + 1) % 65536 =
        (s.realTimeClockMain % 8 + k) / 8 % (readingTimeout + 1) + 1 :=
      Nat.mod_eq_of_lt (by omega)
    rw [hm]
    by_cases ht : (s.realTimeClockMain + k + 1) % 8 = 0
    · rw [if_pos ht]
      have hq : (s.realTimeClockMain % 8 + (k + 1)) / 8 =
          (s.realTimeClockMain % 8 + k) / 8 + 1 := by omega
      rw [hq, succ_mod_succ]
      split_ifs <;> omega
    · rw [if_neg ht]
      have hq : (s.realTimeClockMain % 8 + (k + 1)) / 8 =
          (s.realTimeClockMain % 8 + k) / 8 := by omega
      rw [hq]

/-- C35: from `timeoutADCreadingClock = 0`, with `readingTimeout` below 65535,
invocation `n + 1` of `RTIISR` or-s `FORCE_READING` into `coreStatusA` exactly
when it is a millisecond tick, the `k`-th one, and `readingTimeout + 1`
divides `k`, and it then leaves `timeoutADCreadingClock = 0`; every other
invocation leaves `coreStatusA` as it was; after every invocation
`timeoutADCreadingClock <= readingTimeout`; and no invocation, from any state,
clears `FORCE_READING`. -/
theorem adc_reading_timeout (tcnt : Nat → Nat × Nat) (readingTimeout FORCE_READING : Nat)
    (s : RTState) (h0 : s.timeoutADCreadingClock = 0) (hT : readingTimeout < 65535)
    (n : Nat) :
    (∀ k : Nat, s.realTimeClockMain % 8 + n + 1 = 8 * k →
      (rtiRun tcnt readingTimeout FORCE_READING s (n + 1)).coreStatusA =
        (if (readingTimeout + 1) ∣ k then
          (rtiRun tcnt readingTimeout FORCE_READING s n).coreStatusA ||| FORCE_READING
        else (rtiRun tcnt readingTimeout FORCE_READING s n).coreStatusA) ∧
      ((readingTimeout + 1) ∣ k →
        (rtiRun tcnt readingTimeout FORCE_READING s (n + 1)).timeoutADCreadingClock = 0)) ∧
    ((s.realTimeClockMain + n + 1) % 8 ≠ 0 →
      (rtiRun tcnt readingTimeout FORCE_READING s (n + 1)).coreStatusA =
        (rtiRun tcnt readingTimeout FORCE_READING s n).coreStatusA) ∧
    (rtiRun tcnt readingTimeout FORCE_READING s n).timeoutADCreadingClock ≤ readingTimeout ∧
    (∀ (a b : Nat) (x : RTState), x.coreStatusA &&& FORCE_READING = FORCE_READING →
      (RTIISR a b readingTimeout FORCE_READING x).coreStatusA &&& FORCE_READING
        = FORCE_READING) := by
  obtain ⟨_, i2, i3⟩ := rtiRun_timeout tcnt readingTimeout FORCE_READING s h0 n
  have i3 := i3 hT
  have i4 := (rtiRun_timeout tcnt readingTimeout FORCE_READING s h0 (n + 1)).2.2 hT
  have f2 := (RTIISR_timeout_fields (tcnt n).1 (tcnt n).2 readingTimeout FORCE_READING
    (rtiRun tcnt readingTimeout FORCE_READING s n)).2
  have hlt : (s.realTimeClockMain % 8 + n) / 8 % (readingTimeout + 1) < readingTimeout + 1 :=
    Nat.mod_lt _ (Nat.succ_pos _)
  have hm : ((s.realTimeClockMain % 8 + n) / 8 % (readingTimeout + 1) + 1) % 65536 =
      (s.realTimeClockMain % 8 + n) / 8 % (readingTimeout + 1) + 1 :=
    Nat.mod_eq_of_lt (by omega)
  refine ⟨?_, ?_, ?_, ?_⟩
  · intro k hk
    have ht : (s.realTimeClockMain + n + 1) % 8 = 0 := by omega
    have hq : (s.realTimeClockMain % 8 + n) / 8 + 1 = k := by omega
    have hq2 : (s.realTimeClockMain % 8 + (n + 1)) / 8 = k := by omega
    have hs := succ_mod_succ ((s.realTimeClockMain % 8 + n) / 8) readingTimeout
    rw [hq] at hs
    constructor
    · rw [rtiRun, f2, i2, i3, if_pos ht, hm]
      by_cases hc : (s.realTimeClockMain % 8 + n) / 8 % (readingTimeout + 1) = readingTimeout
      · have hd : (readingTimeout + 1) ∣ k := by
          rw [Nat.dvd_iff_mod_eq_zero, hs, if_pos hc]
        rw [if_pos (by omega), if_pos hd]
      · have hd : ¬ (readingTimeout + 1) ∣ k := by
          rw [Nat.dvd_iff_mod_eq_zero, hs, if_neg hc]
          omega
        rw [if_neg (by omega), if_neg hd]
    · intro hd
      rw [i4, hq2]
      exact Nat.mod_eq_zero_of_dvd hd
  · intro ht
    rw [rtiRun, f2, i2, if_neg ht]
  · rw [i3]
    omega
  · intro a b x hx
    rw [(RTIISR_timeout_fields a b readingTimeout FORCE_READING x).2]
    split_ifs
    · exact or_keeps_mask _ _
    · exact hx
    · exact hx

/-- Witness of `adc_reading_timeout`: with `readingTimeout = 1` the clock
stays at most 1 after 16 invocations from the all-zero state. -/
theorem adc_reading_timeout_witness :
    (rtiRun (fun _ => (0, 0)) 1 4 ⟨0, 0, 0, 0, 0, 0, 0, 0, 0, 0, 0, 0, 0, 0, 0, 0, 0⟩
      16).timeoutADCreadingClock ≤ 1 :=
  (adc_reading_timeout (fun _ => (0, 0)) 1 4 ⟨0, 0, 0, 0, 0, 0, 0, 0, 0, 0, 0, 0, 0, 0, 0, 0, 0⟩
    rfl (by decide) 16).2.2.1

/-! ## Parents of the 2D tables -/

/-- A number whose bit 0 is set has the flag `block_has_parent`. -/
theorem has_parent_of_testBit (x : Nat) (h : x.testBit 0 = true) :
    x &&& block_has_parent = block_has_parent := by
  unfold block_has_parent
  rw [Nat.and_one_is_mod]
  rw [Nat.testBit_zero] at h
  simpa using h

/-- When case `c` is the one taken, the parent is what the body of `c`
assigns, or zero, and an ID in the 2D-table range gets the flag
`block_has_parent`. -/
theorem lookup_case_parent (env : String → Nat) (locationID : Nat) (details : blockDetails)
    (c : SwitchCase)
    (h : switchCases.find? (fun c => decide (env c.label = locationID)) = some c) :
    (lookupBlockDetails env locationID details).2.parent =
      (match c.parent with
        | some v => v.eval env
        | none => 0) ∧
    (locationID ≥ env "twoDTableUSLocationLower" ∧
        locationID < env "twoDTableUSLocationUpper" →
      (lookupBlockDetails env locationID details).2.flags &&& block_has_parent
        = block_has_parent) := by
  unfold lookupBlockDetails
  dsimp only
  rw [h]
  dsimp only
  refine ⟨?_, fun hr => ?_⟩
  · split_ifs <;> rfl
  · rw [if_pos hr]
    apply has_parent_of_testBit
    unfold block_has_parent block_is_in_ram block_is_2dus_table block_gets_verified
      block_is_indexable
    split_ifs <;> simp [Nat.testBit_and, Nat.testBit_or, Nat.testBit_xor]

/-- Every first-bank 2D table is a case that assigns the parent
`SmallTablesALocationID`, and every second-bank 2D table is a case that
assigns no parent. -/
theorem table_cases :
    (∀ l ∈ firstBankTableLabels, ∃ c ∈ switchCases,
      c.label = l ∧ c.parent = some (Val.sym "SmallTablesALocationID")) ∧
    (∀ l ∈ secondBankTableLabels, ∃ c ∈ switchCases, c.label = l ∧ c.parent = none) := by
  decide

/-- C37: the case labels being distinct, for a 2D table of `TablesA` whose
ID lies in the 2D-table range `lookupBlockDetails` returns 0 with the flag
`block_has_parent` set; the parent is `SmallTablesALocationID` for a
first-bank table, and 0 for a second-bank table (`...Table2LocationID`). -/
theorem second_bank_table_parent_zero (env : String → Nat) (details : blockDetails)
    (l : String)
    (hnd : (switchCases.map (fun c => env c.label)).Nodup)
    (hlo : env "twoDTableUSLocationLower" ≤ env l)
    (hhi : env l < env "twoDTableUSLocationUpper") :
    (l ∈ secondBankTableLabels →
      (lookupBlockDetails env (env l) details).1 = 0 ∧
      (lookupBlockDetails env (env l) details).2.flags &&& block_has_parent
        = block_has_parent ∧
      (lookupBlockDetails env (env l) details).2.parent = 0) ∧
    (l ∈ firstBankTableLabels →
      (lookupBlockDetails env (env l) details).1 = 0 ∧
      (lookupBlockDetails env (env l) details).2.flags &&& block_has_parent
        = block_has_parent ∧
      (lookupBlockDetails env (env l) details).2.parent = env "SmallTablesALocationID") := by
  constructor
  · intro hl
    obtain ⟨c, hc, hlab, hp⟩ := table_cases.2 l hl
    have hf := find_of_nodup_keys (fun c => env c.label) switchCases c hnd hc
    dsimp only at hf
    rw [hlab] at hf
    obtain ⟨h1, h2⟩ := lookup_case_parent env (env l) details c hf
    rw [hp] at h1
    exact ⟨(lookup_case env (env l) details c hf).1, h2 ⟨hlo, hhi⟩, h1⟩
  · intro hl
    obtain ⟨c, hc, hlab, hp⟩ := table_cases.1 l hl
    have hf := find_of_nodup_keys (fun c => env c.label) switchCases c hnd hc
    dsimp only at hf
    rw [hlab] at hf
    obtain ⟨h1, h2⟩ := lookup_case_parent env (env l) details c hf
    rw [hp] at h1
    exact ⟨(lookup_case env (env l) details c hf).1, h2 ⟨hlo, hhi⟩, h1⟩

set_option maxRecDepth 20000 in
/-- Witness of `second_bank_table_parent_zero`: with the sample constants of
`tableRangeEnv`, the lookup of `dwellDesiredVersusVoltageTable2LocationID`
returns 0 with `block_has_parent` set and parent 0. -/
theorem second_bank_table_parent_zero_witness :
    (lookupBlockDetails tableRangeEnv (tableRangeEnv "dwellDesiredVersusVoltageTable2LocationID")
        ⟨7, 7, 7, 7, 7, 7, 7⟩).1 = 0 ∧
    (lookupBlockDetails tableRangeEnv (tableRangeEnv "dwellDesiredVersusVoltageTable2LocationID")
        ⟨7, 7, 7, 7, 7, 7, 7⟩).2.flags &&& block_has_parent = block_has_parent ∧
    (lookupBlockDetails tableRangeEnv (tableRangeEnv "dwellDesiredVersusVoltageTable2LocationID")
        ⟨7, 7, 7, 7, 7, 7, 7⟩).2.parent = 0 :=
  (second_bank_table_parent_zero tableRangeEnv ⟨7, 7, 7, 7, 7, 7, 7⟩
    "dwellDesiredVersusVoltageTable2LocationID" (by decide) (by decide) (by decide)).1
    (by decide)

end FreeMS2
